import Mathlib

/-!
# learnOpenGL: a shallow embedding of the demo programs

The repository is a set of stand-alone OpenGL demos (`CubeMaps.cpp`, `Demo.cpp`,
`FrameBuffers.cpp`, `Instancing.cpp`, `ParallaxMapping.cpp`, `ParallelShadow.cpp`,
`PointShadow.cpp`, `UniformBuffers.cpp`).  Every demo has the same skeleton

    main:  if (!initOpenGL()) return -1;  load scene;  while (!shouldClose) frame;  return 0;

The native libraries (GLFW, GLAD, OpenGL, glm) are the environment of the programs.  Their
answers (does a call succeed, which key is down, what the clock shows, which object name a
`glGen*` call hands out) are inputs of the model; the calls the programs issue are recorded
in traces or applied to an explicit graphics state.

Conventions:
* the build is the one without `__APPLE__` defined;
* `float` / `double` values are embedded as rationals (exact arithmetic);
* object names (`unsigned int` handles) are natural numbers.
-/

namespace LearnOpenGL

/-! ## Start-up and the render loop (`main`, `initOpenGL`, `processInput`) -/

/-- The eight demo programs, one per source file. -/
inductive Program where
  | CubeMaps
  | Demo
  | FrameBuffers
  | Instancing
  | ParallaxMapping
  | ParallelShadow
  | PointShadow
  | UniformBuffers
  deriving DecidableEq, Repr

/-- Capabilities passed to `glEnable` by `initOpenGL`. -/
inductive Cap where
  | GL_DEPTH_TEST
  | GL_CULL_FACE
  | GL_BLEND
  deriving DecidableEq, Repr

/-- The steps of `main` and `initOpenGL` that are visible from outside, in the order in which
the program performs them.  `loadScene d` stands for everything `main` of demo `d` does between
`initOpenGL` and the render loop (models, textures, shaders, fixed uniforms); `drawFrame d`
stands for the clearing and drawing of one frame of demo `d`; `perFrameTime` is the update of
`deltaTime` / `lastFrame` at the top of the loop body of the demos that have it. -/
inductive Call where
  | glfwInit
  | glfwWindowHint
  | glfwCreateWindow
  | glfwTerminate
  | glfwMakeContextCurrent
  | glfwSetCursorPosCallback
  | glfwSetScrollCallback
  | glfwSetFramebufferSizeCallback
  | gladLoadGLLoader
  | glClearColor
  | glEnable (cap : Cap)
  | glBlendEquation
  | glBlendFunc
  | glfwSetInputMode
  | cerr (msg : String)
  | loadScene (d : Program)
  | perFrameTime
  | showFPS
  | processInput
  | drawFrame (d : Program)
  | glfwPollEvents
  | glfwSwapBuffers
  deriving DecidableEq, Repr

/-- Answers of the three native calls that `initOpenGL` checks: `glfwInit()` is non-zero,
`glfwCreateWindow(...)` is not `NULL`, `gladLoadGLLoader(...)` is non-zero. -/
structure InitEnv where
  glfwInit : Bool
  glfwCreateWindow : Bool
  gladLoadGLLoader : Bool
  deriving DecidableEq, Repr

/-- The demos whose `initOpenGL` calls `glBlendEquation(GL_FUNC_ADD)`. -/
def hasBlendEquation : Program → Bool
  | Program.CubeMaps => true
  | Program.FrameBuffers => true
  | Program.ParallelShadow => true
  | Program.PointShadow => true
  | _ => false

/-- The three `glfwWindowHint` calls and the window creation, up to the `NULL` check. -/
def windowSteps : List Call :=
  [Call.glfwWindowHint, Call.glfwWindowHint, Call.glfwWindowHint, Call.glfwCreateWindow]

/-- The steps between the window check and the GLAD check: the context is made current and the
three callbacks are registered, then `gladLoadGLLoader` is called. -/
def callbackSteps : List Call :=
  [Call.glfwMakeContextCurrent, Call.glfwSetCursorPosCallback, Call.glfwSetScrollCallback,
   Call.glfwSetFramebufferSizeCallback, Call.gladLoadGLLoader]

/-- The tail of `initOpenGL` after the GLAD check: the global GL state and the cursor mode.
`PointShadow` also enables face culling; four demos set the blend equation. -/
def glStateSteps (d : Program) : List Call :=
  [Call.glClearColor, Call.glEnable Cap.GL_DEPTH_TEST]
    ++ (if d = Program.PointShadow then [Call.glEnable Cap.GL_CULL_FACE] else [])
    ++ [Call.glEnable Cap.GL_BLEND]
    ++ (if hasBlendEquation d then [Call.glBlendEquation] else [])
    ++ [Call.glBlendFunc, Call.glfwSetInputMode]

/-- The function `initOpenGL` of demo `d`: the returned flag and the steps performed. -/
def initOpenGL (d : Program) (env : InitEnv) : Bool × List Call :=
  if !env.glfwInit then
    (false, [Call.glfwInit, Call.cerr "GLFW initialization failed"])
  else if !env.glfwCreateWindow then
    (false, [Call.glfwInit] ++ windowSteps
      ++ [Call.cerr "Failed to create GLFW window", Call.glfwTerminate])
  else if !env.gladLoadGLLoader then
    (false, [Call.glfwInit] ++ windowSteps ++ callbackSteps
      ++ [Call.cerr "Failed to initialize GLAD"])
  else
    (true, [Call.glfwInit] ++ windowSteps ++ callbackSteps ++ glStateSteps d)

/-- The part of a GLFW window the render loop looks at: its should-close flag. -/
structure Window where
  shouldClose : Bool
  deriving DecidableEq, Repr

/-- What the environment shows to one iteration of the render loop: whether
`glfwGetKey(window, GLFW_KEY_ESCAPE)` is `GLFW_PRESS` when `processInput` asks, and whether
`glfwPollEvents` delivers a close request of the user for the window. -/
structure FrameInput where
  escape : Bool
  closeRequested : Bool
  deriving DecidableEq, Repr

/-- The library call `glfwSetWindowShouldClose(window, value)`. -/
def glfwSetWindowShouldClose (_w : Window) (value : Bool) : Window :=
  { shouldClose := value }

/-- The function `processInput`, restricted to the window: when Escape is pressed it calls
`glfwSetWindowShouldClose(window, GL_TRUE)`.  The other keys only move the camera or switch
rendering modes and never touch the window. -/
def processInput (w : Window) (inp : FrameInput) : Window :=
  if inp.escape then glfwSetWindowShouldClose w true else w

/-- The library call `glfwPollEvents`: a close request of the user raises the flag. -/
def glfwPollEvents (w : Window) (inp : FrameInput) : Window :=
  if inp.closeRequested then { shouldClose := true } else w

/-- The demos whose loop body begins with the update of `deltaTime` and `lastFrame`. -/
def hasPerFrameTime : Program → Bool
  | Program.CubeMaps => true
  | Program.Instancing => true
  | Program.UniformBuffers => true
  | _ => false

/-- The steps of one iteration of the render loop of demo `d`.  The two shadow demos swap
buffers before polling events, the other demos poll first. -/
def frameCalls (d : Program) : List Call :=
  (if hasPerFrameTime d then [Call.perFrameTime] else [])
    ++ [Call.showFPS, Call.processInput, Call.drawFrame d]
    ++ (if d = Program.ParallelShadow ∨ d = Program.PointShadow
        then [Call.glfwSwapBuffers, Call.glfwPollEvents]
        else [Call.glfwPollEvents, Call.glfwSwapBuffers])

/-- The effect of one iteration of the loop body on the window: `processInput`, then (after
drawing, which does not touch the window) `glfwPollEvents`. -/
def frameStep (w : Window) (inp : FrameInput) : Window :=
  glfwPollEvents (processInput w inp) inp

/-- The loop `while (!glfwWindowShouldClose(gWindow)) { ... }`.  `k` is the number of
iterations done so far; every evaluation of the loop condition uses one unit of fuel.  The
result is the window and the trace at the moment the loop is left. -/
def renderLoop (d : Program) (frames : Nat → FrameInput) :
    Nat → Nat → Window → List Call → Option (Window × List Call)
  | 0, _, _, _ => none
  | fuel + 1, k, w, tr =>
    if w.shouldClose then some (w, tr)
    else renderLoop d frames fuel (k + 1) (frameStep w (frames k)) (tr ++ frameCalls d)

/-- Everything the environment decides during one run of a demo. -/
structure Env where
  init : InitEnv
  created : Window
  frames : Nat → FrameInput

/-- How a run of `main` ends: the exit code, the window as it is when `main` returns (`none`
when start-up failed) and the steps performed. -/
structure Outcome where
  code : Int
  window : Option Window
  trace : List Call
  deriving DecidableEq, Repr

/-- The function `main` of demo `d`. -/
def main (d : Program) (env : Env) (fuel : Nat) : Option Outcome :=
  match initOpenGL d env.init with
  | (false, tr) =>
    some { code := -1, window := none, trace := tr ++ [Call.cerr "GLFW initialization failed"] }
  | (true, tr) =>
    match renderLoop d env.frames fuel 0 env.created (tr ++ [Call.loadScene d]) with
    | none => none
    | some (w, tr') => some { code := 0, window := some w, trace := tr' ++ [Call.glfwTerminate] }

/-- The window as the `n`-th evaluation of the loop condition would see it if the loop ran on. -/
def windowAt (frames : Nat → FrameInput) (w0 : Window) : Nat → Window
  | 0 => w0
  | n + 1 => frameStep (windowAt frames w0 n) (frames n)

/-! ## Vectors and matrices (`glm`)

`glm` stores a matrix as its columns: `m[c]` is column `c`, a vector. -/

/-- A `glm::vec3`. -/
structure vec3 where
  x : ℚ
  y : ℚ
  z : ℚ
  deriving DecidableEq, Repr

/-- A `glm::vec4`. -/
structure vec4 where
  x : ℚ
  y : ℚ
  z : ℚ
  w : ℚ
  deriving DecidableEq, Repr

/-- A `glm::mat4`, given by its four columns. -/
structure mat4 where
  c0 : vec4
  c1 : vec4
  c2 : vec4
  c3 : vec4
  deriving DecidableEq, Repr

/-- The product `m * v` of a `mat4` and a `vec4`: the columns of `m` weighted by `v`. -/
def mat4.mulVec (m : mat4) (v : vec4) : vec4 :=
  ⟨m.c0.x * v.x + m.c1.x * v.y + m.c2.x * v.z + m.c3.x * v.w,
   m.c0.y * v.x + m.c1.y * v.y + m.c2.y * v.z + m.c3.y * v.w,
   m.c0.z * v.x + m.c1.z * v.y + m.c2.z * v.z + m.c3.z * v.w,
   m.c0.w * v.x + m.c1.w * v.y + m.c2.w * v.z + m.c3.w * v.w⟩

/-- Rounding to the nearest integer, ties to the even one. -/
def roundHalfEven (x : ℚ) : Int :=
  if x - ⌊x⌋ < 1 / 2 then ⌊x⌋
  else if 1 / 2 < x - ⌊x⌋ then ⌊x⌋ + 1
  else if ⌊x⌋ % 2 = 0 then ⌊x⌋ else ⌊x⌋ + 1

/-- The value `x` rounded to the nearest binary floating-point number with a significand of
`p` bits and least exponent `emin` (subnormal numbers included), ties to even: the spacing of
the numbers around `x` is `2 ^ (e - (p - 1))`, where `2 ^ e <= |x| < 2 ^ (e + 1)` and `e` is
not taken below `emin`. -/
def roundTo (p : Nat) (emin : Int) (x : ℚ) : ℚ :=
  if x = 0 then 0
  else roundHalfEven (x / 2 ^ (max (Int.log 2 |x|) emin - ((p : Int) - 1)))
    * 2 ^ (max (Int.log 2 |x|) emin - ((p : Int) - 1))

/-- Conversion to `float` (binary32): the result of a `float` operation, of a conversion from
`double`, and the value of a literal with the suffix `f`. -/
def toFloat (x : ℚ) : ℚ := roundTo 24 (-126) x

/-- Rounding to `double` (binary64): the result of a `double` operation. -/
def toDouble (x : ℚ) : ℚ := roundTo 53 (-1022) x

/-- The global `texture_skybox_index`. -/
def texture_skybox_index : Nat := 15

/-- The global `skyboxVertices`: a flat array of floats, three per vertex. -/
def skyboxVertices : List ℚ :=
  [ -- front
    -1, -1,  1,
     1, -1,  1,
     1,  1,  1,
    -1,  1,  1,
    -- back
    -1, -1, -1,
     1, -1, -1,
     1,  1, -1,
    -1,  1, -1 ]

/-- The global `skyboxElements`: a flat array of vertex indices, three per triangle. -/
def skyboxElements : List Nat :=
  [ -- right
    1, 5, 6,
    6, 2, 1,
    -- left
    4, 0, 3,
    3, 7, 4,
    -- top
    3, 2, 6,
    6, 7, 3,
    -- bottom
    4, 5, 1,
    1, 0, 4,
    -- front
    0, 1, 2,
    2, 3, 0,
    -- back
    7, 6, 5,
    5, 4, 7 ]

/-- Size in bytes of a `float` and of an `unsigned int`. -/
def sizeofFloat : Nat := 4

/-- Size in bytes of an `unsigned int`. -/
def sizeofUInt : Nat := 4

/-- Reading a flat array three entries at a time, as the attribute pointer
`glVertexAttribPointer(0, 3, GL_FLOAT, GL_FALSE, 3 * sizeof(float), NULL)` and the primitive
mode `GL_TRIANGLES` do. -/
def triples {α : Type} : List α → List (α × α × α)
  | a :: b :: c :: rest => (a, b, c) :: triples rest
  | _ => []

/-- The vertex positions the vertex shader receives. -/
def skyboxPositions : List vec3 :=
  (triples skyboxVertices).map fun t => ⟨t.1, t.2.1, t.2.2⟩

/-- The triangles drawn by `glDrawElements(GL_TRIANGLES, ...)`, as index triples. -/
def skyboxTriangles : List (Nat × Nat × Nat) := triples skyboxElements

/-- Position of the vertex with index `i` (the origin for an index outside the buffer). -/
def skyboxVertex (i : Nat) : vec3 := skyboxPositions.getD i ⟨0, 0, 0⟩

/-- The eight corners of the cube `{-1, 1}^3`. -/
def cubeCorners : List vec3 :=
  [⟨-1, -1, -1⟩, ⟨-1, -1, 1⟩, ⟨-1, 1, -1⟩, ⟨-1, 1, 1⟩,
   ⟨1, -1, -1⟩, ⟨1, -1, 1⟩, ⟨1, 1, -1⟩, ⟨1, 1, 1⟩]

/-- The coordinate axes. -/
inductive Axis where
  | X
  | Y
  | Z
  deriving DecidableEq, Repr

/-- The coordinate of a vector along an axis. -/
def vec3.coord (v : vec3) : Axis → ℚ
  | Axis.X => v.x
  | Axis.Y => v.y
  | Axis.Z => v.z

/-- A face of the cube: the corners whose coordinate along `axis` is `side` (`1` or `-1`). -/
structure Face where
  axis : Axis
  side : ℚ
  deriving DecidableEq, Repr

/-- The faces in the order of the comments of `skyboxElements`: right, left, top, bottom,
front, back. -/
def faceOrder : List Face :=
  [⟨Axis.X, 1⟩, ⟨Axis.X, -1⟩, ⟨Axis.Y, 1⟩, ⟨Axis.Y, -1⟩, ⟨Axis.Z, 1⟩, ⟨Axis.Z, -1⟩]

/-- The four corners of a face. -/
def Face.corners (f : Face) : List vec3 := cubeCorners.filter fun c => c.coord f.axis = f.side

/-- Consecutive pairs of triangles. -/
def pairs {α : Type} : List α → List (α × α)
  | a :: b :: rest => (a, b) :: pairs rest
  | _ => []

/-- The positions of the six vertices a pair of triangles refers to. -/
def pairVertices (p : (Nat × Nat × Nat) × (Nat × Nat × Nat)) : List vec3 :=
  [p.1.1, p.1.2.1, p.1.2.2, p.2.1, p.2.2.1, p.2.2.2].map skyboxVertex

/-- Two lists have the same elements. -/
def sameElements (l₁ l₂ : List vec3) : Bool :=
  l₁.all (fun v => l₂.contains v) && l₂.all (fun v => l₁.contains v)

/-! ## The graphics state

The OpenGL context is modelled by the names of the live objects of each kind, the current
bindings, the depth state, and the list of calls received so far.  The standard error stream
of the program is kept in the same record. -/

/-- The symbolic constants (`GLenum` values) used by the wrapper classes. `texCubeFace i` is
`GL_TEXTURE_CUBE_MAP_POSITIVE_X + i`. -/
inductive GLenum where
  | GL_NONE
  | GL_FRAMEBUFFER
  | GL_RENDERBUFFER
  | GL_TEXTURE_2D
  | GL_TEXTURE_CUBE_MAP
  | texCubeFace (i : Nat)
  | GL_ARRAY_BUFFER
  | GL_ELEMENT_ARRAY_BUFFER
  | GL_STATIC_DRAW
  | GL_RGB
  | GL_DEPTH_COMPONENT
  | GL_DEPTH24_STENCIL8
  | GL_UNSIGNED_BYTE
  | GL_UNSIGNED_INT
  | GL_FLOAT
  | GL_TEXTURE_MIN_FILTER
  | GL_TEXTURE_MAG_FILTER
  | GL_TEXTURE_WRAP_S
  | GL_TEXTURE_WRAP_T
  | GL_TEXTURE_WRAP_R
  | GL_TEXTURE_BORDER_COLOR
  | GL_LINEAR
  | GL_NEAREST
  | GL_CLAMP_TO_BORDER
  | GL_CLAMP_TO_EDGE
  | GL_COLOR_ATTACHMENT0
  | GL_DEPTH_ATTACHMENT
  | GL_DEPTH_STENCIL_ATTACHMENT
  | GL_TRIANGLES
  | GL_LESS
  | GL_LEQUAL
  | GL_UNIFORM_BUFFER
  | GL_FRONT
  | GL_BACK
  deriving DecidableEq, Repr

/-- The value `GL_FRAMEBUFFER_COMPLETE` of the OpenGL headers. -/
def GL_FRAMEBUFFER_COMPLETE : Nat := 0x8CD5

set_option maxHeartbeats 4000000 in
/-- The calls the programs send to the graphics library, with their arguments.  For the
`glGen*` calls the argument is the name the library handed out.  `useProgram` and the
`uniform*` calls are the ones made through the shader wrapper; `drawObject` is the `Draw`
method of a `Cube`, `Plane` or `Model`, classes of `Primitives.h` and `Model.h`. -/
inductive GLCall where
  | glGenBuffers (name : Nat)
  | glGenVertexArrays (name : Nat)
  | glGenTextures (name : Nat)
  | glGenFramebuffers (name : Nat)
  | glGenRenderbuffers (name : Nat)
  | glDeleteFramebuffers (name : Nat)
  | glDeleteRenderbuffers (name : Nat)
  | glBindBuffer (target : GLenum) (name : Nat)
  | glBindVertexArray (name : Nat)
  | glBindTexture (target : GLenum) (name : Nat)
  | glBindFramebuffer (target : GLenum) (name : Nat)
  | glBindRenderbuffer (target : GLenum) (name : Nat)
  | glBufferData (target : GLenum) (size : Nat) (usage : GLenum)
  | glEnableVertexAttribArray (index : Nat)
  | glVertexAttribPointer (index size : Nat) (type : GLenum) (normalized : Bool)
      (stride pointer : Nat)
  | glTexImage2D (target : GLenum) (level : Nat) (internalformat : GLenum) (width height : Int)
      (border : Nat) (format type : GLenum)
  | glTexParameteri (target pname param : GLenum)
  | glTexParameterfv (target pname : GLenum) (params : List ℚ)
  | glFramebufferTexture2D (target attachment textarget : GLenum) (texture level : Nat)
  | glFramebufferTexture (target attachment : GLenum) (texture level : Nat)
  | glRenderbufferStorage (target internalformat : GLenum) (width height : Int)
  | glFramebufferRenderbuffer (target attachment renderbuffertarget : GLenum)
      (renderbuffer : Nat)
  | glCheckFramebufferStatus (target : GLenum)
  | glDrawBuffer (mode : GLenum)
  | glReadBuffer (mode : GLenum)
  | glDepthMask (flag : Bool)
  | glDepthFunc (func : GLenum)
  | glActiveTexture (unit : Nat)
  | glDrawElements (mode : GLenum) (count : Nat) (type : GLenum) (indices : Nat)
  | useProgram (program : Nat)
  | uniformMat4 (program : Nat) (name : String) (value : mat4)
  | uniformInt (program : Nat) (name : String) (value : Int)
  | uniformFloat (program : Nat) (name : String) (value : ℚ)
  | uniformVec3 (program : Nat) (name : String) (value : vec3)
  | uniformBool (program : Nat) (name : String) (value : Bool)
  | glClearColor (red green blue alpha : ℚ)
  | glClear (colorBit depthBit : Bool)
  | glViewport (x y width height : Int)
  | glCullFace (mode : GLenum)
  | glEnable (cap : Cap)
  | glDisable (cap : Cap)
  | glGetUniformBlockIndex (program : Nat) (name : String)
  | glUniformBlockBinding (program index binding : Nat)
  | glBindBufferRange (target : GLenum) (index buffer offset size : Nat)
  | glBufferSubData (target : GLenum) (offset size : Nat) (data : mat4)
  | glVertexAttribDivisor (index divisor : Nat)
  | glDrawElementsInstanced (mode : GLenum) (count : Nat) (type : GLenum)
      (indices instancecount : Nat)
  | drawObject (label : String)
  deriving DecidableEq, Repr

/-- The graphics context together with the standard error stream of the program. -/
structure GLState where
  buffers : List Nat
  vertexArrays : List Nat
  textures : List Nat
  framebuffers : List Nat
  renderbuffers : List Nat
  boundArrayBuffer : Nat
  boundVertexArray : Nat
  boundFramebuffer : Nat
  boundRenderbuffer : Nat
  activeTexture : Nat
  boundTextures : List ((Nat × GLenum) × Nat)
  depthMask : Bool
  depthFunc : GLenum
  currentProgram : Nat
  calls : List GLCall
  cerr : List String
  deriving DecidableEq, Repr

/-- A freshly created context: no objects, default bindings and depth state. -/
def GLState.initial : GLState :=
  { buffers := [], vertexArrays := [], textures := [], framebuffers := [], renderbuffers := [],
    boundArrayBuffer := 0, boundVertexArray := 0, boundFramebuffer := 0, boundRenderbuffer := 0,
    activeTexture := 0, boundTextures := [], depthMask := true, depthFunc := GLenum.GL_LESS,
    currentProgram := 0, calls := [], cerr := [] }

/-- A name that is not in use: the library may hand out any unused non-zero name, the model
takes the one above all names in use. -/
def freshName (used : List Nat) : Nat := used.foldr max 0 + 1

/-- Appends a call to the record of calls. -/
def GLState.record (s : GLState) (c : GLCall) : GLState := { s with calls := s.calls ++ [c] }

/-- The call `glGenBuffers(1, &name)`. -/
def glGenBuffers (s : GLState) : Nat × GLState :=
  let n := freshName s.buffers
  (n, { s with buffers := n :: s.buffers }.record (GLCall.glGenBuffers n))

/-- The call `glGenVertexArrays(1, &name)`. -/
def glGenVertexArrays (s : GLState) : Nat × GLState :=
  let n := freshName s.vertexArrays
  (n, { s with vertexArrays := n :: s.vertexArrays }.record (GLCall.glGenVertexArrays n))

/-- The call `glGenTextures(1, &name)`. -/
def glGenTextures (s : GLState) : Nat × GLState :=
  let n := freshName s.textures
  (n, { s with textures := n :: s.textures }.record (GLCall.glGenTextures n))

/-- The call `glGenFramebuffers(1, &name)`. -/
def glGenFramebuffers (s : GLState) : Nat × GLState :=
  let n := freshName s.framebuffers
  (n, { s with framebuffers := n :: s.framebuffers }.record (GLCall.glGenFramebuffers n))

/-- The call `glGenRenderbuffers(1, &name)`. -/
def glGenRenderbuffers (s : GLState) : Nat × GLState :=
  let n := freshName s.renderbuffers
  (n, { s with renderbuffers := n :: s.renderbuffers }.record (GLCall.glGenRenderbuffers n))

/-- The call `glDeleteFramebuffers(1, &name)`: the object dies; if it was bound, the default
framebuffer `0` becomes bound. -/
def glDeleteFramebuffers (name : Nat) (s : GLState) : GLState :=
  { s with
    framebuffers := s.framebuffers.filter (fun n => n ≠ name)
    boundFramebuffer := if s.boundFramebuffer = name then 0 else s.boundFramebuffer }.record
    (GLCall.glDeleteFramebuffers name)

/-- The call `glDeleteRenderbuffers(1, &name)`: the object dies; if it was bound, the binding
reverts to `0`. -/
def glDeleteRenderbuffers (name : Nat) (s : GLState) : GLState :=
  { s with
    renderbuffers := s.renderbuffers.filter (fun n => n ≠ name)
    boundRenderbuffer := if s.boundRenderbuffer = name then 0 else s.boundRenderbuffer }.record
    (GLCall.glDeleteRenderbuffers name)

/-- The call `glBindBuffer(target, name)`; only the `GL_ARRAY_BUFFER` binding is context state
(the element array binding belongs to the bound vertex array object). -/
def glBindBuffer (target : GLenum) (name : Nat) (s : GLState) : GLState :=
  { s with
    boundArrayBuffer :=
      if target = GLenum.GL_ARRAY_BUFFER then name else s.boundArrayBuffer }.record
    (GLCall.glBindBuffer target name)

/-- The call `glBindVertexArray(name)`. -/
def glBindVertexArray (name : Nat) (s : GLState) : GLState :=
  { s with boundVertexArray := name }.record (GLCall.glBindVertexArray name)

/-- The call `glBindTexture(target, name)`: binds on the active texture unit. -/
def glBindTexture (target : GLenum) (name : Nat) (s : GLState) : GLState :=
  { s with
    boundTextures := ((s.activeTexture, target), name) ::
      s.boundTextures.filter (fun b => b.1 ≠ (s.activeTexture, target)) }.record
    (GLCall.glBindTexture target name)

/-- The call `glBindFramebuffer(GL_FRAMEBUFFER, name)`. -/
def glBindFramebuffer (target : GLenum) (name : Nat) (s : GLState) : GLState :=
  { s with boundFramebuffer := name }.record (GLCall.glBindFramebuffer target name)

/-- The call `glBindRenderbuffer(GL_RENDERBUFFER, name)`. -/
def glBindRenderbuffer (target : GLenum) (name : Nat) (s : GLState) : GLState :=
  { s with boundRenderbuffer := name }.record (GLCall.glBindRenderbuffer target name)

/-- The call `glActiveTexture(GL_TEXTURE0 + unit)`; the argument of the model is the offset
`unit` from `GL_TEXTURE0`. -/
def glActiveTexture (unit : Nat) (s : GLState) : GLState :=
  { s with activeTexture := unit }.record (GLCall.glActiveTexture unit)

/-- The call `glDepthMask(flag)`. -/
def glDepthMask (flag : Bool) (s : GLState) : GLState :=
  { s with depthMask := flag }.record (GLCall.glDepthMask flag)

/-- The call `glDepthFunc(func)`. -/
def glDepthFunc (func : GLenum) (s : GLState) : GLState :=
  { s with depthFunc := func }.record (GLCall.glDepthFunc func)

/-- Writing a line to `std::cerr`. -/
def GLState.print (s : GLState) (msg : String) : GLState := { s with cerr := s.cerr ++ [msg] }

/-! ## The shader wrapper -/

/-- Modelled from the spec: the class `Shader` of `ShaderProgram.h` is not among the source
files; following the spec it is a thin wrapper over the native calls, so a shader is the name
of its program object, `use` makes it current and `setUniform` forwards one value to it. -/
structure Shader where
  id : Nat
  deriving DecidableEq, Repr

/-- Modelled from the spec: `Shader::use` of `ShaderProgram.h`, the program becomes current. -/
def Shader.use (sh : Shader) (s : GLState) : GLState :=
  { s with currentProgram := sh.id }.record (GLCall.useProgram sh.id)

/-- Modelled from the spec: `Shader::setUniform` of `ShaderProgram.h` for a `glm::mat4`. -/
def Shader.setUniformMat4 (sh : Shader) (name : String) (value : mat4) (s : GLState) : GLState :=
  s.record (GLCall.uniformMat4 sh.id name value)

/-- Modelled from the spec: `Shader::setUniform` of `ShaderProgram.h` for an `int`. -/
def Shader.setUniformInt (sh : Shader) (name : String) (value : Int) (s : GLState) : GLState :=
  s.record (GLCall.uniformInt sh.id name value)

/-! ## The class `Skybox` (`CubeMaps.cpp`) -/

/-- The data members of `Skybox`. -/
structure Skybox where
  vbo : Nat
  vao : Nat
  ebo : Nat
  tid : Nat
  deriving DecidableEq, Repr

/-- The size argument of the vertex `glBufferData` call of `Skybox::setup`. -/
def skyboxVertexBytes : Nat := sizeofFloat * skyboxVertices.length

/-- The size argument of the element `glBufferData` call of `Skybox::setup`. -/
def skyboxElementBytes : Nat := sizeofUInt * skyboxElements.length

/-- The stride argument of the `glVertexAttribPointer` call of `Skybox::setup`. -/
def skyboxStride : Nat := 3 * sizeofFloat

/-- The method `Skybox::setup`. It assigns `vbo`, `ebo` and `vao`; `tid` keeps its value. -/
def Skybox.setup (self : Skybox) (s : GLState) : Skybox × GLState :=
  let (vbo, s) := glGenBuffers s
  let (ebo, s) := glGenBuffers s
  let (vao, s) := glGenVertexArrays s
  let s := glBindVertexArray vao s
  let s := glBindBuffer GLenum.GL_ARRAY_BUFFER vbo s
  let s := s.record (GLCall.glBufferData GLenum.GL_ARRAY_BUFFER skyboxVertexBytes
    GLenum.GL_STATIC_DRAW)
  let s := glBindBuffer GLenum.GL_ELEMENT_ARRAY_BUFFER ebo s
  let s := s.record (GLCall.glBufferData GLenum.GL_ELEMENT_ARRAY_BUFFER skyboxElementBytes
    GLenum.GL_STATIC_DRAW)
  let s := s.record (GLCall.glEnableVertexAttribArray 0)
  let s := s.record (GLCall.glVertexAttribPointer 0 3 GLenum.GL_FLOAT false skyboxStride 0)
  let s := glBindVertexArray 0 s
  ({ self with vbo := vbo, ebo := ebo, vao := vao }, s)

/-- The count argument of the `glDrawElements` call of `Skybox::Draw`. -/
def skyboxDrawCount : Nat := skyboxElements.length

/-- The method `Skybox::Draw`. -/
def Skybox.Draw (self : Skybox) (shader : Shader) (view projection : mat4) (s : GLState) :
    GLState :=
  let s := shader.use s
  let s := shader.setUniformMat4 "uView" view s
  let s := shader.setUniformMat4 "uProjection" projection s
  let s := shader.setUniformInt "uSkybox" 0 s
  let s := glDepthMask false s
  let s := glDepthFunc GLenum.GL_LEQUAL s
  let s := glBindVertexArray self.vao s
  let s := glActiveTexture texture_skybox_index s
  let s := glBindTexture GLenum.GL_TEXTURE_CUBE_MAP self.tid s
  let s := s.record (GLCall.glDrawElements GLenum.GL_TRIANGLES skyboxDrawCount
    GLenum.GL_UNSIGNED_INT 0)
  let s := glBindVertexArray 0 s
  let s := glActiveTexture 0 s
  let s := glDepthFunc GLenum.GL_LESS s
  let s := glDepthMask true s
  s

/-- The destruction of a `Skybox`: the class declares no destructor, the compiler-generated
one issues no call. -/
def Skybox.destroy (_self : Skybox) (s : GLState) : GLState := s

/-- The factor `display_device_revise` / `ratio` of `FrameBuffer::setup`. -/
def display_device_revise : Int := 1

/-- The message `FrameBuffer::setup` prints for an incomplete framebuffer. -/
def framebufferMessage : String := "ERROR: Framebuffer is not complete!\n"

/-- The call `glCheckFramebufferStatus(target)`; `answer` is the value the library returns. -/
def glCheckFramebufferStatus (target : GLenum) (answer : Nat) (s : GLState) : Nat × GLState :=
  (answer, s.record (GLCall.glCheckFramebufferStatus target))

namespace FrameBuffers

/-- The data members of `FrameBuffer` in `FrameBuffers.cpp`. -/
structure FrameBuffer where
  fbo : Nat
  tid : Nat
  rbo : Nat
  deriving DecidableEq, Repr

/-- The method `FrameBuffer::setup(int width, int height)` of `FrameBuffers.cpp`; `answer` is the
value returned by the completeness check. -/
def FrameBuffer.setup (width height : Int) (answer : Nat) (s : GLState) :
    FrameBuffer × GLState :=
  let width := width * display_device_revise
  let height := height * display_device_revise
  let (fbo, s) := glGenFramebuffers s
  let s := glBindFramebuffer GLenum.GL_FRAMEBUFFER fbo s
  let (tid, s) := glGenTextures s
  let s := glBindTexture GLenum.GL_TEXTURE_2D tid s
  let s := s.record (GLCall.glTexImage2D GLenum.GL_TEXTURE_2D 0 GLenum.GL_RGB width height 0
    GLenum.GL_RGB GLenum.GL_UNSIGNED_BYTE)
  let s := s.record (GLCall.glTexParameteri GLenum.GL_TEXTURE_2D GLenum.GL_TEXTURE_MIN_FILTER
    GLenum.GL_LINEAR)
  let s := s.record (GLCall.glTexParameteri GLenum.GL_TEXTURE_2D GLenum.GL_TEXTURE_MAG_FILTER
    GLenum.GL_LINEAR)
  let s := s.record (GLCall.glFramebufferTexture2D GLenum.GL_FRAMEBUFFER
    GLenum.GL_COLOR_ATTACHMENT0 GLenum.GL_TEXTURE_2D tid 0)
  let (rbo, s) := glGenRenderbuffers s
  let s := glBindRenderbuffer GLenum.GL_RENDERBUFFER rbo s
  let s := s.record (GLCall.glRenderbufferStorage GLenum.GL_RENDERBUFFER
    GLenum.GL_DEPTH24_STENCIL8 width height)
  let s := s.record (GLCall.glFramebufferRenderbuffer GLenum.GL_FRAMEBUFFER
    GLenum.GL_DEPTH_STENCIL_ATTACHMENT GLenum.GL_RENDERBUFFER rbo)
  let (status, s) := glCheckFramebufferStatus GLenum.GL_FRAMEBUFFER answer s
  let s := if status ≠ GL_FRAMEBUFFER_COMPLETE then s.print framebufferMessage else s
  let s := glBindFramebuffer GLenum.GL_FRAMEBUFFER 0 s
  ({ fbo := fbo, tid := tid, rbo := rbo }, s)

/-- The destructor `~FrameBuffer` of `FrameBuffers.cpp`. -/
def FrameBuffer.destroy (self : FrameBuffer) (s : GLState) : GLState :=
  let s := glDeleteFramebuffers self.fbo s
  let s := glDeleteRenderbuffers self.rbo s
  s

end FrameBuffers

namespace Demo

/-- The data members of `FrameBuffer` in `Demo.cpp`. -/
structure FrameBuffer where
  width : Int
  height : Int
  fbo : Nat
  tid : Nat
  rbo : Nat
  deriving DecidableEq, Repr

/-- The method `FrameBuffer::setup()` of `Demo.cpp`; `answer` is the value returned by the
completeness check. -/
def FrameBuffer.setup (self : FrameBuffer) (answer : Nat) (s : GLState) :
    FrameBuffer × GLState :=
  let ratio := display_device_revise
  let (fbo, s) := glGenFramebuffers s
  let s := glBindFramebuffer GLenum.GL_FRAMEBUFFER fbo s
  let (tid, s) := glGenTextures s
  let s := glBindTexture GLenum.GL_TEXTURE_2D tid s
  let s := s.record (GLCall.glTexImage2D GLenum.GL_TEXTURE_2D 0 GLenum.GL_RGB
    (ratio * self.width) (ratio * self.height) 0 GLenum.GL_RGB GLenum.GL_UNSIGNED_BYTE)
  let s := s.record (GLCall.glTexParameteri GLenum.GL_TEXTURE_2D GLenum.GL_TEXTURE_MIN_FILTER
    GLenum.GL_LINEAR)
  let s := s.record (GLCall.glTexParameteri GLenum.GL_TEXTURE_2D GLenum.GL_TEXTURE_MAG_FILTER
    GLenum.GL_LINEAR)
  let s := s.record (GLCall.glFramebufferTexture2D GLenum.GL_FRAMEBUFFER
    GLenum.GL_COLOR_ATTACHMENT0 GLenum.GL_TEXTURE_2D tid 0)
  let (rbo, s) := glGenRenderbuffers s
  let s := glBindRenderbuffer GLenum.GL_RENDERBUFFER rbo s
  let s := s.record (GLCall.glRenderbufferStorage GLenum.GL_RENDERBUFFER
    GLenum.GL_DEPTH24_STENCIL8 (ratio * self.width) (ratio * self.height))
  let s := s.record (GLCall.glFramebufferRenderbuffer GLenum.GL_FRAMEBUFFER
    GLenum.GL_DEPTH_STENCIL_ATTACHMENT GLenum.GL_RENDERBUFFER rbo)
  let (status, s) := glCheckFramebufferStatus GLenum.GL_FRAMEBUFFER answer s
  let s := if status ≠ GL_FRAMEBUFFER_COMPLETE then s.print framebufferMessage else s
  let s := glBindFramebuffer GLenum.GL_FRAMEBUFFER 0 s
  ({ self with fbo := fbo, tid := tid, rbo := rbo }, s)

/-- The destructor `~FrameBuffer` of `Demo.cpp`. -/
def FrameBuffer.destroy (self : FrameBuffer) (s : GLState) : GLState :=
  let s := glDeleteFramebuffers self.fbo s
  let s := glDeleteRenderbuffers self.rbo s
  s

end Demo

/-! ## The class `DepthMap` (`ParallelShadow.cpp` and `PointShadow.cpp`) -/

namespace ParallelShadow

/-- The data members of `DepthMap` in `ParallelShadow.cpp`. -/
structure DepthMap where
  width : Int
  height : Int
  fbo : Nat
  tid : Nat
  deriving DecidableEq, Repr

/-- The method `DepthMap::setup` of `ParallelShadow.cpp`. -/
def DepthMap.setup (self : DepthMap) (s : GLState) : DepthMap × GLState :=
  let (tid, s) := glGenTextures s
  let s := glBindTexture GLenum.GL_TEXTURE_2D tid s
  let s := s.record (GLCall.glTexImage2D GLenum.GL_TEXTURE_2D 0 GLenum.GL_DEPTH_COMPONENT
    self.width self.height 0 GLenum.GL_DEPTH_COMPONENT GLenum.GL_FLOAT)
  let s := s.record (GLCall.glTexParameteri GLenum.GL_TEXTURE_2D GLenum.GL_TEXTURE_MIN_FILTER
    GLenum.GL_NEAREST)
  let s := s.record (GLCall.glTexParameteri GLenum.GL_TEXTURE_2D GLenum.GL_TEXTURE_MAG_FILTER
    GLenum.GL_NEAREST)
  let s := s.record (GLCall.glTexParameteri GLenum.GL_TEXTURE_2D GLenum.GL_TEXTURE_WRAP_S
    GLenum.GL_CLAMP_TO_BORDER)
  let s := s.record (GLCall.glTexParameteri GLenum.GL_TEXTURE_2D GLenum.GL_TEXTURE_WRAP_T
    GLenum.GL_CLAMP_TO_BORDER)
  let borderColor : List ℚ := [1, 1, 1, 1]
  let s := s.record (GLCall.glTexParameterfv GLenum.GL_TEXTURE_2D
    GLenum.GL_TEXTURE_BORDER_COLOR borderColor)
  let (fbo, s) := glGenFramebuffers s
  let s := glBindFramebuffer GLenum.GL_FRAMEBUFFER fbo s
  let s := s.record (GLCall.glFramebufferTexture2D GLenum.GL_FRAMEBUFFER
    GLenum.GL_DEPTH_ATTACHMENT GLenum.GL_TEXTURE_2D tid 0)
  let s := s.record (GLCall.glDrawBuffer GLenum.GL_NONE)
  let s := s.record (GLCall.glReadBuffer GLenum.GL_NONE)
  let s := glBindFramebuffer GLenum.GL_FRAMEBUFFER 0 s
  ({ self with fbo := fbo, tid := tid }, s)

/-- The destructor `~DepthMap` of `ParallelShadow.cpp`. -/
def DepthMap.destroy (self : DepthMap) (s : GLState) : GLState :=
  glDeleteFramebuffers self.fbo s

end ParallelShadow

namespace PointShadow

/-- The data members of `DepthMap` in `PointShadow.cpp`. -/
structure DepthMap where
  width : Int
  height : Int
  near : ℚ
  far : ℚ
  fbo : Nat
  tid : Nat
  deriving DecidableEq, Repr

/-- The method `DepthMap::setup` of `PointShadow.cpp`. -/
def DepthMap.setup (self : DepthMap) (s : GLState) : DepthMap × GLState :=
  let (tid, s) := glGenTextures s
  let s := glBindTexture GLenum.GL_TEXTURE_CUBE_MAP tid s
  let s := (List.range 6).foldl (fun s i =>
    s.record (GLCall.glTexImage2D (GLenum.texCubeFace i) 0 GLenum.GL_DEPTH_COMPONENT
      self.width self.height 0 GLenum.GL_DEPTH_COMPONENT GLenum.GL_FLOAT)) s
  let s := s.record (GLCall.glTexParameteri GLenum.GL_TEXTURE_CUBE_MAP
    GLenum.GL_TEXTURE_MIN_FILTER GLenum.GL_NEAREST)
  let s := s.record (GLCall.glTexParameteri GLenum.GL_TEXTURE_CUBE_MAP
    GLenum.GL_TEXTURE_MAG_FILTER GLenum.GL_NEAREST)
  let s := s.record (GLCall.glTexParameteri GLenum.GL_TEXTURE_CUBE_MAP
    GLenum.GL_TEXTURE_WRAP_S GLenum.GL_CLAMP_TO_EDGE)
  let s := s.record (GLCall.glTexParameteri GLenum.GL_TEXTURE_CUBE_MAP
    GLenum.GL_TEXTURE_WRAP_T GLenum.GL_CLAMP_TO_EDGE)
  let s := s.record (GLCall.glTexParameteri GLenum.GL_TEXTURE_CUBE_MAP
    GLenum.GL_TEXTURE_WRAP_R GLenum.GL_CLAMP_TO_EDGE)
  let (fbo, s) := glGenFramebuffers s
  let s := glBindFramebuffer GLenum.GL_FRAMEBUFFER fbo s
  let s := s.record (GLCall.glFramebufferTexture GLenum.GL_FRAMEBUFFER
    GLenum.GL_DEPTH_ATTACHMENT tid 0)
  let s := s.record (GLCall.glDrawBuffer GLenum.GL_NONE)
  let s := s.record (GLCall.glReadBuffer GLenum.GL_NONE)
  let s := glBindFramebuffer GLenum.GL_FRAMEBUFFER 0 s
  ({ self with fbo := fbo, tid := tid }, s)

/-- The destructor `~DepthMap` of `PointShadow.cpp`. -/
def DepthMap.destroy (self : DepthMap) (s : GLState) : GLState :=
  glDeleteFramebuffers self.fbo s

end PointShadow

/-! ## The frame counter `showFPS` -/

/-- The two `static` variables of `showFPS`. -/
structure FPSState where
  previousSeconds : ℚ
  frameCount : Nat
  deriving DecidableEq, Repr

/-- The values of the statics before the first call. -/
def FPSState.initial : FPSState := { previousSeconds := 0, frameCount := 0 }

/-- The numbers `showFPS` writes into the window title. -/
structure Title where
  fps : ℚ
  msPerFrame : ℚ
  deriving DecidableEq, Repr

/-- The function `showFPS`; `currentSeconds` is the value `glfwGetTime()` returns to it.  The
result is the new value of the statics and, when `glfwSetWindowTitle` is called, the numbers
shown in the title. -/
def showFPS (st : FPSState) (currentSeconds : ℚ) : FPSState × Option Title :=
  let elapsedSeconds := currentSeconds - st.previousSeconds
  if elapsedSeconds > 0.25 then
    let fps := (st.frameCount : ℚ) / elapsedSeconds
    let msPerFrame := 1000 / fps
    ({ previousSeconds := currentSeconds, frameCount := 0 + 1 },
      some { fps := fps, msPerFrame := msPerFrame })
  else
    ({ st with frameCount := st.frameCount + 1 }, none)

/-- A run of calls of `showFPS`, one per clock value: the statics afterwards and, per call,
whether and with which numbers the title was set. -/
def runShowFPS (st : FPSState) : List ℚ → FPSState × List (Option Title)
  | [] => (st, [])
  | t :: ts =>
    let r := showFPS st t
    let rest := runShowFPS r.1 ts
    (rest.1, r.2 :: rest.2)

/-- The clock values of the calls of a run that set the title. -/
def updateTimes (st : FPSState) : List ℚ → List ℚ
  | [] => []
  | t :: ts =>
    let r := showFPS st t
    if r.2.isSome then t :: updateTimes r.1 ts else updateTimes r.1 ts

/-- Number of calls since the last title update of a run, that update included; `none` when the
run has no title update. -/
def callsSinceUpdate : List (Option Title) → Option Nat
  | [] => none
  | r :: rs =>
    match callsSinceUpdate rs with
    | some n => some n
    | none => if r.isSome then some (rs.length + 1) else none

/-- Clock value of the last title update of a run; `none` when the run has no title update. -/
def lastUpdateTime (st : FPSState) (ts : List ℚ) : Option ℚ := (updateTimes st ts).getLast?

/-- The loop body repeated `n` times. -/
def framesTrace (d : Program) : Nat → List Call
  | 0 => []
  | n + 1 => frameCalls d ++ framesTrace d n

/-- A run in which start-up fails at `glfwCreateWindow`. -/
def envNoWindow : Env :=
  { init := { glfwInit := true, glfwCreateWindow := false, gladLoadGLLoader := true }
    created := { shouldClose := false }
    frames := fun _ => { escape := false, closeRequested := false } }

/-- A run in which start-up succeeds and Escape is down in the third iteration. -/
def envEscape : Env :=
  { init := { glfwInit := true, glfwCreateWindow := true, gladLoadGLLoader := true }
    created := { shouldClose := false }
    frames := fun k => { escape := decide (k = 2), closeRequested := false } }

/-- The lines written to standard error during a sequence of steps. -/
def stderrOf : List Call → List String
  | [] => []
  | Call.cerr msg :: rest => msg :: stderrOf rest
  | _ :: rest => stderrOf rest

/-- A run of `initOpenGL` in which only `gladLoadGLLoader` fails. -/
def initEnvNoGlad : InitEnv :=
  { glfwInit := true, glfwCreateWindow := true, gladLoadGLLoader := false }

/-- A frame buffer object of `Demo.cpp` before `setup` has run. -/
def demoFrameBuffer : Demo.FrameBuffer :=
  { width := 1280, height := 720, fbo := 0, tid := 0, rbo := 0 }

/-- A skybox object before `setup` has run. -/
def newSkybox : Skybox := { vbo := 0, vao := 0, ebo := 0, tid := 0 }

/-- A depth map of `ParallelShadow.cpp` before `setup` has run. -/
def newDepthMap : ParallelShadow.DepthMap := { width := 1024, height := 1024, fbo := 0, tid := 0 }

/-- A depth map of `PointShadow.cpp` before `setup` has run. -/
def newCubeDepthMap : PointShadow.DepthMap :=
  { width := 1024, height := 1024, near := 1, far := 25, fbo := 0, tid := 0 }

/-! ## The cursor callback `mouseCallback` -/

/-- The constant `gWindowWidth` of each demo. -/
def gWindowWidth : Program → Int
  | Program.CubeMaps => 800
  | Program.Instancing => 800
  | Program.UniformBuffers => 800
  | _ => 1280

/-- The constant `gWindowHeight` of each demo. -/
def gWindowHeight : Program → Int
  | Program.CubeMaps => 600
  | Program.Instancing => 600
  | Program.UniformBuffers => 600
  | _ => 720

/-- The variables `firstMouse`, `lastX`, `lastY` that `mouseCallback` keeps between invocations
(globals in some demos, function statics in others); `lastX` and `lastY` are of type `float`. -/
structure MouseState where
  firstMouse : Bool
  lastX : ℚ
  lastY : ℚ
  deriving DecidableEq, Repr

/-- The initial values: `firstMouse = true`, `lastX = gWindowWidth / 2`,
`lastY = gWindowHeight / 2` (integer divisions, whose results are exact as `float`). -/
def MouseState.initial (d : Program) : MouseState :=
  { firstMouse := true, lastX := ((gWindowWidth d / 2 : Int) : ℚ),
    lastY := ((gWindowHeight d / 2 : Int) : ℚ) }

/-- The function `mouseCallback`: the new values of its variables and the pair
`(xoffset, yoffset)` it passes to `camera.processMouse`.  The cursor position `xpos`, `ypos`
is of type `double`; an assignment to `lastX` or `lastY` converts it to `float`, and the
offsets are `double` differences converted to `float`. -/
def mouseCallback (st : MouseState) (xpos ypos : ℚ) : MouseState × (ℚ × ℚ) :=
  let st1 : MouseState :=
    if st.firstMouse then
      { firstMouse := false, lastX := toFloat xpos, lastY := toFloat ypos }
    else st
  let xoffset := toFloat (toDouble (xpos - st1.lastX))
  let yoffset := toFloat (toDouble (st1.lastY - ypos))
  ({ st1 with lastX := toFloat xpos, lastY := toFloat ypos }, (xoffset, yoffset))

/-- The `double` nearest to `0.1`. -/
def doubleTenth : ℚ := 3602879701896397 / 36028797018963968

/-! ## The tangent-space utility (`utils/tangent.cpp`) -/

/-- A `glm::vec2`. -/
structure vec2 where
  x : ℚ
  y : ℚ
  deriving DecidableEq, Repr

/-- The difference `a - b` of two `vec2`. -/
def vec2.sub (a b : vec2) : vec2 := ⟨a.x - b.x, a.y - b.y⟩

/-- The sum `a + b` of two `vec3`. -/
def vec3.add (a b : vec3) : vec3 := ⟨a.x + b.x, a.y + b.y, a.z + b.z⟩

/-- The sum `a + b` of two `glm::vec3` as the program computes it: three `float` additions. -/
def vec3.fadd (a b : vec3) : vec3 :=
  ⟨toFloat (a.x + b.x), toFloat (a.y + b.y), toFloat (a.z + b.z)⟩

/-- The difference `a - b` of two `vec3`. -/
def vec3.sub (a b : vec3) : vec3 := ⟨a.x - b.x, a.y - b.y, a.z - b.z⟩

/-- The product `k * v` of a scalar and a `vec3`. -/
def vec3.smul (k : ℚ) (v : vec3) : vec3 := ⟨k * v.x, k * v.y, k * v.z⟩

/-- The element `data[i]` of the vector of floats. -/
def dataAt (data : List ℚ) (i : Nat) : ℚ := data.getD i 0

/-- The position `pos1 .. pos4` read from `data`: vertex `k` (from `0`) starts at `5 * k`. -/
def quadPos (data : List ℚ) (k : Nat) : vec3 :=
  ⟨dataAt data (5 * k), dataAt data (5 * k + 1), dataAt data (5 * k + 2)⟩

/-- The texture coordinate `uv1 .. uv4` read from `data`. -/
def quadUV (data : List ℚ) (k : Nat) : vec2 :=
  ⟨dataAt data (5 * k + 3), dataAt data (5 * k + 4)⟩

/-- The tangent and the bitangent of one triangle, as `calc_tangent_space` computes them
from the two edges and the two UV deltas before it normalizes them. -/
def triangleTangents (edge1 edge2 : vec3) (deltaUV1 deltaUV2 : vec2) : vec3 × vec3 :=
  let f : ℚ := 1 / (deltaUV1.x * deltaUV2.y - deltaUV2.x * deltaUV1.y)
  let tangent : vec3 :=
    ⟨f * (deltaUV2.y * edge1.x - deltaUV1.y * edge2.x),
     f * (deltaUV2.y * edge1.y - deltaUV1.y * edge2.y),
     f * (deltaUV2.y * edge1.z - deltaUV1.y * edge2.z)⟩
  let bitangent : vec3 :=
    ⟨f * (-deltaUV2.x * edge1.x + deltaUV1.x * edge2.x),
     f * (-deltaUV2.x * edge1.y + deltaUV1.x * edge2.y),
     f * (-deltaUV2.x * edge1.z + deltaUV1.x * edge2.z)⟩
  (tangent, bitangent)

/-- What `calc_tangent_space` computes for one quad: the tangents and bitangents of the two
triangles before normalization, and the normalized ones that are printed. -/
structure TangentSpace where
  tangent1 : vec3
  bitangent1 : vec3
  tangent2 : vec3
  bitangent2 : vec3
  printed1 : vec3 × vec3
  printed2 : vec3 × vec3
  deriving DecidableEq, Repr

/-- The function `calc_tangent_space`; `normalize` is `glm::normalize`.  The result is `none`
when the function returns at once because `data` has fewer than 20 entries. -/
def calc_tangent_space (normalize : vec3 → vec3) (data : List ℚ) : Option TangentSpace :=
  if data.length < 20 then none
  else
    let pos1 := quadPos data 0
    let pos2 := quadPos data 1
    let pos3 := quadPos data 2
    let pos4 := quadPos data 3
    let uv1 := quadUV data 0
    let uv2 := quadUV data 1
    let uv3 := quadUV data 2
    let uv4 := quadUV data 3
    let t1 := triangleTangents (pos2.sub pos1) (pos3.sub pos1) (uv2.sub uv1) (uv3.sub uv1)
    let t2 := triangleTangents (pos3.sub pos1) (pos4.sub pos1) (uv3.sub uv1) (uv4.sub uv1)
    some { tangent1 := t1.1, bitangent1 := t1.2, tangent2 := t2.1, bitangent2 := t2.2,
           printed1 := (normalize t1.1, normalize t1.2),
           printed2 := (normalize t2.1, normalize t2.2) }

/-- The determinant `deltaUV1.x * deltaUV2.y - deltaUV2.x * deltaUV1.y` of two UV deltas. -/
def uvDet (deltaUV1 deltaUV2 : vec2) : ℚ := deltaUV1.x * deltaUV2.y - deltaUV2.x * deltaUV1.y

/-- A quad in the plane `y = 0` with the texture coordinates of the unit square. -/
def sampleQuad : List ℚ :=
  [-1, 0, 1, 0, 1,
   -1, 0, -1, 0, 0,
   1, 0, -1, 1, 0,
   1, 0, 1, 1, 1]

/-! ## The contents of the graphics objects

`GLState` holds the bindings; the record below adds what the calls store in the objects and
in the programs.  `exec` is the effect of one call, so that a sequence of calls can be replayed
and the state seen by each call inspected. -/

/-- First value stored under a key in an association list (the newest entry is in front). -/
def assoc {κ β : Type} [DecidableEq κ] (k : κ) : List (κ × β) → Option β
  | [] => none
  | (k', v) :: rest => if k' = k then some v else assoc k rest

/-- The level-0 image of a texture as declared by `glTexImage2D`. -/
structure TexImage where
  target : GLenum
  internalformat : GLenum
  width : Int
  height : Int
  deriving DecidableEq, Repr

/-- The graphics state with the contents of the objects: the images of the textures, the
storage of the renderbuffers, the attachments of the framebuffers, the values of the uniforms
of the programs, the uniform block bindings, the indexed uniform buffer bindings, the sizes of
the buffers, the uploads into them and the face culling mode. -/
structure Machine where
  gl : GLState
  boundUniformBuffer : Nat
  texImages : List (Nat × TexImage)
  rbStorage : List (Nat × (GLenum × Int × Int))
  fbTextures : List ((Nat × GLenum) × Nat)
  fbRenderbuffers : List ((Nat × GLenum) × Nat)
  intUniforms : List ((Nat × String) × Int)
  floatUniforms : List ((Nat × String) × ℚ)
  vecUniforms : List ((Nat × String) × vec3)
  matUniforms : List ((Nat × String) × mat4)
  blockBindings : List ((Nat × Nat) × Nat)
  bufferRanges : List (Nat × (Nat × Nat × Nat))
  bufferSizes : List (Nat × Nat)
  uploads : List (Nat × (Nat × Nat × mat4))
  cullFaceMode : GLenum
  deriving DecidableEq, Repr

/-- A machine over a graphics state, with nothing stored yet. -/
def Machine.start (s : GLState) : Machine :=
  { gl := s, boundUniformBuffer := 0, texImages := [], rbStorage := [], fbTextures := [],
    fbRenderbuffers := [], intUniforms := [], floatUniforms := [], vecUniforms := [],
    matUniforms := [], blockBindings := [], bufferRanges := [], bufferSizes := [],
    uploads := [], cullFaceMode := GLenum.GL_BACK }

/-- The binding target a texture image target belongs to: the six cube faces belong to
`GL_TEXTURE_CUBE_MAP`. -/
def bindTarget : GLenum → GLenum
  | GLenum.texCubeFace _ => GLenum.GL_TEXTURE_CUBE_MAP
  | t => t

/-- The texture bound to a target on a texture unit (`0` when none). -/
def GLState.textureAt (s : GLState) (unit : Nat) (target : GLenum) : Nat :=
  (assoc (unit, target) s.boundTextures).getD 0

/-- The buffer bound to a buffer target (`0` when none or when the binding is not tracked). -/
def Machine.bufferAt (m : Machine) (target : GLenum) : Nat :=
  if target = GLenum.GL_UNIFORM_BUFFER then m.boundUniformBuffer
  else if target = GLenum.GL_ARRAY_BUFFER then m.gl.boundArrayBuffer
  else 0

/-- The effect of one call on the machine. -/
def exec (c : GLCall) (m : Machine) : Machine :=
  match c with
  | GLCall.glGenBuffers n =>
    { m with gl := { m.gl with buffers := n :: m.gl.buffers }.record c }
  | GLCall.glGenVertexArrays n =>
    { m with gl := { m.gl with vertexArrays := n :: m.gl.vertexArrays }.record c }
  | GLCall.glGenTextures n =>
    { m with gl := { m.gl with textures := n :: m.gl.textures }.record c }
  | GLCall.glGenFramebuffers n =>
    { m with gl := { m.gl with framebuffers := n :: m.gl.framebuffers }.record c }
  | GLCall.glGenRenderbuffers n =>
    { m with gl := { m.gl with renderbuffers := n :: m.gl.renderbuffers }.record c }
  | GLCall.glDeleteFramebuffers n => { m with gl := glDeleteFramebuffers n m.gl }
  | GLCall.glDeleteRenderbuffers n => { m with gl := glDeleteRenderbuffers n m.gl }
  | GLCall.glBindBuffer target n =>
    { m with
      gl := glBindBuffer target n m.gl
      boundUniformBuffer :=
        if target = GLenum.GL_UNIFORM_BUFFER then n else m.boundUniformBuffer }
  | GLCall.glBindVertexArray n => { m with gl := glBindVertexArray n m.gl }
  | GLCall.glBindTexture target n => { m with gl := glBindTexture target n m.gl }
  | GLCall.glBindFramebuffer target n => { m with gl := glBindFramebuffer target n m.gl }
  | GLCall.glBindRenderbuffer target n => { m with gl := glBindRenderbuffer target n m.gl }
  | GLCall.glActiveTexture unit => { m with gl := glActiveTexture unit m.gl }
  | GLCall.glDepthMask flag => { m with gl := glDepthMask flag m.gl }
  | GLCall.glDepthFunc func => { m with gl := glDepthFunc func m.gl }
  | GLCall.useProgram p => { m with gl := { m.gl with currentProgram := p }.record c }
  | GLCall.glBufferData target size _ =>
    { m with
      gl := m.gl.record c
      bufferSizes := (m.bufferAt target, size) :: m.bufferSizes }
  | GLCall.glBufferSubData target offset size data =>
    { m with
      gl := m.gl.record c
      uploads := (m.bufferAt target, (offset, size, data)) :: m.uploads }
  | GLCall.glBindBufferRange target index buffer offset size =>
    { m with
      gl := m.gl.record c
      boundUniformBuffer :=
        if target = GLenum.GL_UNIFORM_BUFFER then buffer else m.boundUniformBuffer
      bufferRanges := (index, (buffer, offset, size)) :: m.bufferRanges }
  | GLCall.glUniformBlockBinding program index binding =>
    { m with
      gl := m.gl.record c
      blockBindings := ((program, index), binding) :: m.blockBindings }
  | GLCall.glTexImage2D target _ internalformat width height _ _ _ =>
    { m with
      gl := m.gl.record c
      texImages := (m.gl.textureAt m.gl.activeTexture (bindTarget target),
        { target := target, internalformat := internalformat, width := width,
          height := height }) :: m.texImages }
  | GLCall.glRenderbufferStorage _ internalformat width height =>
    { m with
      gl := m.gl.record c
      rbStorage := (m.gl.boundRenderbuffer, (internalformat, width, height)) :: m.rbStorage }
  | GLCall.glFramebufferTexture2D _ attachment _ texture _ =>
    { m with
      gl := m.gl.record c
      fbTextures := ((m.gl.boundFramebuffer, attachment), texture) :: m.fbTextures }
  | GLCall.glFramebufferTexture _ attachment texture _ =>
    { m with
      gl := m.gl.record c
      fbTextures := ((m.gl.boundFramebuffer, attachment), texture) :: m.fbTextures }
  | GLCall.glFramebufferRenderbuffer _ attachment _ renderbuffer =>
    { m with
      gl := m.gl.record c
      fbRenderbuffers :=
        ((m.gl.boundFramebuffer, attachment), renderbuffer) :: m.fbRenderbuffers }
  | GLCall.uniformInt program name value =>
    { m with gl := m.gl.record c, intUniforms := ((program, name), value) :: m.intUniforms }
  | GLCall.uniformFloat program name value =>
    { m with
      gl := m.gl.record c
      floatUniforms := ((program, name), value) :: m.floatUniforms }
  | GLCall.uniformVec3 program name value =>
    { m with gl := m.gl.record c, vecUniforms := ((program, name), value) :: m.vecUniforms }
  | GLCall.uniformMat4 program name value =>
    { m with gl := m.gl.record c, matUniforms := ((program, name), value) :: m.matUniforms }
  | GLCall.glCullFace mode => { m with gl := m.gl.record c, cullFaceMode := mode }
  | _ => { m with gl := m.gl.record c }

/-- Replaying a sequence of calls. -/
def run : List GLCall → Machine → Machine
  | [], m => m
  | c :: cs, m => run cs (exec c m)

/-- The calls of a sequence, each with the machine as it is when the call is made. -/
def trace : List GLCall → Machine → List (Machine × GLCall)
  | [], _ => []
  | c :: cs, m => (m, c) :: trace cs (exec c m)

/-- The calls issued between a state `s` and a later state `s'`. -/
def newCalls (s s' : GLState) : List GLCall := s'.calls.drop s.calls.length

/-- The calls made through the shader wrapper. -/
def isShaderCall : GLCall → Bool
  | GLCall.useProgram _ => true
  | GLCall.uniformMat4 _ _ _ => true
  | GLCall.uniformInt _ _ _ => true
  | GLCall.uniformFloat _ _ _ => true
  | GLCall.uniformVec3 _ _ _ => true
  | GLCall.uniformBool _ _ _ => true
  | _ => false

/-- Whether a call draws: `glDrawElements`, `glDrawElementsInstanced` or the `Draw` method of
a scene object. -/
def isDraw : GLCall → Bool
  | GLCall.glDrawElements _ _ _ _ => true
  | GLCall.glDrawElementsInstanced _ _ _ _ _ => true
  | GLCall.drawObject _ => true
  | _ => false

/-- The machine after the program moved the graphics state from `m.gl` to `s'`: the calls
issued in between are replayed on `m`. -/
def Machine.after (m : Machine) (s' : GLState) : Machine := run (newCalls m.gl s') m

/-- The identity matrix `glm::mat4(1.0f)`. -/
def mat4.identity : mat4 := ⟨⟨1, 0, 0, 0⟩, ⟨0, 1, 0, 0⟩, ⟨0, 0, 1, 0⟩, ⟨0, 0, 0, 1⟩⟩

/-! ## `FrameBuffer::setup` on both builds, `Bind` and `Unbind` -/

namespace FrameBuffers

/-- The method `FrameBuffer::Bind` of `FrameBuffers.cpp`. -/
def FrameBuffer.Bind (self : FrameBuffer) (s : GLState) : FrameBuffer × GLState :=
  (self, glBindFramebuffer GLenum.GL_FRAMEBUFFER self.fbo s)

/-- The method `FrameBuffer::Unbind` of `FrameBuffers.cpp`. -/
def FrameBuffer.Unbind (self : FrameBuffer) (s : GLState) : FrameBuffer × GLState :=
  (self, glBindFramebuffer GLenum.GL_FRAMEBUFFER 0 s)

end FrameBuffers

namespace Demo

/-- The method `FrameBuffer::Bind` of `Demo.cpp`. -/
def FrameBuffer.Bind (self : FrameBuffer) (s : GLState) : FrameBuffer × GLState :=
  (self, glBindFramebuffer GLenum.GL_FRAMEBUFFER self.fbo s)

/-- The method `FrameBuffer::Unbind` of `Demo.cpp`. -/
def FrameBuffer.Unbind (self : FrameBuffer) (s : GLState) : FrameBuffer × GLState :=
  (self, glBindFramebuffer GLenum.GL_FRAMEBUFFER 0 s)

end Demo

namespace ParallelShadow

/-- The method `DepthMap::Bind` of `ParallelShadow.cpp`. -/
def DepthMap.Bind (self : DepthMap) (s : GLState) : DepthMap × GLState :=
  (self, glBindFramebuffer GLenum.GL_FRAMEBUFFER self.fbo s)

/-- The method `DepthMap::Unbind` of `ParallelShadow.cpp`. -/
def DepthMap.Unbind (self : DepthMap) (s : GLState) : DepthMap × GLState :=
  (self, glBindFramebuffer GLenum.GL_FRAMEBUFFER 0 s)

end ParallelShadow

namespace PointShadow

/-- The method `DepthMap::Bind` of `PointShadow.cpp`. -/
def DepthMap.Bind (self : DepthMap) (s : GLState) : DepthMap × GLState :=
  (self, glBindFramebuffer GLenum.GL_FRAMEBUFFER self.fbo s)

/-- The method `DepthMap::Unbind` of `PointShadow.cpp`. -/
def DepthMap.Unbind (self : DepthMap) (s : GLState) : DepthMap × GLState :=
  (self, glBindFramebuffer GLenum.GL_FRAMEBUFFER 0 s)

end PointShadow

/-- Performing a method on the machine: the result of the method and the machine after the
calls of the method have been replayed. -/
def Machine.perform {α : Type} (m : Machine) (f : GLState → α × GLState) : α × Machine :=
  ((f m.gl).1, m.after (f m.gl).2)

/-! ## More of `glm` -/

/-- The sum `a + b` of two `vec4`. -/
def vec4.add (a b : vec4) : vec4 := ⟨a.x + b.x, a.y + b.y, a.z + b.z, a.w + b.w⟩

/-- The product `k * v` of a scalar and a `vec4` (written `v * k` in `glm`). -/
def vec4.smul (k : ℚ) (v : vec4) : vec4 := ⟨k * v.x, k * v.y, k * v.z, k * v.w⟩

/-- The product `a * b` of two `mat4`: column `j` of the product is `a * (column j of b)`. -/
def mat4.mul (a b : mat4) : mat4 := ⟨a.mulVec b.c0, a.mulVec b.c1, a.mulVec b.c2, a.mulVec b.c3⟩

/-- The function `glm::translate(m, v)`: the fourth column becomes
`m[0] * v[0] + m[1] * v[1] + m[2] * v[2] + m[3]`. -/
def mat4.translate (m : mat4) (v : vec3) : mat4 :=
  { m with c3 := (((m.c0.smul v.x).add (m.c1.smul v.y)).add (m.c2.smul v.z)).add m.c3 }

/-- The functions of `glm` and of the C library whose results are rounded values of
transcendental or irrational expressions.  They are inputs of the model: whatever floats they
return, the programs pass them on as described. -/
structure Glm where
  radians : ℚ → ℚ
  cos : ℚ → ℚ
  perspective : ℚ → ℚ → ℚ → ℚ → mat4
  ortho : ℚ → ℚ → ℚ → ℚ → ℚ → ℚ → mat4
  lookAt : vec3 → vec3 → vec3 → mat4

/-- What a frame reads from the camera object (class `Camera` of `EularCamera.h`):
`getViewMatrix()`, `fov`, `position` and `front`. -/
structure CameraView where
  view : mat4
  fov : ℚ
  position : vec3
  front : vec3
  deriving DecidableEq, Repr

/-- Size in bytes of a `glm::mat4`: sixteen floats. -/
def sizeofMat4 : Nat := 16 * sizeofFloat

/-! ## The uniform buffer of `UniformBuffers.cpp` -/

namespace UniformBuffers

/-- The block of `main` headed "Configure a uniform buffer object".  `sh0 .. sh3` are
`shaders[0] .. shaders[3]`, `blockIndexOf` gives the answers of `glGetUniformBlockIndex`, and
`projection` is the matrix computed by `glm::perspective`.  The result is `uboMatrices`. -/
def configureUniformBuffer (sh0 sh1 sh2 sh3 : Shader) (blockIndexOf : Nat → String → Nat)
    (projection : mat4) (s : GLState) : Nat × GLState :=
  -- 1. Get relevant block indices
  let s := s.record (GLCall.glGetUniformBlockIndex sh0.id "uMatrices")
  let uBlockIds0 := blockIndexOf sh0.id "uMatrices"
  let s := s.record (GLCall.glGetUniformBlockIndex sh1.id "uMatrices")
  let uBlockIds1 := blockIndexOf sh1.id "uMatrices"
  let s := s.record (GLCall.glGetUniformBlockIndex sh2.id "uMatrices")
  let uBlockIds2 := blockIndexOf sh2.id "uMatrices"
  let s := s.record (GLCall.glGetUniformBlockIndex sh3.id "uMatrices")
  let uBlockIds3 := blockIndexOf sh3.id "uMatrices"
  -- 2. Link each shader's uniform block to this uniform binding point
  let s := s.record (GLCall.glUniformBlockBinding sh0.id uBlockIds0 0)
  let s := s.record (GLCall.glUniformBlockBinding sh1.id uBlockIds1 0)
  let s := s.record (GLCall.glUniformBlockBinding sh2.id uBlockIds2 0)
  let s := s.record (GLCall.glUniformBlockBinding sh3.id uBlockIds3 0)
  -- 3. Create the buffer
  let (uboMatrices, s) := glGenBuffers s
  let s := glBindBuffer GLenum.GL_UNIFORM_BUFFER uboMatrices s
  let s := s.record (GLCall.glBufferData GLenum.GL_UNIFORM_BUFFER (2 * sizeofMat4)
    GLenum.GL_STATIC_DRAW)
  let s := glBindBuffer GLenum.GL_UNIFORM_BUFFER 0 s
  -- 4. Define range of the buffer linking to a uniform binding point
  let s := s.record (GLCall.glBindBufferRange GLenum.GL_UNIFORM_BUFFER 0 uboMatrices 0
    (2 * sizeofMat4))
  -- 5. Store related data
  let s := glBindBuffer GLenum.GL_UNIFORM_BUFFER uboMatrices s
  let s := s.record (GLCall.glBufferSubData GLenum.GL_UNIFORM_BUFFER 0 sizeofMat4 projection)
  let s := glBindBuffer GLenum.GL_UNIFORM_BUFFER 0 s
  (uboMatrices, s)

/-- One quarter of the scene of a frame: the model matrix is the identity translated by `v`,
the shader is made current, receives `uModel`, and the cube is drawn with it. -/
def drawCube (shader : Shader) (v : vec3) (s : GLState) : GLState :=
  let modelMatrix := mat4.identity
  let modelMatrix := modelMatrix.translate v
  let s := shader.use s
  let s := shader.setUniformMat4 "uModel" modelMatrix s
  let s := s.record (GLCall.drawObject "cube")
  s

/-- The graphics calls of one iteration of the render loop of `UniformBuffers.cpp`, from
`glClear` to the last `cube.Draw`; `view` is `camera.getViewMatrix()`. -/
def frame (uboMatrices : Nat) (sh0 sh1 sh2 sh3 : Shader) (view : mat4) (s : GLState) :
    GLState :=
  let s := s.record (GLCall.glClear true true)
  -- Set view together with projection matrix in the uniform block
  let s := glBindBuffer GLenum.GL_UNIFORM_BUFFER uboMatrices s
  let s := s.record (GLCall.glBufferSubData GLenum.GL_UNIFORM_BUFFER sizeofMat4 sizeofMat4 view)
  let s := glBindBuffer GLenum.GL_UNIFORM_BUFFER 0 s
  -- Draw scene
  let s := drawCube sh0 ⟨-0.75, 0.75, 0⟩ s
  let s := drawCube sh1 ⟨0.75, 0.75, 0⟩ s
  let s := drawCube sh2 ⟨-0.75, -0.75, 0⟩ s
  let s := drawCube sh3 ⟨0.75, -0.75, 0⟩ s
  s

end UniformBuffers

/-- Whether a call uploads data into a buffer object. -/
def isUpload : GLCall → Bool
  | GLCall.glBufferSubData _ _ _ _ => true
  | _ => false

/-- Whether a call sets a matrix uniform with the given name through the shader wrapper. -/
def setsMatrixUniform (name : String) : GLCall → Bool
  | GLCall.uniformMat4 _ n _ => n = name
  | _ => false

/-! ## The shadow demos (`ParallelShadow.cpp`, `PointShadow.cpp`) -/

/-- Modelled from the spec: `Shader::setUniform` of `ShaderProgram.h` for a `float`. -/
def Shader.setUniformFloat (sh : Shader) (name : String) (value : ℚ) (s : GLState) : GLState :=
  s.record (GLCall.uniformFloat sh.id name value)

/-- Modelled from the spec: `Shader::setUniform` of `ShaderProgram.h` for a `glm::vec3` or for
three floats. -/
def Shader.setUniformVec3 (sh : Shader) (name : String) (value : vec3) (s : GLState) : GLState :=
  s.record (GLCall.uniformVec3 sh.id name value)

/-- Modelled from the spec: `Shader::setUniform` of `ShaderProgram.h` for a `bool`. -/
def Shader.setUniformBool (sh : Shader) (name : String) (value : Bool) (s : GLState) : GLState :=
  s.record (GLCall.uniformBool sh.id name value)

/-- The globals `use_torch`, `use_blinn`, `use_gamma` of the shadow demos. -/
structure LightingMode where
  use_torch : Bool
  use_blinn : Bool
  use_gamma : ℚ
  deriving DecidableEq, Repr

/-- The uniforms of the point light and of the spot light that both shadow demos give to
`objectShader` before the render loop. -/
def configureLights (glm : Glm) (objectShader : Shader) (lightPos : vec3) (s : GLState) :
    GLState :=
  let s := objectShader.setUniformVec3 "uPointLight.position" lightPos s
  let s := objectShader.setUniformVec3 "uPointLight.ambient" ⟨0, 0, 0⟩ s
  let s := objectShader.setUniformVec3 "uPointLight.diffuse" ⟨1, 1, 1⟩ s
  let s := objectShader.setUniformVec3 "uPointLight.specular" ⟨1, 1, 1⟩ s
  let s := objectShader.setUniformFloat "uPointLight.constant" 1 s
  let s := objectShader.setUniformFloat "uPointLight.linear" 0.09 s
  let s := objectShader.setUniformFloat "uPointLight.quadratic" 0.032 s
  -- Spot light
  let s := objectShader.setUniformFloat "uSpotLight.innerCutOff" (glm.cos (glm.radians 12.5)) s
  let s := objectShader.setUniformFloat "uSpotLight.outerCutOff" (glm.cos (glm.radians 17.5)) s
  let s := objectShader.setUniformVec3 "uSpotLight.ambient" ⟨0, 0, 0⟩ s
  let s := objectShader.setUniformVec3 "uSpotLight.diffuse" ⟨1, 1, 1⟩ s
  let s := objectShader.setUniformVec3 "uSpotLight.specular" ⟨1, 1, 1⟩ s
  let s := objectShader.setUniformFloat "uSpotLight.constant" 1 s
  let s := objectShader.setUniformFloat "uSpotLight.linear" 0.09 s
  let s := objectShader.setUniformFloat "uSpotLight.quadratic" 0.032 s
  s

/-- The uniforms both lighting passes set from the camera and the lighting mode, in the order
`uView`, `uProjection`, `uCameraPos`, `uBlinn`, `uGamma`, `uTorch`. -/
def setCameraUniforms (objectShader : Shader) (view projection : mat4) (cam : CameraView)
    (mode : LightingMode) (s : GLState) : GLState :=
  let s := objectShader.setUniformMat4 "uView" view s
  let s := objectShader.setUniformMat4 "uProjection" projection s
  let s := objectShader.setUniformVec3 "uCameraPos" cam.position s
  let s := objectShader.setUniformBool "uBlinn" mode.use_blinn s
  let s := objectShader.setUniformFloat "uGamma" mode.use_gamma s
  let s := objectShader.setUniformBool "uTorch" mode.use_torch s
  s

namespace ParallelShadow

/-- The local `lightPos` of `main`. -/
def lightPos : vec3 := ⟨-2, 4, -1⟩

/-- The three shaders of `main`. -/
structure Shaders where
  objectShader : Shader
  simpleDepthShader : Shader
  debugDepthQuad : Shader
  deriving DecidableEq, Repr

/-- What `renderScene` needs from the scene objects and from `glm`: the vertex array and the
index count of the plane, and the value of `model` at each of the five draws (built by
`glm::translate`, `glm::scale` and `glm::rotate` from constants and the clock). -/
structure Scene where
  planeVAO : Nat
  planeIndexCount : Nat
  floorModel : mat4
  cubeModel1 : mat4
  cubeModel2 : mat4
  cubeModel3 : mat4
  planetModel : mat4
  deriving DecidableEq, Repr

/-- The block "shader configuration" of `main`. -/
def configureShaders (glm : Glm) (sh : Shaders) (s : GLState) : GLState :=
  let s := sh.debugDepthQuad.use s
  let s := sh.debugDepthQuad.setUniformInt "uDepthMap" 0 s
  let s := sh.objectShader.use s
  let s := configureLights glm sh.objectShader lightPos s
  let s := sh.objectShader.setUniformInt "uMaterial.texture_diffuse1" 0 s
  let s := sh.objectShader.setUniformInt "uMaterial.texture_specular1" 0 s
  let s := sh.objectShader.setUniformInt "uShadowMap" 15 s
  s

/-- The function `renderScene` of `ParallelShadow.cpp`. -/
def renderScene (shader : Shader) (scene : Scene) (s : GLState) : GLState :=
  -- floor
  let s := shader.use s
  let s := shader.setUniformMat4 "uModel" scene.floorModel s
  let s := glBindVertexArray scene.planeVAO s
  let s := s.record (GLCall.glDrawElements GLenum.GL_TRIANGLES scene.planeIndexCount
    GLenum.GL_UNSIGNED_INT 0)
  -- cubes
  let s := shader.use s
  let s := shader.setUniformMat4 "uModel" scene.cubeModel1 s
  let s := s.record (GLCall.drawObject "cube")
  let s := shader.use s
  let s := shader.setUniformMat4 "uModel" scene.cubeModel2 s
  let s := s.record (GLCall.drawObject "cube")
  let s := shader.use s
  let s := shader.setUniformMat4 "uModel" scene.cubeModel3 s
  let s := s.record (GLCall.drawObject "cube")
  let s := shader.use s
  let s := shader.setUniformMat4 "uModel" scene.planetModel s
  let s := s.record (GLCall.drawObject "planet")
  s

/-- Step 1 of the loop body, "render depth of scene to texture", after the two light matrices
have been computed. -/
def depthPass (sh : Shaders) (depthMap : DepthMap) (scene : Scene)
    (lightProjection lightView : mat4) (s : GLState) : GLState :=
  let s := sh.simpleDepthShader.use s
  let s := sh.simpleDepthShader.setUniformMat4 "uView" lightView s
  let s := sh.simpleDepthShader.setUniformMat4 "uProjection" lightProjection s
  let s := s.record (GLCall.glViewport 0 0 depthMap.width depthMap.height)
  let s := (depthMap.Bind s).2
  let s := s.record (GLCall.glClear false true)
  let s := s.record (GLCall.glCullFace GLenum.GL_FRONT)
  let s := renderScene sh.simpleDepthShader scene s
  let s := s.record (GLCall.glCullFace GLenum.GL_BACK)
  let s := (depthMap.Unbind s).2
  s

/-- Step 2 of the loop body, "render scene as normal using the generated depth/shadow map",
from the viewport reset on. -/
def lightingPass (glm : Glm) (sh : Shaders) (depthMap : DepthMap) (scene : Scene)
    (woodTexture : Nat) (cam : CameraView) (mode : LightingMode) (aspect : ℚ)
    (lightProjection lightView : mat4) (s : GLState) : GLState :=
  let s := s.record (GLCall.glViewport 0 0 (gWindowWidth Program.ParallelShadow)
    (gWindowHeight Program.ParallelShadow))
  let s := s.record (GLCall.glClear true true)
  let s := sh.objectShader.use s
  let view := cam.view
  let projection := glm.perspective (glm.radians cam.fov) aspect 0.1 100
  let s := setCameraUniforms sh.objectShader view projection cam mode s
  -- set light uniforms
  let s := sh.objectShader.setUniformVec3 "uSpotLight.position" cam.position s
  let s := sh.objectShader.setUniformVec3 "uSpotLight.direction" cam.front s
  let s := sh.objectShader.setUniformMat4 "uLightSpaceMatrix"
    (lightProjection.mul lightView) s
  let s := glActiveTexture 0 s
  let s := glBindTexture GLenum.GL_TEXTURE_2D woodTexture s
  let s := glActiveTexture 15 s
  let s := glBindTexture GLenum.GL_TEXTURE_2D depthMap.tid s
  let s := renderScene sh.objectShader scene s
  s

/-- The light matrices of a frame: `lightProjection` and `lightView`. -/
def lightMatrices (glm : Glm) : mat4 × mat4 :=
  let near_plane : ℚ := 1
  let far_plane : ℚ := 7.5
  let lightProjection := glm.ortho (-10) 10 (-10) 10 near_plane far_plane
  let lightView := glm.lookAt lightPos ⟨0, 0, 0⟩ ⟨0, 1, 0⟩
  (lightProjection, lightView)

/-- The graphics calls of one iteration of the render loop of `ParallelShadow.cpp`, from
`glClearColor` to the second `renderScene`. -/
def frame (glm : Glm) (sh : Shaders) (depthMap : DepthMap) (scene : Scene) (woodTexture : Nat)
    (cam : CameraView) (mode : LightingMode) (s : GLState) : GLState :=
  let s := s.record (GLCall.glClearColor 0.1 0.1 0.1 1)
  let s := s.record (GLCall.glClear true true)
  let lightProjection := (lightMatrices glm).1
  let lightView := (lightMatrices glm).2
  let aspect : ℚ := (gWindowWidth Program.ParallelShadow : ℚ)
    / (gWindowHeight Program.ParallelShadow : ℚ)
  let s := depthPass sh depthMap scene lightProjection lightView s
  let s := lightingPass glm sh depthMap scene woodTexture cam mode aspect lightProjection
    lightView s
  s

end ParallelShadow

namespace PointShadow

/-- The method `DepthMap::GetTransforms`. -/
def DepthMap.GetTransforms (glm : Glm) (self : DepthMap) (lightPos : vec3) : List mat4 :=
  let shadowProjection := glm.perspective (glm.radians 90) 1 self.near self.far
  let shadowTransforms : List mat4 := []
  let shadowTransforms := shadowTransforms ++ [shadowProjection.mul (glm.lookAt lightPos
    (lightPos.fadd ⟨1, 0, 0⟩) ⟨0, -1, 0⟩)]
  let shadowTransforms := shadowTransforms ++ [shadowProjection.mul (glm.lookAt lightPos
    (lightPos.fadd ⟨-1, 0, 0⟩) ⟨0, -1, 0⟩)]
  let shadowTransforms := shadowTransforms ++ [shadowProjection.mul (glm.lookAt lightPos
    (lightPos.fadd ⟨0, 1, 0⟩) ⟨0, 0, 1⟩)]
  let shadowTransforms := shadowTransforms ++ [shadowProjection.mul (glm.lookAt lightPos
    (lightPos.fadd ⟨0, -1, 0⟩) ⟨0, 0, -1⟩)]
  let shadowTransforms := shadowTransforms ++ [shadowProjection.mul (glm.lookAt lightPos
    (lightPos.fadd ⟨0, 0, 1⟩) ⟨0, -1, 0⟩)]
  let shadowTransforms := shadowTransforms ++ [shadowProjection.mul (glm.lookAt lightPos
    (lightPos.fadd ⟨0, 0, -1⟩) ⟨0, -1, 0⟩)]
  shadowTransforms

/-- The local `depthMapTexUnit` of `main`. -/
def depthMapTexUnit : Nat := 15

/-- The two shaders of `main`. -/
structure Shaders where
  objectShader : Shader
  simpleDepthShader : Shader
  deriving DecidableEq, Repr

/-- The value of `model` at each of the seven draws of `renderScene` (built by `glm::scale`,
`glm::translate` and `glm::rotate` from constants and the clock). -/
structure Scene where
  roomModel : mat4
  cubeModel1 : mat4
  cubeModel2 : mat4
  cubeModel3 : mat4
  cubeModel4 : mat4
  cubeModel5 : mat4
  planetModel : mat4
  deriving DecidableEq, Repr

/-- The block "shader configuration" of `main`; `lightPos` is still `(0, 0, 0)`. -/
def configureShaders (glm : Glm) (sh : Shaders) (s : GLState) : GLState :=
  let lightPos : vec3 := ⟨0, 0, 0⟩
  let s := sh.objectShader.use s
  let s := configureLights glm sh.objectShader lightPos s
  -- Shadow map
  let s := sh.objectShader.setUniformInt "uShadowMap" (depthMapTexUnit : Int) s
  s

/-- One of the plain draws of `renderScene`: `shader.use()`, `uModel`, `Draw`. -/
def drawWith (shader : Shader) (model : mat4) (label : String) (s : GLState) : GLState :=
  let s := shader.use s
  let s := shader.setUniformMat4 "uModel" model s
  let s := s.record (GLCall.drawObject label)
  s

/-- The function `renderScene` of `PointShadow.cpp`. -/
def renderScene (shader : Shader) (scene : Scene) (s : GLState) : GLState :=
  -- Room
  let s := shader.use s
  let s := shader.setUniformMat4 "uModel" scene.roomModel s
  let s := s.record (GLCall.glDisable Cap.GL_CULL_FACE)
  let s := shader.setUniformInt "uReverseNormal" 1 s
  let s := s.record (GLCall.drawObject "cube")
  let s := shader.setUniformInt "uReverseNormal" 0 s
  let s := s.record (GLCall.glEnable Cap.GL_CULL_FACE)
  -- cubes
  let s := drawWith shader scene.cubeModel1 "cube" s
  let s := drawWith shader scene.cubeModel2 "cube" s
  let s := drawWith shader scene.cubeModel3 "cube" s
  let s := drawWith shader scene.cubeModel4 "cube" s
  let s := drawWith shader scene.cubeModel5 "cube" s
  -- Model
  let s := drawWith shader scene.planetModel "planet" s
  s

/-- The loop `for (int i = 0; i < 6; i++) setUniform("uShadowMatrices[i]", shadowTransforms[i])`
with `n` iterations left and loop variable `i`.  The result is `none` when an access
`shadowTransforms[i]` is out of bounds. -/
def setShadowMatrices (shader : Shader) (shadowTransforms : List mat4) :
    Nat → Nat → GLState → Option GLState
  | 0, _, s => some s
  | n + 1, i, s =>
    match shadowTransforms[i]? with
    | none => none
    | some M =>
      setShadowMatrices shader shadowTransforms n (i + 1)
        (shader.setUniformMat4 ("uShadowMatrices[" ++ toString i ++ "]") M s)

/-- Step 1 of the loop body, "render scene to depth cubemap". -/
def depthPass (sh : Shaders) (depthMap : DepthMap) (scene : Scene) (lightPos : vec3)
    (shadowTransforms : List mat4) (s : GLState) : Option GLState :=
  let s := s.record (GLCall.glViewport 0 0 depthMap.width depthMap.height)
  let s := (depthMap.Bind s).2
  let s := s.record (GLCall.glClear false true)
  let s := sh.simpleDepthShader.use s
  let s := sh.simpleDepthShader.setUniformFloat "uFarPlane" depthMap.far s
  let s := sh.simpleDepthShader.setUniformVec3 "uLightPos" lightPos s
  match setShadowMatrices sh.simpleDepthShader shadowTransforms 6 0 s with
  | none => none
  | some s =>
    let s := renderScene sh.simpleDepthShader scene s
    let s := (depthMap.Unbind s).2
    some s

/-- Step 2 of the loop body, "render scene as normal using the generated depth/shadow map". -/
def lightingPass (glm : Glm) (sh : Shaders) (depthMap : DepthMap) (scene : Scene)
    (cam : CameraView) (mode : LightingMode) (aspect : ℚ) (lightPos : vec3) (s : GLState) :
    GLState :=
  let s := s.record (GLCall.glViewport 0 0 (gWindowWidth Program.PointShadow)
    (gWindowHeight Program.PointShadow))
  let s := s.record (GLCall.glClear true true)
  let view := cam.view
  let projection := glm.perspective (glm.radians cam.fov) aspect 0.1 100
  let s := sh.objectShader.use s
  let s := setCameraUniforms sh.objectShader view projection cam mode s
  let s := sh.objectShader.setUniformFloat "uFarPlane" depthMap.far s
  -- set point light
  let s := sh.objectShader.setUniformVec3 "uPointLight.position" lightPos s
  -- set spot light
  let s := sh.objectShader.setUniformVec3 "uSpotLight.position" cam.position s
  let s := sh.objectShader.setUniformVec3 "uSpotLight.direction" cam.front s
  -- bind shadow map texture
  let s := glActiveTexture depthMapTexUnit s
  let s := glBindTexture GLenum.GL_TEXTURE_CUBE_MAP depthMap.tid s
  -- render scene as normal case
  let s := renderScene sh.objectShader scene s
  s

/-- The graphics calls of one iteration of the render loop of `PointShadow.cpp`, from the
update of `lightPos.z` to the second `renderScene`; `lightPos` is the value left by the
previous iteration and `z` the value `sin(glfwGetTime() * 0.5f) * 3.0f`.  The result is the new
`lightPos` and the state, or `none` when an access `shadowTransforms[i]` is out of bounds. -/
def frame (glm : Glm) (sh : Shaders) (depthMap : DepthMap) (scene : Scene) (cam : CameraView)
    (mode : LightingMode) (lightPos : vec3) (z : ℚ) (s : GLState) : Option (vec3 × GLState) :=
  let aspect : ℚ := (gWindowWidth Program.PointShadow : ℚ)
    / (gWindowHeight Program.PointShadow : ℚ)
  let lightPos : vec3 := { lightPos with z := z }
  let s := s.record (GLCall.glClearColor 0.1 0.1 0.1 1)
  let s := s.record (GLCall.glClear true true)
  let shadowTransforms := depthMap.GetTransforms glm lightPos
  match depthPass sh depthMap scene lightPos shadowTransforms s with
  | none => none
  | some s =>
    let s := lightingPass glm sh depthMap scene cam mode aspect lightPos s
    some (lightPos, s)

/-- The view direction of face `i` of a cube map, in the order of the targets
`GL_TEXTURE_CUBE_MAP_POSITIVE_X + i`: `+X`, `-X`, `+Y`, `-Y`, `+Z`, `-Z`. -/
def cubeFaceDirection : Nat → vec3
  | 0 => ⟨1, 0, 0⟩
  | 1 => ⟨-1, 0, 0⟩
  | 2 => ⟨0, 1, 0⟩
  | 3 => ⟨0, -1, 0⟩
  | 4 => ⟨0, 0, 1⟩
  | _ => ⟨0, 0, -1⟩

/-- The up vector `GetTransforms` passes to `glm::lookAt` for face `i`. -/
def cubeFaceUp : Nat → vec3
  | 2 => ⟨0, 0, 1⟩
  | 3 => ⟨0, 0, -1⟩
  | _ => ⟨0, -1, 0⟩

end PointShadow

/-- The image targets of the `glTexImage2D` calls of a sequence of calls, in order. -/
def texImageTargets : List GLCall → List GLenum
  | [] => []
  | GLCall.glTexImage2D target _ _ _ _ _ _ _ :: rest => target :: texImageTargets rest
  | _ :: rest => texImageTargets rest

/-! ### The stages of a frame of the shadow demos -/

namespace ParallelShadow

/-- The two clearing calls at the top of the loop body, before step 1. -/
def beforeDepthPass (s : GLState) : GLState :=
  let s := s.record (GLCall.glClearColor 0.1 0.1 0.1 1)
  let s := s.record (GLCall.glClear true true)
  s

/-- The machine when the depth pass of a frame begins, `m` being the machine when the frame
begins. -/
def atDepthPass (m : Machine) : Machine := m.after (beforeDepthPass m.gl)

/-- The machine when the lighting pass of a frame begins. -/
def atLightingPass (glm : Glm) (sh : Shaders) (depthMap : DepthMap) (scene : Scene)
    (m : Machine) : Machine :=
  (atDepthPass m).after
    (depthPass sh depthMap scene (lightMatrices glm).1 (lightMatrices glm).2 (atDepthPass m).gl)

/-- The aspect ratio `(float) gWindowWidth / (float) gWindowHeight`. -/
def aspect : ℚ :=
  (gWindowWidth Program.ParallelShadow : ℚ) / (gWindowHeight Program.ParallelShadow : ℚ)

/-- The machine when the frame is over. -/
def afterFrame (glm : Glm) (sh : Shaders) (depthMap : DepthMap) (scene : Scene)
    (woodTexture : Nat) (cam : CameraView) (mode : LightingMode) (m : Machine) : Machine :=
  (atLightingPass glm sh depthMap scene m).after
    (lightingPass glm sh depthMap scene woodTexture cam mode aspect (lightMatrices glm).1
      (lightMatrices glm).2 (atLightingPass glm sh depthMap scene m).gl)

end ParallelShadow

namespace PointShadow

/-- The two clearing calls at the top of the loop body, before step 0. -/
def beforeDepthPass (s : GLState) : GLState :=
  let s := s.record (GLCall.glClearColor 0.1 0.1 0.1 1)
  let s := s.record (GLCall.glClear true true)
  s

/-- The aspect ratio `(float) gWindowWidth / (float) gWindowHeight`. -/
def aspect : ℚ :=
  (gWindowWidth Program.PointShadow : ℚ) / (gWindowHeight Program.PointShadow : ℚ)

/-- The machine when the depth pass of a frame begins, `m` being the machine when the frame
begins. -/
def atDepthPass (m : Machine) : Machine := m.after (beforeDepthPass m.gl)

/-- The graphics state after the depth pass of a frame in which `lightPos` is the updated
light position (the state before the pass if an access were out of bounds). -/
def depthPassResult (glm : Glm) (sh : Shaders) (depthMap : DepthMap) (scene : Scene)
    (lightPos : vec3) (s : GLState) : GLState :=
  (depthPass sh depthMap scene lightPos (depthMap.GetTransforms glm lightPos) s).getD s

/-- The machine when the lighting pass of a frame begins. -/
def atLightingPass (glm : Glm) (sh : Shaders) (depthMap : DepthMap) (scene : Scene)
    (lightPos : vec3) (m : Machine) : Machine :=
  (atDepthPass m).after (depthPassResult glm sh depthMap scene lightPos (atDepthPass m).gl)

/-- The machine when the frame is over. -/
def afterFrame (glm : Glm) (sh : Shaders) (depthMap : DepthMap) (scene : Scene)
    (cam : CameraView) (mode : LightingMode) (lightPos : vec3) (m : Machine) : Machine :=
  (atLightingPass glm sh depthMap scene lightPos m).after
    (lightingPass glm sh depthMap scene cam mode aspect lightPos
      (atLightingPass glm sh depthMap scene lightPos m).gl)

end PointShadow

/-- Library functions standing in for `glm` in examples: every matrix is the identity. -/
def sampleGlm : Glm :=
  { radians := fun d => d, cos := fun a => a, perspective := fun _ _ _ _ => mat4.identity,
    ortho := fun _ _ _ _ _ _ => mat4.identity, lookAt := fun _ _ _ => mat4.identity }

/-- Shaders of `ParallelShadow.cpp` with program names `1`, `2`, `3`. -/
def sampleShaders : ParallelShadow.Shaders :=
  { objectShader := ⟨1⟩, simpleDepthShader := ⟨2⟩, debugDepthQuad := ⟨3⟩ }

/-- Shaders of `PointShadow.cpp` with program names `1`, `2`. -/
def sampleCubeShaders : PointShadow.Shaders :=
  { objectShader := ⟨1⟩, simpleDepthShader := ⟨2⟩ }

/-- The machine of `ParallelShadow.cpp` when its render loop begins, started from an empty
context: the depth map is set up and the shaders are configured. -/
def sampleParallelStart : ParallelShadow.DepthMap × Machine :=
  let r := (Machine.start GLState.initial).perform newDepthMap.setup
  (r.1, r.2.after (ParallelShadow.configureShaders sampleGlm sampleShaders r.2.gl))

/-- The machine of `PointShadow.cpp` when its render loop begins, started from an empty
context. -/
def samplePointStart : PointShadow.DepthMap × Machine :=
  let r := (Machine.start GLState.initial).perform newCubeDepthMap.setup
  (r.1, r.2.after (PointShadow.configureShaders sampleGlm sampleCubeShaders r.2.gl))

/-- A scene of `ParallelShadow.cpp` in which every model matrix is the identity. -/
def sampleScene : ParallelShadow.Scene :=
  { planeVAO := 7, planeIndexCount := 6, floorModel := mat4.identity,
    cubeModel1 := mat4.identity, cubeModel2 := mat4.identity, cubeModel3 := mat4.identity,
    planetModel := mat4.identity }

/-- A scene of `PointShadow.cpp` in which every model matrix is the identity. -/
def sampleCubeScene : PointShadow.Scene :=
  { roomModel := mat4.identity, cubeModel1 := mat4.identity, cubeModel2 := mat4.identity,
    cubeModel3 := mat4.identity, cubeModel4 := mat4.identity, cubeModel5 := mat4.identity,
    planetModel := mat4.identity }

/-- A camera at `(0, 0, 3)` looking down the negative z axis. -/
def sampleCamera : CameraView :=
  { view := mat4.identity, fov := 45, position := ⟨0, 0, 3⟩, front := ⟨0, 0, -1⟩ }

/-- The initial lighting mode of the shadow demos. -/
def sampleMode : LightingMode := { use_torch := true, use_blinn := false, use_gamma := 2.2 }

/-! ## Vector products and the cube-map view directions -/

/-- The dot product `glm::dot(a, b)`. -/
def vec3.dot (a b : vec3) : ℚ := a.x * b.x + a.y * b.y + a.z * b.z

/-- The cross product `glm::cross(a, b)`. -/
def vec3.cross (a b : vec3) : vec3 :=
  ⟨a.y * b.z - a.z * b.y, a.z * b.x - a.x * b.z, a.x * b.y - a.y * b.x⟩

/-- The six unit axis vectors. -/
def unitAxes : List vec3 :=
  [⟨1, 0, 0⟩, ⟨-1, 0, 0⟩, ⟨0, 1, 0⟩, ⟨0, -1, 0⟩, ⟨0, 0, 1⟩, ⟨0, 0, -1⟩]

/-- The normal `(b - a) x (c - a)` of a triangle given by its corners in drawing order. -/
def triangleNormal (a b c : vec3) : vec3 := (b.sub a).cross (c.sub a)

namespace PointShadow

/-- The arguments `(eye, center, up)` of the six `glm::lookAt` calls of
`DepthMap::GetTransforms`, in the order of the calls. -/
def DepthMap.lookAtArguments (lightPos : vec3) : List (vec3 × vec3 × vec3) :=
  [(lightPos, lightPos.fadd ⟨1, 0, 0⟩, ⟨0, -1, 0⟩),
   (lightPos, lightPos.fadd ⟨-1, 0, 0⟩, ⟨0, -1, 0⟩),
   (lightPos, lightPos.fadd ⟨0, 1, 0⟩, ⟨0, 0, 1⟩),
   (lightPos, lightPos.fadd ⟨0, -1, 0⟩, ⟨0, 0, -1⟩),
   (lightPos, lightPos.fadd ⟨0, 0, 1⟩, ⟨0, -1, 0⟩),
   (lightPos, lightPos.fadd ⟨0, 0, -1⟩, ⟨0, -1, 0⟩)]

end PointShadow

/-! ## The lighting keys of `processInput` -/

/-- The answers of `glfwGetKey(window, key) == GLFW_PRESS` for the keys that switch the
lighting mode, at one call of `processInput`. -/
structure LightingKeys where
  F : Bool
  B : Bool
  N : Bool
  EQUAL : Bool
  MINUS : Bool
  PERIOD : Bool
  COMMA : Bool
  deriving DecidableEq, Repr

/-- The values of the lighting globals when the programs start: `use_torch = true`,
`use_blinn = false`, `use_gamma = 2.2f`. -/
def LightingMode.initial : LightingMode :=
  { use_torch := true, use_blinn := false, use_gamma := toFloat 2.2 }

namespace ParallaxMapping

/-- The lighting globals of `ParallaxMapping.cpp`; `use_gamma` and `height_scale` are of type
`float`. -/
structure Lighting where
  use_torch : Bool
  use_blinn : Bool
  use_normal_tex : Bool
  use_gamma : ℚ
  height_scale : ℚ
  deriving DecidableEq, Repr

/-- The initial values of the lighting globals of `ParallaxMapping.cpp`:
`use_gamma = 2.2f`, `height_scale = 0.1f`. -/
def Lighting.initial : Lighting :=
  { use_torch := true, use_blinn := false, use_normal_tex := true, use_gamma := toFloat 2.2,
    height_scale := toFloat 0.1 }

/-- The function `processInput` of `ParallaxMapping.cpp`, restricted to the lighting globals:
the statements from the `GLFW_KEY_F` test to the end of the function.  The literals `0.01f`
and `0.0005f` are `float` values and the sums and differences are `float` operations. -/
def processInput (keys : LightingKeys) (g : Lighting) : Lighting :=
  let g := if keys.F then { g with use_torch := !g.use_torch } else g
  let g := if keys.B then { g with use_blinn := !g.use_blinn } else g
  let g := if keys.N then { g with use_normal_tex := !g.use_normal_tex } else g
  let g := if keys.EQUAL then
    { g with use_gamma :=
        if g.use_gamma ≥ 4.0 then 4.0 else toFloat (g.use_gamma + toFloat 0.01) }
    else g
  let g := if keys.MINUS then
    { g with use_gamma :=
        if g.use_gamma ≤ 1.0 then 1.0 else toFloat (g.use_gamma - toFloat 0.01) }
    else g
  let g := if keys.PERIOD then
    { g with height_scale :=
        if g.height_scale ≥ 1.0 then 1.0 else toFloat (g.height_scale + toFloat 0.0005) }
    else g
  let g := if keys.COMMA then
    { g with height_scale :=
        if g.height_scale ≤ 0.0 then 0.0 else toFloat (g.height_scale - toFloat 0.0005) }
    else g
  g

/-- The lighting globals after a sequence of `processInput` calls, one per frame. -/
def runInput (keys : List LightingKeys) (g : Lighting) : Lighting :=
  keys.foldl (fun g k => processInput k g) g

end ParallaxMapping

namespace ParallelShadow

/-- The function `processInput` of `ParallelShadow.cpp`, restricted to the lighting globals:
the statements from the `GLFW_KEY_F` test to the end of the function.  The literal `0.01f` is
a `float` value and the sum and the difference are `float` operations. -/
def processInput (keys : LightingKeys) (g : LightingMode) : LightingMode :=
  let g := if keys.F then { g with use_torch := !g.use_torch } else g
  let g := if keys.B then { g with use_blinn := !g.use_blinn } else g
  let g := if keys.EQUAL then
    { g with use_gamma :=
        if g.use_gamma ≥ 4.0 then 4.0 else toFloat (g.use_gamma + toFloat 0.01) }
    else g
  let g := if keys.MINUS then
    { g with use_gamma :=
        if g.use_gamma ≤ 1.0 then 1.0 else toFloat (g.use_gamma - toFloat 0.01) }
    else g
  g

/-- The lighting globals after a sequence of `processInput` calls, one per frame. -/
def runInput (keys : List LightingKeys) (g : LightingMode) : LightingMode :=
  keys.foldl (fun g k => processInput k g) g

end ParallelShadow

namespace PointShadow

/-- The function `processInput` of `PointShadow.cpp`, restricted to the lighting globals:
the statements from the `GLFW_KEY_F` test to the end of the function.  The literals `0.01f`
and `0.1f` are `float` values and the sum and the difference are `float` operations. -/
def processInput (keys : LightingKeys) (g : LightingMode) : LightingMode :=
  let g := if keys.F then { g with use_torch := !g.use_torch } else g
  let g := if keys.B then { g with use_blinn := !g.use_blinn } else g
  let g := if keys.EQUAL then
    { g with use_gamma :=
        if g.use_gamma ≥ 4.0 then 4.0 else toFloat (g.use_gamma + toFloat 0.01) }
    else g
  let g := if keys.MINUS then
    { g with use_gamma :=
        if g.use_gamma ≤ toFloat 0.1 then toFloat 0.1
        else toFloat (g.use_gamma - toFloat 0.01) }
    else g
  g

/-- The lighting globals after a sequence of `processInput` calls, one per frame. -/
def runInput (keys : List LightingKeys) (g : LightingMode) : LightingMode :=
  keys.foldl (fun g k => processInput k g) g

end PointShadow

/-- The key states of a frame in which `=` is held down and no other lighting key is. -/
def equalKey : LightingKeys :=
  { F := false, B := false, N := false, EQUAL := true, MINUS := false, PERIOD := false,
    COMMA := false }

/-! ## Reading and consuming the input of the tangent-space utility (`utils/tangent.cpp`) -/

/-- The content of a file of whitespace-separated floats: the values in file order, and whether
white space (a final newline, say) follows the last value. -/
structure FloatFile where
  values : List ℚ
  trailingSpace : Bool
  deriving DecidableEq, Repr

/-- The part of a `std::ifstream` the loop of `readvals` depends on: the values not yet
extracted, whether white space follows the last of them, and the state bits `eofbit` and
`failbit`. -/
structure IStream where
  rest : List ℚ
  trailingSpace : Bool
  eofbit : Bool
  failbit : Bool
  deriving DecidableEq, Repr

/-- The stream after a successful `in.open(filename)`. -/
def IStream.opened (f : FloatFile) : IStream :=
  { rest := f.values, trailingSpace := f.trailingSpace, eofbit := false, failbit := false }

/-- The library call `in.good()`: no state bit is set. -/
def IStream.good (s : IStream) : Bool := !s.eofbit && !s.failbit

/-- The conversion of the stream to `bool` in `while (in)`: `!in.fail()`. -/
def IStream.ok (s : IStream) : Bool := !s.failbit

/-- The library call `in >> coord` for a `float`.  On a stream that is not good the extraction
sets `failbit` and leaves `coord` as it is.  Otherwise white space is skipped; at the end of
the input `eofbit` and `failbit` are set and `coord` is left as it is; else the next value is
stored in `coord`, and `eofbit` is set when reading it ran into the end of the file, which
happens when nothing follows the value. -/
def IStream.extract (s : IStream) (coord : ℚ) : IStream × ℚ :=
  if !s.good then ({ s with failbit := true }, coord)
  else
    match s.rest with
    | [] => ({ s with eofbit := true, failbit := true }, coord)
    | v :: rest => ({ s with rest := rest, eofbit := rest.isEmpty && !s.trailingSpace }, v)

/-- The loop `while (in) { float coord; in >> coord; data.push_back(coord); }` of `readvals`.
The local `coord` is declared without an initial value: `uninit n` is the value it holds in the
iteration that starts with `n` elements in `data`.  The result is `none` when the fuel runs
out before the loop ends. -/
def readvalsLoop (uninit : Nat → ℚ) : Nat → IStream → List ℚ → Option (List ℚ)
  | 0, _, _ => none
  | fuel + 1, s, data =>
    if s.ok then
      let coord := uninit data.length
      let (s, coord) := s.extract coord
      readvalsLoop uninit fuel s (data ++ [coord])
    else some data

/-- The function `readvals`: `fs filename` is the content of the file when
`in.open(filename)` succeeds and `none` when it fails; the result is the vector `data` when the
function returns. -/
def readvals (fs : String → Option FloatFile) (uninit : Nat → ℚ) (fuel : Nat)
    (filename : String) (data : List ℚ) : Option (List ℚ) :=
  match fs filename with
  | none => some data
  | some f => readvalsLoop uninit fuel (IStream.opened f) data

namespace Tangent

/-- The loop `while (data.size() >= 20) { calc_tangent_space(data); data.erase(data.begin(),
data.begin() + 20); }` of `main`: the vectors handed to `calc_tangent_space`, in the order of
the calls, and the vector `data` when the loop ends. -/
def mainLoop (data : List ℚ) : List (List ℚ) × List ℚ :=
  if 20 ≤ data.length then
    let r := mainLoop (data.drop 20)
    (data :: r.1, r.2)
  else ([], data)
termination_by data.length
decreasing_by
  simp only [List.length_drop]
  omega

end Tangent

/-- A file with the twenty values of `sampleQuad` and one more, ended by a newline. -/
def sampleFile : FloatFile := { values := sampleQuad ++ [7], trailingSpace := true }
/-! ## Face culling -/

/-- The face culling state of the context: whether `GL_CULL_FACE` is enabled, and the mode set
by `glCullFace`. -/
structure Culling where
  enabled : Bool
  mode : GLenum
  deriving DecidableEq, Repr

/-- The face culling state of a new context: disabled, mode `GL_BACK`. -/
def Culling.initial : Culling := { enabled := false, mode := GLenum.GL_BACK }

/-- The effect of one call on the face culling state. -/
def Culling.exec (c : GLCall) (k : Culling) : Culling :=
  match c with
  | GLCall.glEnable Cap.GL_CULL_FACE => { k with enabled := true }
  | GLCall.glDisable Cap.GL_CULL_FACE => { k with enabled := false }
  | GLCall.glCullFace mode => { k with mode := mode }
  | _ => k

/-- The face culling state after a sequence of calls. -/
def Culling.run : List GLCall → Culling → Culling
  | [], k => k
  | c :: cs, k => Culling.run cs (Culling.exec c k)

/-- The calls of a sequence, each with the face culling state it is made in. -/
def Culling.trace : List GLCall → Culling → List (Culling × GLCall)
  | [], _ => []
  | c :: cs, k => (k, c) :: Culling.trace cs (Culling.exec c k)

/-- The face culling state the steps of `initOpenGL` leave in a new context. -/
def Culling.afterInit (steps : List Call) : Culling :=
  steps.foldl (fun k c =>
    match c with
    | Call.glEnable Cap.GL_CULL_FACE => { k with enabled := true }
    | _ => k) Culling.initial

/-- An `initOpenGL` run in which every checked call succeeds. -/
def initEnvOk : InitEnv := { glfwInit := true, glfwCreateWindow := true, gladLoadGLLoader := true }

/-! ## Written byte ranges of a buffer -/

/-- The byte ranges `(offset, size)` written into a buffer by `glBufferSubData`, the newest
first. -/
def Machine.writtenRanges (m : Machine) (buffer : Nat) : List (Nat × Nat) :=
  (m.uploads.filter (fun u => u.1 = buffer)).map (fun u => (u.2.1, u.2.2.1))
/-! ## The instance buffer of `Instancing.cpp` -/

/-- A vertex attribute array as declared by `glVertexAttribPointer`: the buffer bound to
`GL_ARRAY_BUFFER` at the call, the number of components, their type, the stride and the byte
offset of the first element. -/
structure AttribPointer where
  buffer : Nat
  size : Nat
  type : GLenum
  stride : Nat
  offset : Nat
  deriving DecidableEq, Repr

/-- The vertex fetch state of the context: the `GL_ARRAY_BUFFER` and vertex array bindings,
the sizes given to the array buffers, and per vertex array and attribute index the declared
pointer, the divisor, and the enabled arrays (newest entry first). -/
structure VertexFetch where
  boundArrayBuffer : Nat
  boundVertexArray : Nat
  bufferSizes : List (Nat × Nat)
  pointers : List ((Nat × Nat) × AttribPointer)
  divisors : List ((Nat × Nat) × Nat)
  enabled : List (Nat × Nat)
  deriving DecidableEq, Repr

/-- The vertex fetch state over a graphics state, with nothing declared yet. -/
def VertexFetch.start (s : GLState) : VertexFetch :=
  { boundArrayBuffer := s.boundArrayBuffer, boundVertexArray := s.boundVertexArray,
    bufferSizes := [], pointers := [], divisors := [], enabled := [] }

/-- The effect of one call on the vertex fetch state. -/
def VertexFetch.exec (c : GLCall) (v : VertexFetch) : VertexFetch :=
  match c with
  | GLCall.glBindBuffer target n =>
    if target = GLenum.GL_ARRAY_BUFFER then { v with boundArrayBuffer := n } else v
  | GLCall.glBindVertexArray n => { v with boundVertexArray := n }
  | GLCall.glBufferData target size _ =>
    if target = GLenum.GL_ARRAY_BUFFER then
      { v with bufferSizes := (v.boundArrayBuffer, size) :: v.bufferSizes }
    else v
  | GLCall.glEnableVertexAttribArray index =>
    { v with enabled := (v.boundVertexArray, index) :: v.enabled }
  | GLCall.glVertexAttribPointer index size type _ stride pointer =>
    { v with
      pointers := ((v.boundVertexArray, index),
        { buffer := v.boundArrayBuffer, size := size, type := type, stride := stride,
          offset := pointer }) :: v.pointers }
  | GLCall.glVertexAttribDivisor index divisor =>
    { v with divisors := ((v.boundVertexArray, index), divisor) :: v.divisors }
  | _ => v

/-- The vertex fetch state after a sequence of calls. -/
def VertexFetch.run : List GLCall → VertexFetch → VertexFetch
  | [], v => v
  | c :: cs, v => VertexFetch.run cs (VertexFetch.exec c v)

/-- The byte range `(first, size)` of its buffer that an attribute of `GL_FLOAT` components
with a non-zero divisor reads for instance `i`: the element with index `i / divisor`. -/
def AttribPointer.instanceRange (p : AttribPointer) (divisor i : Nat) : Nat × Nat :=
  (p.offset + p.stride * (i / divisor), p.size * sizeofFloat)

namespace Instancing

/-- The local `cnt_obj` of `main`. -/
def cnt_obj : Nat := 100000

/-- Size in bytes of a `glm::vec4`: four floats. -/
def sizeofVec4 : Nat := 4 * sizeofFloat

/-- What `main` uses of a `Mesh` (class of `Model.h`): `mesh.VAO()` and
`mesh.indices.size()`. -/
structure Mesh where
  VAO : Nat
  indexCount : Nat
  deriving DecidableEq, Repr

/-- The body of the loop over `objectRock.meshes` that declares the instance attributes. -/
def configureMesh (mesh : Mesh) (s : GLState) : GLState :=
  let rockVAO := mesh.VAO
  let s := glBindVertexArray rockVAO s
  let vec4Size := sizeofVec4
  let s := s.record (GLCall.glEnableVertexAttribArray 3)
  let s := s.record (GLCall.glVertexAttribPointer 3 4 GLenum.GL_FLOAT false (4 * vec4Size) 0)
  let s := s.record (GLCall.glEnableVertexAttribArray 4)
  let s := s.record (GLCall.glVertexAttribPointer 4 4 GLenum.GL_FLOAT false (4 * vec4Size)
    vec4Size)
  let s := s.record (GLCall.glEnableVertexAttribArray 5)
  let s := s.record (GLCall.glVertexAttribPointer 5 4 GLenum.GL_FLOAT false (4 * vec4Size)
    (2 * vec4Size))
  let s := s.record (GLCall.glEnableVertexAttribArray 6)
  let s := s.record (GLCall.glVertexAttribPointer 6 4 GLenum.GL_FLOAT false (4 * vec4Size)
    (3 * vec4Size))
  let s := s.record (GLCall.glVertexAttribDivisor 3 1)
  let s := s.record (GLCall.glVertexAttribDivisor 4 1)
  let s := s.record (GLCall.glVertexAttribDivisor 5 1)
  let s := s.record (GLCall.glVertexAttribDivisor 6 1)
  let s := glBindVertexArray 0 s
  s

/-- The block of `main` that creates the instance buffer `ibo`, fills it with the `cnt_obj`
model matrices and declares the instance attributes of every mesh of the rock.  The result is
`ibo`. -/
def configureInstances (meshes : List Mesh) (s : GLState) : Nat × GLState :=
  let (ibo, s) := glGenBuffers s
  let s := glBindBuffer GLenum.GL_ARRAY_BUFFER ibo s
  let s := s.record (GLCall.glBufferData GLenum.GL_ARRAY_BUFFER (cnt_obj * sizeofMat4)
    GLenum.GL_STATIC_DRAW)
  let s := meshes.foldl (fun s mesh => configureMesh mesh s) s
  (ibo, s)

/-- The body of the loop over `objectRock.meshes` in block (1) of the loop body. -/
def drawMesh (mesh : Mesh) (s : GLState) : GLState :=
  let s := glBindVertexArray mesh.VAO s
  let s := s.record (GLCall.glDrawElementsInstanced GLenum.GL_TRIANGLES mesh.indexCount
    GLenum.GL_UNSIGNED_INT 0 cnt_obj)
  let s := glBindVertexArray 0 s
  s

/-- Block (1) of the loop body of `main`: the instanced draw of the rocks;
`rockTexture` is `objectRock.textures_loaded[0].id`. -/
def drawInstances (instanceShader : Shader) (rockTexture : Nat) (meshes : List Mesh)
    (s : GLState) : GLState :=
  let s := instanceShader.use s
  let s := instanceShader.setUniformInt "uMaterial.texture_diffuse1" 0 s
  let s := glActiveTexture 0 s
  let s := glBindTexture GLenum.GL_TEXTURE_2D rockTexture s
  let s := meshes.foldl (fun s mesh => drawMesh mesh s) s
  s

/-- The calls of `configureMesh`, in order. -/
def configureMeshCalls (mesh : Mesh) : List GLCall :=
  [GLCall.glBindVertexArray mesh.VAO,
   GLCall.glEnableVertexAttribArray 3,
   GLCall.glVertexAttribPointer 3 4 GLenum.GL_FLOAT false (4 * sizeofVec4) 0,
   GLCall.glEnableVertexAttribArray 4,
   GLCall.glVertexAttribPointer 4 4 GLenum.GL_FLOAT false (4 * sizeofVec4) sizeofVec4,
   GLCall.glEnableVertexAttribArray 5,
   GLCall.glVertexAttribPointer 5 4 GLenum.GL_FLOAT false (4 * sizeofVec4) (2 * sizeofVec4),
   GLCall.glEnableVertexAttribArray 6,
   GLCall.glVertexAttribPointer 6 4 GLenum.GL_FLOAT false (4 * sizeofVec4) (3 * sizeofVec4),
   GLCall.glVertexAttribDivisor 3 1,
   GLCall.glVertexAttribDivisor 4 1,
   GLCall.glVertexAttribDivisor 5 1,
   GLCall.glVertexAttribDivisor 6 1,
   GLCall.glBindVertexArray 0]

/-- The calls of the loop over the meshes that declares the instance attributes. -/
def configureMeshesCalls : List Mesh → List GLCall
  | [] => []
  | mesh :: rest => configureMeshCalls mesh ++ configureMeshesCalls rest

/-- The instanced draw calls of the loop over the meshes in block (1). -/
def drawMeshesCalls : List Mesh → List GLCall
  | [] => []
  | mesh :: rest =>
    [GLCall.glBindVertexArray mesh.VAO,
     GLCall.glDrawElementsInstanced GLenum.GL_TRIANGLES mesh.indexCount
       GLenum.GL_UNSIGNED_INT 0 cnt_obj,
     GLCall.glBindVertexArray 0] ++ drawMeshesCalls rest

/-- The instance count of an instanced draw call. -/
def instanceCount : GLCall → Option Nat
  | GLCall.glDrawElementsInstanced _ _ _ _ n => some n
  | _ => none

end Instancing

/-! # Theorems -/

/-! ## Start-up and the render loop -/

theorem frameStep_shouldClose (w : Window) (inp : FrameInput) :
    (frameStep w inp).shouldClose = (w.shouldClose || inp.escape || inp.closeRequested) := by
  cases w with
  | mk c =>
    cases inp with
    | mk e r =>
      cases c <;> cases e <;> cases r <;> rfl

theorem windowAt_succ_shift (g : Nat → FrameInput) (w : Window) (n : Nat) :
    windowAt g w (n + 1) = windowAt (fun i => g (i + 1)) (frameStep w (g 0)) n := by
  induction n with
  | zero => rfl
  | succ n ih =>
    show frameStep (windowAt g w (n + 1)) (g (n + 1)) = _
    rw [ih]
    rfl

theorem windowAt_closed_mono (g : Nat → FrameInput) (w : Window) (n m : Nat) (hnm : n ≤ m)
    (h : (windowAt g w n).shouldClose = true) : (windowAt g w m).shouldClose = true := by
  induction hnm with
  | refl => exact h
  | step _ ih =>
    show (frameStep _ _).shouldClose = true
    rw [frameStep_shouldClose, ih]
    rfl

theorem windowAt_closed_of_input (g : Nat → FrameInput) (w : Window) (n : Nat)
    (h : (g n).escape = true ∨ (g n).closeRequested = true) :
    (windowAt g w (n + 1)).shouldClose = true := by
  show (frameStep _ _).shouldClose = true
  rw [frameStep_shouldClose]
  rcases h with h | h <;> simp [h]

theorem windowAt_open_of_quiet (g : Nat → FrameInput) (w : Window)
    (hw : w.shouldClose = false)
    (hq : ∀ i, (g i).escape = false ∧ (g i).closeRequested = false) (n : Nat) :
    (windowAt g w n).shouldClose = false := by
  induction n with
  | zero => exact hw
  | succ n ih =>
    show (frameStep _ _).shouldClose = false
    rw [frameStep_shouldClose, ih, (hq n).1, (hq n).2]
    rfl

/-- The loop leaves only with the flag set. -/
theorem renderLoop_closed (d : Program) (frames : Nat → FrameInput) (fuel k : Nat) (w : Window)
    (tr : List Call) (r : Window × List Call)
    (h : renderLoop d frames fuel k w tr = some r) : r.1.shouldClose = true := by
  induction fuel generalizing k w tr with
  | zero => simp [renderLoop] at h
  | succ fuel ih =>
    unfold renderLoop at h
    by_cases hc : w.shouldClose = true
    · simp [hc] at h
      rw [← h]
      exact hc
    · simp [hc] at h
      exact ih _ _ _ h

/-- The loop runs exactly as many iterations as there are loop tests that see the flag unset. -/
theorem renderLoop_exact (d : Program) (frames : Nat → FrameInput) (n : Nat) :
    ∀ (k : Nat) (w : Window) (tr : List Call) (fuel : Nat),
      (∀ j, j < n → (windowAt (fun i => frames (i + k)) w j).shouldClose = false) →
      (windowAt (fun i => frames (i + k)) w n).shouldClose = true →
      n + 1 ≤ fuel →
      renderLoop d frames fuel k w tr
        = some (windowAt (fun i => frames (i + k)) w n, tr ++ framesTrace d n) := by
  induction n with
  | zero =>
    intro k w tr fuel _ hclosed hfuel
    obtain ⟨f, rfl⟩ : ∃ f, fuel = f + 1 := ⟨fuel - 1, by omega⟩
    have hw : w.shouldClose = true := hclosed
    simp [renderLoop, hw, windowAt, framesTrace]
  | succ n ih =>
    intro k w tr fuel hopen hclosed hfuel
    obtain ⟨f, rfl⟩ : ∃ f, fuel = f + 1 := ⟨fuel - 1, by omega⟩
    have hw : w.shouldClose = false := hopen 0 (Nat.succ_pos n)
    have hshift : ∀ j, windowAt (fun i => frames (i + k)) w (j + 1)
        = windowAt (fun i => frames (i + (k + 1))) (frameStep w (frames k)) j := by
      intro j
      rw [windowAt_succ_shift]
      have hfun : (fun i => frames (i + 1 + k)) = (fun i => frames (i + (k + 1))) := by
        funext i
        congr 1
        omega
      simp only [Nat.zero_add, hfun]
    have hopen2 : ∀ j, j < n →
        (windowAt (fun i => frames (i + (k + 1))) (frameStep w (frames k)) j).shouldClose
          = false := by
      intro j hj
      rw [← hshift]
      exact hopen (j + 1) (by omega)
    have hclosed2 :
        (windowAt (fun i => frames (i + (k + 1))) (frameStep w (frames k)) n).shouldClose
          = true := by
      rw [← hshift]
      exact hclosed
    have hrec := ih (k + 1) (frameStep w (frames k)) (tr ++ frameCalls d) f hopen2 hclosed2
      (by omega)
    unfold renderLoop
    simp only [hw, Bool.false_eq_true, if_false]
    rw [hrec, hshift]
    simp [framesTrace, List.append_assoc]

/-- With no Escape, no close request and the flag unset, the loop never ends. -/
theorem renderLoop_quiet (d : Program) (frames : Nat → FrameInput) (fuel : Nat) :
    ∀ (k : Nat) (w : Window) (tr : List Call), w.shouldClose = false →
      (∀ i, (frames i).escape = false ∧ (frames i).closeRequested = false) →
      renderLoop d frames fuel k w tr = none := by
  induction fuel with
  | zero => intros; rfl
  | succ fuel ih =>
    intro k w tr hw hq
    unfold renderLoop
    simp only [hw, Bool.false_eq_true, if_false]
    apply ih
    · rw [frameStep_shouldClose, hw, (hq k).1, (hq k).2]
      rfl
    · exact hq

theorem main_of_init_false (d : Program) (env : Env) (fuel : Nat)
    (h : (initOpenGL d env.init).1 = false) :
    main d env fuel = some (Outcome.mk (-1) none
      ((initOpenGL d env.init).2 ++ [Call.cerr "GLFW initialization failed"])) := by
  unfold main
  rcases hi : initOpenGL d env.init with ⟨b, tr⟩
  rw [hi] at h
  cases b
  · rfl
  · exact absurd h (by simp)

theorem main_of_init_true (d : Program) (env : Env) (fuel : Nat)
    (h : (initOpenGL d env.init).1 = true) :
    main d env fuel
      = (renderLoop d env.frames fuel 0 env.created
          ((initOpenGL d env.init).2 ++ [Call.loadScene d])).map
        (fun r => { code := 0, window := some r.1, trace := r.2 ++ [Call.glfwTerminate] }) := by
  unfold main
  rcases hi : initOpenGL d env.init with ⟨b, tr⟩
  rw [hi] at h
  cases b
  · exact absurd h (by simp)
  · simp only
    cases renderLoop d env.frames fuel 0 env.created (tr ++ [Call.loadScene d]) <;> rfl

theorem frameCalls_not_in_failed_init (d : Program) (ienv : InitEnv)
    (h : (initOpenGL d ienv).1 = false) :
    ∀ c ∈ frameCalls d,
      c ∉ (initOpenGL d ienv).2 ++ [Call.cerr "GLFW initialization failed"] := by
  rcases ienv with ⟨a, b, c⟩
  cases d <;> cases a <;> cases b <;> cases c <;>
    first
    | exact absurd h (by decide)
    | decide

/-- A loop that ends does so at a first loop test that sees the flag set. -/
theorem exists_first_closed (g : Nat → FrameInput) (w : Window) (n : Nat)
    (h : (windowAt g w n).shouldClose = true) :
    ∃ m, m ≤ n ∧ (∀ j, j < m → (windowAt g w j).shouldClose = false) ∧
      (windowAt g w m).shouldClose = true := by
  classical
  have hex : ∃ m, (windowAt g w m).shouldClose = true := ⟨n, h⟩
  refine ⟨Nat.find hex, Nat.find_min' hex h, ?_, Nat.find_spec hex⟩
  intro j hj
  have := Nat.find_min hex hj
  simpa using this

theorem main_returns (d : Program) (env : Env) (m : Nat)
    (hinit : (initOpenGL d env.init).1 = true)
    (hopen : ∀ j, j < m → (windowAt env.frames env.created j).shouldClose = false)
    (hclosed : (windowAt env.frames env.created m).shouldClose = true)
    (fuel : Nat) (hfuel : m + 1 ≤ fuel) :
    main d env fuel = some (Outcome.mk 0 (some (windowAt env.frames env.created m))
      ((initOpenGL d env.init).2 ++ [Call.loadScene d] ++ framesTrace d m
        ++ [Call.glfwTerminate])) := by
  have hfun : (fun i => env.frames (i + 0)) = env.frames := by
    funext i
    rfl
  have hloop := renderLoop_exact d env.frames m 0 env.created
    ((initOpenGL d env.init).2 ++ [Call.loadScene d]) fuel
    (by rw [hfun]; exact hopen) (by rw [hfun]; exact hclosed) hfuel
  rw [main_of_init_true d env fuel hinit, hloop, hfun]
  rfl

/-- C1. In every demo, `main` returns `-1` exactly when `initOpenGL` returns false, and then no
step of the loop body is performed; when `initOpenGL` returns true, `main` can only return `0`,
and it does return `0` once the render loop ends (once a loop test sees the flag set). -/
theorem main_exit_code (d : Program) (env : Env) :
    ((initOpenGL d env.init).1 = false →
      ∀ fuel, ∃ o, main d env fuel = some o ∧ o.code = -1 ∧
        ∀ c ∈ frameCalls d, c ∉ o.trace) ∧
    (∀ fuel o, main d env fuel = some o →
      (o.code = -1 ↔ (initOpenGL d env.init).1 = false)) ∧
    ((initOpenGL d env.init).1 = true →
      (∀ fuel o, main d env fuel = some o → o.code = 0) ∧
      ∀ n, (windowAt env.frames env.created n).shouldClose = true →
        ∀ fuel, n + 1 ≤ fuel → ∃ o, main d env fuel = some o ∧ o.code = 0) := by
  have hok : (initOpenGL d env.init).1 = true →
      ∀ fuel o, main d env fuel = some o → o.code = 0 := by
    intro hinit fuel o ho
    rw [main_of_init_true d env fuel hinit] at ho
    cases hl : renderLoop d env.frames fuel 0 env.created
        ((initOpenGL d env.init).2 ++ [Call.loadScene d]) with
    | none => simp [hl] at ho
    | some r =>
      simp [hl] at ho
      rw [← ho]
  refine ⟨?_, ?_, ?_⟩
  · intro hinit fuel
    exact ⟨_, main_of_init_false d env fuel hinit, rfl,
      frameCalls_not_in_failed_init d env.init hinit⟩
  · intro fuel o ho
    cases hinit : (initOpenGL d env.init).1 with
    | false =>
      rw [main_of_init_false d env fuel hinit] at ho
      simp at ho
      rw [← ho]
      simp
    | true =>
      have := hok hinit fuel o ho
      simp [this]
  · intro hinit
    refine ⟨hok hinit, ?_⟩
    intro n hn fuel hfuel
    obtain ⟨m, hmn, hopen, hclosed⟩ := exists_first_closed env.frames env.created n hn
    exact ⟨_, main_returns d env m hinit hopen hclosed fuel (by omega), rfl⟩

theorem main_exit_code_witness :
    (∃ o, main Program.CubeMaps envNoWindow 0 = some o ∧ o.code = -1 ∧
        ∀ c ∈ frameCalls Program.CubeMaps, c ∉ o.trace) ∧
    (∃ o, main Program.CubeMaps envEscape 4 = some o ∧ o.code = 0) :=
  ⟨(main_exit_code Program.CubeMaps envNoWindow).1 (by decide) 0,
   (main_exit_code Program.CubeMaps envEscape).2.2 (by decide) |>.2 3 (by decide) 4
     (by decide)⟩

/-- C2, as stated, fails: when `gladLoadGLLoader` fails, `initOpenGL` returns false although the
three callbacks have been registered, since the registration precedes the GLAD check. -/
theorem initOpenGL_glad_failure_after_callbacks :
    (initOpenGL Program.CubeMaps initEnvNoGlad).1 = false ∧
    Call.glfwSetCursorPosCallback ∈ (initOpenGL Program.CubeMaps initEnvNoGlad).2 ∧
    Call.glfwSetScrollCallback ∈ (initOpenGL Program.CubeMaps initEnvNoGlad).2 ∧
    Call.glfwSetFramebufferSizeCallback ∈ (initOpenGL Program.CubeMaps initEnvNoGlad).2 := by
  decide

/-- C2, amended. `initOpenGL` returns true if and only if `glfwInit`, `glfwCreateWindow` and
`gladLoadGLLoader` all succeed.  When one of them fails, `initOpenGL` returns false, writes
exactly the message of that step to standard error and performs none of the steps that follow
the failed call: nothing after a failed `glfwInit`; no context, callback, GLAD, GL state or
cursor mode step after a failed `glfwCreateWindow`; no GL state or cursor mode step after a
failed `gladLoadGLLoader`, at which point the callbacks are already registered. -/
theorem initOpenGL_result (d : Program) (env : InitEnv) :
    ((initOpenGL d env).1 = true ↔
      env.glfwInit = true ∧ env.glfwCreateWindow = true ∧ env.gladLoadGLLoader = true) ∧
    (env.glfwInit = false →
      (initOpenGL d env).1 = false ∧
      stderrOf (initOpenGL d env).2 = ["GLFW initialization failed"] ∧
      ∀ c ∈ windowSteps ++ callbackSteps ++ glStateSteps d, c ∉ (initOpenGL d env).2) ∧
    (env.glfwInit = true → env.glfwCreateWindow = false →
      (initOpenGL d env).1 = false ∧
      stderrOf (initOpenGL d env).2 = ["Failed to create GLFW window"] ∧
      ∀ c ∈ callbackSteps ++ glStateSteps d, c ∉ (initOpenGL d env).2) ∧
    (env.glfwInit = true → env.glfwCreateWindow = true → env.gladLoadGLLoader = false →
      (initOpenGL d env).1 = false ∧
      stderrOf (initOpenGL d env).2 = ["Failed to initialize GLAD"] ∧
      (∀ c ∈ glStateSteps d, c ∉ (initOpenGL d env).2) ∧
      ∀ c ∈ callbackSteps, c ∈ (initOpenGL d env).2) := by
  rcases env with ⟨a, b, c⟩
  cases d <;> cases a <;> cases b <;> cases c <;>
    exact ⟨by decide, by decide, by decide, by decide⟩

theorem initOpenGL_result_witness :
    (initOpenGL Program.PointShadow initEnvNoGlad).1 = false ∧
    stderrOf (initOpenGL Program.PointShadow initEnvNoGlad).2 = ["Failed to initialize GLAD"] ∧
    (∀ c ∈ glStateSteps Program.PointShadow,
      c ∉ (initOpenGL Program.PointShadow initEnvNoGlad).2) ∧
    ∀ c ∈ callbackSteps, c ∈ (initOpenGL Program.PointShadow initEnvNoGlad).2 :=
  (initOpenGL_result Program.PointShadow initEnvNoGlad).2.2.2 rfl rfl rfl

/-- C3. After a successful start-up the render loop starts an iteration exactly at the loop
tests that see the should-close flag unset: when the `n`-th test is the first to see it set,
`main` performs exactly `n` iterations and returns `0`.  `processInput` sets the flag exactly
when Escape is pressed and never clears it, no other step of the program changes it (if the
library never raises the flag, `main` returns `0` only after Escape was pressed), and whenever
`main` returns `0` the flag is set. -/
theorem render_loop_exit (d : Program) (env : Env) :
    (∀ w inp, (processInput w inp).shouldClose = (w.shouldClose || inp.escape)) ∧
    (∀ fuel o, main d env fuel = some o → o.code = 0 →
      o.window = some { shouldClose := true }) ∧
    ((initOpenGL d env.init).1 = true →
      ∀ n, (∀ j, j < n → (windowAt env.frames env.created j).shouldClose = false) →
        (windowAt env.frames env.created n).shouldClose = true →
        ∀ fuel, n + 1 ≤ fuel →
          main d env fuel = some (Outcome.mk 0 (some (windowAt env.frames env.created n))
            ((initOpenGL d env.init).2 ++ [Call.loadScene d] ++ framesTrace d n
              ++ [Call.glfwTerminate]))) ∧
    (env.created.shouldClose = false → (∀ i, (env.frames i).closeRequested = false) →
      ∀ fuel o, main d env fuel = some o → o.code = 0 →
        ∃ n, (env.frames n).escape = true) := by
  refine ⟨?_, ?_, ?_, ?_⟩
  · intro w inp
    cases w with
    | mk c =>
      cases inp with
      | mk e r => cases c <;> cases e <;> rfl
  · intro fuel o ho hcode
    cases hinit : (initOpenGL d env.init).1 with
    | false =>
      rw [main_of_init_false d env fuel hinit] at ho
      simp at ho
      rw [← ho] at hcode
      simp at hcode
    | true =>
      rw [main_of_init_true d env fuel hinit] at ho
      cases hl : renderLoop d env.frames fuel 0 env.created
          ((initOpenGL d env.init).2 ++ [Call.loadScene d]) with
      | none => simp [hl] at ho
      | some r =>
        have hr := renderLoop_closed d env.frames fuel 0 env.created _ r hl
        simp [hl] at ho
        rw [← ho]
        rcases r with ⟨⟨c⟩, tr⟩
        simp at hr
        simp [hr]
  · intro hinit n hopen hclosed fuel hfuel
    exact main_returns d env n hinit hopen hclosed fuel hfuel
  · intro hw hquiet fuel o ho hcode
    by_contra hno
    have hesc : ∀ i, (env.frames i).escape = false := by
      intro i
      cases he : (env.frames i).escape with
      | false => rfl
      | true => exact absurd ⟨i, he⟩ hno
    cases hinit : (initOpenGL d env.init).1 with
    | false =>
      rw [main_of_init_false d env fuel hinit] at ho
      simp at ho
      rw [← ho] at hcode
      simp at hcode
    | true =>
      rw [main_of_init_true d env fuel hinit,
        renderLoop_quiet d env.frames fuel 0 env.created _ hw
          (fun i => ⟨hesc i, hquiet i⟩)] at ho
      simp at ho

theorem render_loop_exit_witness :
    main Program.ParallelShadow envEscape 4
      = some (Outcome.mk 0 (some (windowAt envEscape.frames envEscape.created 3))
          ((initOpenGL Program.ParallelShadow envEscape.init).2
            ++ [Call.loadScene Program.ParallelShadow] ++ framesTrace Program.ParallelShadow 3
            ++ [Call.glfwTerminate])) ∧
    ∃ n, (envEscape.frames n).escape = true :=
  have h := (render_loop_exit Program.ParallelShadow envEscape).2.2.1 (by decide) 3
    (by decide) (by decide) 4 (by decide)
  ⟨h, (render_loop_exit Program.ParallelShadow envEscape).2.2.2 rfl (fun _ => rfl) 4 _ h rfl⟩

/-! ## The wrapper classes -/

/-- C4. `FrameBuffer::setup` (both in `FrameBuffers.cpp` and in `Demo.cpp`) does not abort on an
incomplete framebuffer: whatever value the completeness check returns, `setup` runs to its last
statement `glBindFramebuffer(GL_FRAMEBUFFER, 0)`, leaves framebuffer `0` bound and stores the
same `fbo`, `tid` and `rbo` as for a complete framebuffer; the resulting state differs from the
one for a complete framebuffer only in standard error, which receives the line
`ERROR: Framebuffer is not complete!` exactly when the status is not
`GL_FRAMEBUFFER_COMPLETE`. -/
theorem FrameBuffer_setup_logs_and_continues (width height : Int) (self : Demo.FrameBuffer)
    (answer : Nat) (s : GLState) :
    ((FrameBuffers.FrameBuffer.setup width height answer s).2.calls.getLast?
        = some (GLCall.glBindFramebuffer GLenum.GL_FRAMEBUFFER 0) ∧
      (FrameBuffers.FrameBuffer.setup width height answer s).2.boundFramebuffer = 0 ∧
      (FrameBuffers.FrameBuffer.setup width height answer s).1
        = (FrameBuffers.FrameBuffer.setup width height GL_FRAMEBUFFER_COMPLETE s).1 ∧
      (FrameBuffers.FrameBuffer.setup width height answer s).2
        = { (FrameBuffers.FrameBuffer.setup width height GL_FRAMEBUFFER_COMPLETE s).2 with
            cerr := s.cerr ++
              (if answer ≠ GL_FRAMEBUFFER_COMPLETE then [framebufferMessage] else []) }) ∧
    ((Demo.FrameBuffer.setup self answer s).2.calls.getLast?
        = some (GLCall.glBindFramebuffer GLenum.GL_FRAMEBUFFER 0) ∧
      (Demo.FrameBuffer.setup self answer s).2.boundFramebuffer = 0 ∧
      (Demo.FrameBuffer.setup self answer s).1
        = (Demo.FrameBuffer.setup self GL_FRAMEBUFFER_COMPLETE s).1 ∧
      (Demo.FrameBuffer.setup self answer s).2
        = { (Demo.FrameBuffer.setup self GL_FRAMEBUFFER_COMPLETE s).2 with
            cerr := s.cerr ++
              (if answer ≠ GL_FRAMEBUFFER_COMPLETE then [framebufferMessage] else []) }) := by
  by_cases h : answer = GL_FRAMEBUFFER_COMPLETE
  · subst h
    simp [FrameBuffers.FrameBuffer.setup, Demo.FrameBuffer.setup, glGenFramebuffers,
      glGenTextures, glGenRenderbuffers, glBindFramebuffer, glBindTexture, glBindRenderbuffer,
      glCheckFramebufferStatus, GLState.record, GLState.print]
  · simp [FrameBuffers.FrameBuffer.setup, Demo.FrameBuffer.setup, glGenFramebuffers,
      glGenTextures, glGenRenderbuffers, glBindFramebuffer, glBindTexture, glBindRenderbuffer,
      glCheckFramebufferStatus, GLState.record, GLState.print, h]

/-- C6. The skybox mesh is a cube with six faces: the 8 vertices of `skyboxVertices` are the 8
distinct corners of `{-1, 1}^3`, and the 12 triangles of `skyboxElements` form 6 consecutive
pairs, the `k`-th pair using exactly the 4 corners of the `k`-th of the six distinct faces
right (`x = 1`), left (`x = -1`), top (`y = 1`), bottom (`y = -1`), front (`z = 1`),
back (`z = -1`). -/
theorem skybox_is_cube :
    (∀ v : vec3, v ∈ cubeCorners ↔
      (v.x = 1 ∨ v.x = -1) ∧ (v.y = 1 ∨ v.y = -1) ∧ (v.z = 1 ∨ v.z = -1)) ∧
    skyboxPositions.length = 8 ∧ skyboxPositions.Nodup ∧
    (∀ v, v ∈ skyboxPositions ↔ v ∈ cubeCorners) ∧
    skyboxTriangles.length = 12 ∧ (pairs skyboxTriangles).length = 6 ∧
    faceOrder = [⟨Axis.X, 1⟩, ⟨Axis.X, -1⟩, ⟨Axis.Y, 1⟩, ⟨Axis.Y, -1⟩, ⟨Axis.Z, 1⟩, ⟨Axis.Z, -1⟩] ∧
    faceOrder.Nodup ∧
    (∀ f ∈ faceOrder, f.corners.length = 4 ∧ f.corners.Nodup) ∧
    List.Forall₂ (fun p (f : Face) => ∀ v, v ∈ pairVertices p ↔ v ∈ f.corners)
      (pairs skyboxTriangles) faceOrder := by
  refine ⟨?_, by decide, by decide, ?_, by decide, by decide, rfl, by decide, by decide, ?_⟩
  · rintro ⟨x, y, z⟩
    simp only [cubeCorners, List.mem_cons, vec3.mk.injEq, List.mem_singleton]
    constructor
    · intro h
      simp only [List.not_mem_nil, or_false] at h
      rcases h with h | h | h | h | h | h | h | h <;>
        (obtain ⟨rfl, rfl, rfl⟩ := h; simp)
    · rintro ⟨hx | hx, hy | hy, hz | hz⟩ <;> subst hx <;> subst hy <;> subst hz <;> simp
  · intro v
    have h : sameElements skyboxPositions cubeCorners = true := by decide
    simp only [sameElements, Bool.and_eq_true, List.all_eq_true, List.contains_iff_exists_mem_beq,
      beq_iff_eq, exists_eq_right'] at h
    exact ⟨h.1 v, h.2 v⟩
  · have h : ((pairs skyboxTriangles).zip faceOrder).all
        (fun pf => sameElements (pairVertices pf.1) pf.2.corners) = true := by decide
    have hp : pairs skyboxTriangles
        = [((1, 5, 6), (6, 2, 1)), ((4, 0, 3), (3, 7, 4)), ((3, 2, 6), (6, 7, 3)),
           ((4, 5, 1), (1, 0, 4)), ((0, 1, 2), (2, 3, 0)), ((7, 6, 5), (5, 4, 7))] := by decide
    rw [hp] at h ⊢
    simp only [faceOrder, List.zip_cons_cons, List.zip_nil_right, List.all_cons, List.all_nil,
      Bool.and_true, Bool.and_eq_true, sameElements, List.all_eq_true,
      List.contains_iff_exists_mem_beq, beq_iff_eq, exists_eq_right'] at h
    simp only [faceOrder, List.forall₂_cons, List.Forall₂.nil, and_true]
    obtain ⟨h1, h2, h3, h4, h5, h6⟩ := h
    exact ⟨fun v => ⟨h1.1 v, h1.2 v⟩, fun v => ⟨h2.1 v, h2.2 v⟩, fun v => ⟨h3.1 v, h3.2 v⟩,
      fun v => ⟨h4.1 v, h4.2 v⟩, fun v => ⟨h5.1 v, h5.2 v⟩, fun v => ⟨h6.1 v, h6.2 v⟩⟩

/-- C7. The skybox buffers match the declared vertex count: `skyboxVertices` holds 24 floats
(8 vertices of 3 components), `skyboxElements` holds 36 indices (12 triangles), every index is
smaller than 8, and so the draw call of `Skybox::Draw`, whose count is `skyboxElements.size()`,
reads only indices inside the element buffer uploaded by `Skybox::setup` and only vertices
inside the uploaded vertex buffer. -/
theorem skybox_buffers_match (self : Skybox) (shader : Shader) (view projection : mat4)
    (s : GLState) :
    skyboxVertices.length = 24 ∧ skyboxVertices.length = 8 * 3 ∧ skyboxPositions.length = 8 ∧
    skyboxElements.length = 36 ∧ skyboxElements.length = 12 * 3 ∧
    skyboxTriangles.length = 12 ∧
    (∀ i ∈ skyboxElements, i < 8) ∧
    GLCall.glBufferData GLenum.GL_ARRAY_BUFFER (4 * 24) GLenum.GL_STATIC_DRAW
      ∈ (self.setup s).2.calls ∧
    GLCall.glBufferData GLenum.GL_ELEMENT_ARRAY_BUFFER (4 * 36) GLenum.GL_STATIC_DRAW
      ∈ (self.setup s).2.calls ∧
    GLCall.glVertexAttribPointer 0 3 GLenum.GL_FLOAT false (3 * 4) 0 ∈ (self.setup s).2.calls ∧
    GLCall.glDrawElements GLenum.GL_TRIANGLES 36 GLenum.GL_UNSIGNED_INT 0
      ∈ (self.Draw shader view projection s).calls ∧
    skyboxDrawCount * sizeofUInt ≤ skyboxElementBytes ∧
    (∀ i ∈ skyboxElements.take skyboxDrawCount,
      skyboxStride * i + 3 * sizeofFloat ≤ skyboxVertexBytes) := by
  refine ⟨by decide, by decide, by decide, by decide, by decide, by decide, by decide,
    ?_, ?_, ?_, ?_, by decide, by decide⟩
  · simp [Skybox.setup, glGenBuffers, glGenVertexArrays, glBindVertexArray, glBindBuffer,
      GLState.record, skyboxVertexBytes, skyboxVertices, sizeofFloat]
  · simp [Skybox.setup, glGenBuffers, glGenVertexArrays, glBindVertexArray, glBindBuffer,
      GLState.record, skyboxElementBytes, skyboxElements, sizeofUInt]
  · simp [Skybox.setup, glGenBuffers, glGenVertexArrays, glBindVertexArray, glBindBuffer,
      GLState.record, skyboxStride, sizeofFloat]
  · simp [Skybox.Draw, Shader.use, Shader.setUniformMat4, Shader.setUniformInt,
      glDepthMask, glDepthFunc, glBindVertexArray, glActiveTexture, glBindTexture,
      GLState.record, skyboxDrawCount, skyboxElements]

theorem le_foldr_max (l : List Nat) (x : Nat) (h : x ∈ l) : x ≤ l.foldr max 0 := by
  induction l with
  | nil => simp at h
  | cons a l ih =>
    simp only [List.mem_cons] at h
    simp only [List.foldr_cons]
    rcases h with rfl | h
    · exact le_max_left _ _
    · exact le_trans (ih h) (le_max_right _ _)

theorem freshName_not_mem (l : List Nat) : freshName l ∉ l := by
  intro h
  have := le_foldr_max l _ h
  unfold freshName at this
  omega

theorem ne_freshName_of_mem (l : List Nat) : ∀ a ∈ l, ¬ a = freshName l :=
  fun _ ha h => freshName_not_mem l (h ▸ ha)

/-- C8, as stated, fails: after `setup` and destruction of a `FrameBuffer` the colour texture
that `setup` created is still alive, after `setup` and destruction of a `DepthMap` its depth
texture is still alive, and a destroyed `Skybox` leaves its two buffers and its vertex array
alive. -/
theorem wrappers_leave_objects_alive :
    ((FrameBuffers.FrameBuffer.setup 1280 720 GL_FRAMEBUFFER_COMPLETE GLState.initial).1.tid
        ∉ GLState.initial.textures ∧
      (FrameBuffers.FrameBuffer.setup 1280 720 GL_FRAMEBUFFER_COMPLETE GLState.initial).1.tid
        ∈ ((FrameBuffers.FrameBuffer.setup 1280 720 GL_FRAMEBUFFER_COMPLETE
              GLState.initial).1.destroy
            (FrameBuffers.FrameBuffer.setup 1280 720 GL_FRAMEBUFFER_COMPLETE
              GLState.initial).2).textures) ∧
    ((demoFrameBuffer.setup GL_FRAMEBUFFER_COMPLETE GLState.initial).1.tid
        ∈ ((demoFrameBuffer.setup GL_FRAMEBUFFER_COMPLETE GLState.initial).1.destroy
            (demoFrameBuffer.setup GL_FRAMEBUFFER_COMPLETE GLState.initial).2).textures) ∧
    ((newDepthMap.setup GLState.initial).1.tid ∉ GLState.initial.textures ∧
      (newDepthMap.setup GLState.initial).1.tid
        ∈ ((newDepthMap.setup GLState.initial).1.destroy
            (newDepthMap.setup GLState.initial).2).textures) ∧
    ((newCubeDepthMap.setup GLState.initial).1.tid
        ∈ ((newCubeDepthMap.setup GLState.initial).1.destroy
            (newCubeDepthMap.setup GLState.initial).2).textures) ∧
    ((newSkybox.setup GLState.initial).1.vbo ∉ GLState.initial.buffers ∧
      (newSkybox.setup GLState.initial).1.vbo
        ∈ ((newSkybox.setup GLState.initial).1.destroy
            (newSkybox.setup GLState.initial).2).buffers ∧
      (newSkybox.setup GLState.initial).1.ebo
        ∈ ((newSkybox.setup GLState.initial).1.destroy
            (newSkybox.setup GLState.initial).2).buffers ∧
      (newSkybox.setup GLState.initial).1.vao
        ∈ ((newSkybox.setup GLState.initial).1.destroy
            (newSkybox.setup GLState.initial).2).vertexArrays) := by
  decide

/-- C8, amended. The destructor of `FrameBuffer` (in `FrameBuffers.cpp` and in `Demo.cpp`)
deletes the framebuffer and the renderbuffer that `setup` created, and the destructor of
`DepthMap` (in `ParallelShadow.cpp` and in `PointShadow.cpp`) deletes the framebuffer that
`setup` created: these objects did not exist before `setup`, are alive after it and are no
longer alive after destruction, when the live framebuffers and renderbuffers are again those
from before `setup`.  `Skybox` declares no destructor, its destruction issues no call. -/
theorem wrappers_release_framebuffers (width height : Int) (answer : Nat)
    (fb : Demo.FrameBuffer) (dm : ParallelShadow.DepthMap) (cm : PointShadow.DepthMap)
    (sky : Skybox) (s : GLState) :
    ((FrameBuffers.FrameBuffer.setup width height answer s).1.fbo ∉ s.framebuffers ∧
      (FrameBuffers.FrameBuffer.setup width height answer s).1.fbo
        ∈ (FrameBuffers.FrameBuffer.setup width height answer s).2.framebuffers ∧
      (FrameBuffers.FrameBuffer.setup width height answer s).1.rbo ∉ s.renderbuffers ∧
      (FrameBuffers.FrameBuffer.setup width height answer s).1.rbo
        ∈ (FrameBuffers.FrameBuffer.setup width height answer s).2.renderbuffers ∧
      ((FrameBuffers.FrameBuffer.setup width height answer s).1.destroy
          (FrameBuffers.FrameBuffer.setup width height answer s).2).framebuffers
        = s.framebuffers ∧
      ((FrameBuffers.FrameBuffer.setup width height answer s).1.destroy
          (FrameBuffers.FrameBuffer.setup width height answer s).2).renderbuffers
        = s.renderbuffers) ∧
    ((fb.setup answer s).1.fbo ∉ s.framebuffers ∧
      (fb.setup answer s).1.fbo ∈ (fb.setup answer s).2.framebuffers ∧
      (fb.setup answer s).1.rbo ∉ s.renderbuffers ∧
      (fb.setup answer s).1.rbo ∈ (fb.setup answer s).2.renderbuffers ∧
      ((fb.setup answer s).1.destroy (fb.setup answer s).2).framebuffers = s.framebuffers ∧
      ((fb.setup answer s).1.destroy (fb.setup answer s).2).renderbuffers
        = s.renderbuffers) ∧
    ((dm.setup s).1.fbo ∉ s.framebuffers ∧
      (dm.setup s).1.fbo ∈ (dm.setup s).2.framebuffers ∧
      ((dm.setup s).1.destroy (dm.setup s).2).framebuffers = s.framebuffers) ∧
    ((cm.setup s).1.fbo ∉ s.framebuffers ∧
      (cm.setup s).1.fbo ∈ (cm.setup s).2.framebuffers ∧
      ((cm.setup s).1.destroy (cm.setup s).2).framebuffers = s.framebuffers) ∧
    (sky.setup s).1.destroy (sky.setup s).2 = (sky.setup s).2 := by
  have hf := freshName_not_mem s.framebuffers
  have hr := freshName_not_mem s.renderbuffers
  have hff := ne_freshName_of_mem s.framebuffers
  have hrr := ne_freshName_of_mem s.renderbuffers
  refine ⟨?_, ?_, ?_, ?_, rfl⟩
  · by_cases h : answer = GL_FRAMEBUFFER_COMPLETE <;>
      simp [FrameBuffers.FrameBuffer.setup, FrameBuffers.FrameBuffer.destroy, glGenFramebuffers,
        glGenTextures, glGenRenderbuffers, glBindFramebuffer, glBindTexture, glBindRenderbuffer,
        glCheckFramebufferStatus, glDeleteFramebuffers, glDeleteRenderbuffers, GLState.record,
        GLState.print, h, hf, hr] <;>
      exact ⟨hff, hrr⟩
  · by_cases h : answer = GL_FRAMEBUFFER_COMPLETE <;>
      simp [Demo.FrameBuffer.setup, Demo.FrameBuffer.destroy, glGenFramebuffers,
        glGenTextures, glGenRenderbuffers, glBindFramebuffer, glBindTexture, glBindRenderbuffer,
        glCheckFramebufferStatus, glDeleteFramebuffers, glDeleteRenderbuffers, GLState.record,
        GLState.print, h, hf, hr] <;>
      exact ⟨hff, hrr⟩
  · simp [ParallelShadow.DepthMap.setup, ParallelShadow.DepthMap.destroy, glGenFramebuffers,
      glGenTextures, glBindFramebuffer, glBindTexture, glDeleteFramebuffers, GLState.record,
      hf]
    exact hff
  · simp [PointShadow.DepthMap.setup, PointShadow.DepthMap.destroy, glGenFramebuffers,
      glGenTextures, glBindFramebuffer, glBindTexture, glDeleteFramebuffers, GLState.record,
      List.range_succ, hf]
    exact hff

/-! ## The frame counter -/

theorem showFPS_update (st : FPSState) (t : ℚ) (h : t - st.previousSeconds > 0.25) :
    showFPS st t = ({ previousSeconds := t, frameCount := 1 },
      some { fps := (st.frameCount : ℚ) / (t - st.previousSeconds),
             msPerFrame := 1000 / ((st.frameCount : ℚ) / (t - st.previousSeconds)) }) := by
  simp [showFPS, h]

theorem showFPS_skip (st : FPSState) (t : ℚ) (h : ¬ t - st.previousSeconds > 0.25) :
    showFPS st t = ({ st with frameCount := st.frameCount + 1 }, none) := by
  simp only [showFPS, h, if_false]

theorem showFPS_isSome (st : FPSState) (t : ℚ) :
    (showFPS st t).2.isSome = true ↔ t - st.previousSeconds > 0.25 := by
  by_cases h : t - st.previousSeconds > 0.25
  · simp [showFPS_update st t h, h]
  · simp [showFPS_skip st t h, h]

theorem getLast?_cons_getD (a d : ℚ) (l : List ℚ) :
    (a :: l).getLast?.getD d = l.getLast?.getD a := by
  cases l with
  | nil => rfl
  | cons b l =>
    rw [List.getLast?_cons_cons]
    induction l generalizing b with
    | nil => rfl
    | cons c l ih =>
      rw [List.getLast?_cons_cons]
      exact ih c

/-- The static `previousSeconds` is the clock value of the last title update of the run. -/
theorem runShowFPS_previousSeconds (ts : List ℚ) :
    ∀ st : FPSState, (runShowFPS st ts).1.previousSeconds
      = (lastUpdateTime st ts).getD st.previousSeconds := by
  induction ts with
  | nil => intro st; rfl
  | cons t ts ih =>
    intro st
    by_cases h : t - st.previousSeconds > 0.25
    · have hu := showFPS_update st t h
      simp only [runShowFPS, lastUpdateTime, updateTimes, hu, Option.isSome_some, if_true]
      rw [getLast?_cons_getD]
      exact ih _
    · have hs := showFPS_skip st t h
      simp only [runShowFPS, lastUpdateTime, updateTimes, hs, Option.isSome_none,
        Bool.false_eq_true, if_false]
      exact ih _

theorem runShowFPS_length (ts : List ℚ) :
    ∀ st : FPSState, (runShowFPS st ts).2.length = ts.length := by
  induction ts with
  | nil => intro st; rfl
  | cons t ts ih =>
    intro st
    simp only [runShowFPS, List.length_cons, ih]

/-- The static `frameCount` is the number of calls since the last title update of the run. -/
theorem runShowFPS_frameCount (ts : List ℚ) :
    ∀ st : FPSState, (runShowFPS st ts).1.frameCount
      = (callsSinceUpdate (runShowFPS st ts).2).getD (st.frameCount + ts.length) := by
  induction ts with
  | nil => intro st; rfl
  | cons t ts ih =>
    intro st
    have hlen := runShowFPS_length ts
    by_cases h : t - st.previousSeconds > 0.25
    · have hu := showFPS_update st t h
      have hi := ih { previousSeconds := t, frameCount := 1 }
      simp only [runShowFPS, callsSinceUpdate, hu]
      cases hc : callsSinceUpdate
          (runShowFPS { previousSeconds := t, frameCount := 1 } ts).2 with
      | none =>
        rw [hc] at hi
        simp only [Option.isSome_some, if_true, Option.getD_some, hlen]
        simp only [Option.getD_none] at hi
        omega
      | some n =>
        rw [hc] at hi
        simpa using hi
    · have hs := showFPS_skip st t h
      have hi := ih { st with frameCount := st.frameCount + 1 }
      simp only [runShowFPS, callsSinceUpdate, hs]
      cases hc : callsSinceUpdate
          (runShowFPS { st with frameCount := st.frameCount + 1 } ts).2 with
      | none =>
        rw [hc] at hi
        simp only [Option.isSome_none, Bool.false_eq_true, if_false, Option.getD_none,
          List.length_cons]
        simp only [Option.getD_none] at hi
        omega
      | some n =>
        rw [hc] at hi
        simpa using hi

/-- Consecutive title updates of a run are more than a quarter of a second apart, the first one
being more than a quarter of a second after the initial `previousSeconds`. -/
theorem updateTimes_chain (ts : List ℚ) :
    ∀ st : FPSState,
      List.Chain (fun a b => b - a > 0.25) st.previousSeconds (updateTimes st ts) := by
  induction ts with
  | nil => intro st; exact List.Chain.nil
  | cons t ts ih =>
    intro st
    by_cases h : t - st.previousSeconds > 0.25
    · have hu := showFPS_update st t h
      simp only [updateTimes, hu, Option.isSome_some, if_true]
      exact List.Chain.cons h (ih { previousSeconds := t, frameCount := 1 })
    · have hs := showFPS_skip st t h
      simp only [updateTimes, hs, Option.isSome_none, Bool.false_eq_true, if_false]
      exact ih { st with frameCount := st.frameCount + 1 }

/-- Counting argument: of a chain with gaps above a quarter, at most `4 - k` members lie in the
window `[lo, lo + 1]` when the element before the chain is at least `lo + (k - 1) / 4`. -/
theorem chain_window_count (lo : ℚ) (l : List ℚ) :
    ∀ (p : ℚ) (k : Nat), List.Chain (fun a b => b - a > 0.25) p l → k ≤ 4 →
      (1 ≤ k → lo + (k : ℚ) / 4 - 1 / 4 ≤ p) →
      (l.filter (fun u => decide (lo ≤ u ∧ u ≤ lo + 1))).length + k ≤ 4 := by
  induction l with
  | nil => intro p k _ hk _; simpa using hk
  | cons x l ih =>
    intro p k hc hk hp
    rw [List.chain_cons] at hc
    obtain ⟨hpx, hrest⟩ := hc
    have hpx' : p + 1 / 4 < x := by
      have : (0.25 : ℚ) = 1 / 4 := by norm_num
      rw [this] at hpx
      linarith
    by_cases hx : lo ≤ x ∧ x ≤ lo + 1
    · have hk3 : k ≤ 3 := by
        by_contra hcon
        have hk4 : k = 4 := by omega
        have := hp (by omega)
        rw [hk4] at this
        norm_num at this
        linarith [hx.2]
      have hnext : 1 ≤ k + 1 → lo + ((k + 1 : Nat) : ℚ) / 4 - 1 / 4 ≤ x := by
        intro _
        push_cast
        rcases Nat.eq_zero_or_pos k with h0 | hpos
        · rw [h0]
          norm_num
          exact hx.1
        · have := hp hpos
          linarith
      have := ih x (k + 1) hrest (by omega) hnext
      rw [List.filter_cons]
      simp only [hx, and_self, decide_True, if_true, List.length_cons]
      omega
    · have hnext : 1 ≤ k → lo + (k : ℚ) / 4 - 1 / 4 ≤ x := by
        intro hpos
        have := hp hpos
        linarith
      have := ih x k hrest hk hnext
      rw [List.filter_cons]
      simp only [hx, decide_False, Bool.false_eq_true, if_false]
      exact this

/-- C9. `showFPS` limits title updates to 4 per second: a call sets the window title exactly
when its clock value exceeds the clock value of the previous title update (`0` before the first
update) by strictly more than 0.25 s; hence for every sequence of clock values, non-decreasing
or not, two consecutive title updates are more than 0.25 s apart and at most 4 title updates
have their clock value in any interval `[lo, lo + 1]`; 4 updates within one second do occur. -/
theorem showFPS_rate_limit :
    (∀ (ts : List ℚ) (t : ℚ),
      (showFPS (runShowFPS FPSState.initial ts).1 t).2.isSome = true ↔
        t - (lastUpdateTime FPSState.initial ts).getD 0 > 0.25) ∧
    (∀ ts : List ℚ,
      List.Chain' (fun a b => b - a > 0.25) (updateTimes FPSState.initial ts)) ∧
    (∀ (ts : List ℚ) (lo : ℚ),
      ((updateTimes FPSState.initial ts).filter
        (fun u => decide (lo ≤ u ∧ u ≤ lo + 1))).length ≤ 4) ∧
    ((updateTimes FPSState.initial [0.3, 0.6, 0.9, 1.2]).filter
        (fun u => decide ((0.3 : ℚ) ≤ u ∧ u ≤ 0.3 + 1))).length = 4 := by
  refine ⟨?_, ?_, ?_, ?_⟩
  · intro ts t
    rw [showFPS_isSome, runShowFPS_previousSeconds]
    rfl
  · intro ts
    have h := updateTimes_chain ts FPSState.initial
    cases hl : updateTimes FPSState.initial ts with
    | nil => exact List.chain'_nil
    | cons a l =>
      rw [hl, List.chain_cons] at h
      exact h.2
  · intro ts lo
    have h := chain_window_count lo (updateTimes FPSState.initial ts)
      FPSState.initial.previousSeconds 0 (updateTimes_chain ts FPSState.initial)
      (by omega) (by omega)
    omega
  · norm_num [updateTimes, showFPS, FPSState.initial, List.filter]

/-- C10. The claim that frame time times fps equals `1000` at every title update is broken by
the code at the first call: when the first call of `showFPS` comes later than 0.25 s after the
start of the clock it sets the title with `frameCount = 0`, so the reported fps is `0`, the
frame time is `1000 / 0`, and no frame time multiplied by that fps gives `1000`. -/
theorem showFPS_first_call_reports_zero_fps :
    ∃ title, (showFPS FPSState.initial 0.3).2 = some title ∧ title.fps = 0 ∧
      title.msPerFrame * title.fps ≠ 1000 := by
  have h := showFPS_update FPSState.initial 0.3 (by norm_num [FPSState.initial])
  refine ⟨_, congrArg Prod.snd h, ?_, ?_⟩
  · simp [FPSState.initial]
  · simp [FPSState.initial]

/-- Away from the very first call the numbers in the title are consistent: whenever a call of
`showFPS` updates the title, the reported fps equals the number of `showFPS` calls counted since
the previous title update (all earlier calls when there was none) divided by the seconds
elapsed since that update (since `0` when there was none), the reported frame time is `1000`
divided by that fps, and when at least one call was counted (`frameCount > 0`, which holds for
every call but the very first) frame time times fps equals `1000`. -/
theorem showFPS_reports_average (ts : List ℚ) (t : ℚ) (title : Title)
    (h : (showFPS (runShowFPS FPSState.initial ts).1 t).2 = some title) :
    (runShowFPS FPSState.initial ts).1.frameCount
      = (callsSinceUpdate (runShowFPS FPSState.initial ts).2).getD ts.length ∧
    title.fps = ((runShowFPS FPSState.initial ts).1.frameCount : ℚ)
      / (t - (lastUpdateTime FPSState.initial ts).getD 0) ∧
    title.msPerFrame = 1000 / title.fps ∧
    (0 < (runShowFPS FPSState.initial ts).1.frameCount →
      title.msPerFrame * title.fps = 1000) ∧
    (ts ≠ [] → 0 < (runShowFPS FPSState.initial ts).1.frameCount) := by
  have hprev := runShowFPS_previousSeconds ts FPSState.initial
  have hcount := runShowFPS_frameCount ts FPSState.initial
  have hgt : t - (runShowFPS FPSState.initial ts).1.previousSeconds > 0.25 := by
    rw [← showFPS_isSome, h]
    rfl
  rw [showFPS_update _ t hgt] at h
  simp only [Option.some.injEq] at h
  have hpos : 0 < t - (runShowFPS FPSState.initial ts).1.previousSeconds := by
    have : (0.25 : ℚ) = 1 / 4 := by norm_num
    rw [this] at hgt
    linarith
  have hprev0 : (lastUpdateTime FPSState.initial ts).getD 0
      = (runShowFPS FPSState.initial ts).1.previousSeconds := by
    rw [hprev]
    rfl
  refine ⟨?_, ?_, ?_, ?_, ?_⟩
  · rw [hcount]
    simp [FPSState.initial]
  · rw [← h, hprev0]
  · rw [← h]
  · intro hfc
    rw [← h]
    have hfc' : (0 : ℚ) < ((runShowFPS FPSState.initial ts).1.frameCount : ℚ) := by
      exact_mod_cast hfc
    have hne : ((runShowFPS FPSState.initial ts).1.frameCount : ℚ)
        / (t - (runShowFPS FPSState.initial ts).1.previousSeconds) ≠ 0 :=
      div_ne_zero (ne_of_gt hfc') (ne_of_gt hpos)
    exact div_mul_cancel₀ 1000 hne
  · intro hne
    rw [hcount]
    cases hc : callsSinceUpdate (runShowFPS FPSState.initial ts).2 with
    | none =>
      cases ts with
      | nil => exact absurd rfl hne
      | cons a l => simp [FPSState.initial]
    | some n =>
      simp only [Option.getD_some]
      have hpos : ∀ (rs : List (Option Title)) (m : Nat),
          callsSinceUpdate rs = some m → 0 < m := by
        intro rs
        induction rs with
        | nil => intro m hm; simp [callsSinceUpdate] at hm
        | cons r rs ih =>
          intro m hm
          simp only [callsSinceUpdate] at hm
          cases hrs : callsSinceUpdate rs with
          | some k =>
            rw [hrs] at hm
            simp only [Option.some.injEq] at hm
            rw [← hm]
            exact ih k hrs
          | none =>
            rw [hrs] at hm
            by_cases hr : r.isSome = true
            · simp [hr] at hm
              omega
            · simp [hr] at hm
      exact hpos _ n hc

theorem showFPS_reports_average_example :
    (showFPS (runShowFPS FPSState.initial [0.1, 0.2]).1 0.5).2
      = some { fps := 4, msPerFrame := 250 } ∧
    (runShowFPS FPSState.initial [0.1, 0.2]).1.frameCount = 2 ∧
    (250 : ℚ) * 4 = 1000 := by
  have h : (showFPS (runShowFPS FPSState.initial [0.1, 0.2]).1 0.5).2
      = some { fps := 4, msPerFrame := 250 } := by
    norm_num [runShowFPS, showFPS, FPSState.initial]
  have w := showFPS_reports_average [0.1, 0.2] 0.5 { fps := 4, msPerFrame := 250 } h
  exact ⟨h, by norm_num [runShowFPS, showFPS, FPSState.initial],
    w.2.2.2.1 (w.2.2.2.2 (by simp))⟩

/-! ## Binary floating point -/

/-- An integer within one half of `x` is the rounding of `x`. -/
theorem roundHalfEven_eq (x : ℚ) (n : Int) (h1 : x - 1 / 2 < n) (h2 : (n : ℚ) < x + 1 / 2) :
    roundHalfEven x = n := by
  have hf1 : (⌊x⌋ : ℚ) ≤ x := Int.floor_le x
  have hf2 : x < ⌊x⌋ + 1 := Int.lt_floor_add_one x
  unfold roundHalfEven
  by_cases ha : x - ⌊x⌋ < 1 / 2
  · rw [if_pos ha]
    have e1 : (n : ℚ) < ⌊x⌋ + 1 := by linarith
    have e2 : ((⌊x⌋ : Int) : ℚ) - 1 < n := by linarith
    have e1' : n < ⌊x⌋ + 1 := by exact_mod_cast e1
    have e2' : ⌊x⌋ - 1 < n := by exact_mod_cast e2
    omega
  · rw [if_neg ha]
    by_cases hb : 1 / 2 < x - ⌊x⌋
    · rw [if_pos hb]
      have e1 : (n : ℚ) < ⌊x⌋ + 2 := by linarith
      have e2 : ((⌊x⌋ : Int) : ℚ) < n := by linarith
      have e1' : n < ⌊x⌋ + 2 := by exact_mod_cast e1
      have e2' : ⌊x⌋ < n := by exact_mod_cast e2
      omega
    · exfalso
      have e : x - ⌊x⌋ = 1 / 2 := le_antisymm (not_lt.mp hb) (not_lt.mp ha)
      have e1 : (n : ℚ) < ⌊x⌋ + 1 := by linarith
      have e2 : ((⌊x⌋ : Int) : ℚ) < n := by linarith
      have e1' : n < ⌊x⌋ + 1 := by exact_mod_cast e1
      have e2' : ⌊x⌋ < n := by exact_mod_cast e2
      omega

/-- An integer is its own rounding. -/
theorem roundHalfEven_intCast (n : Int) : roundHalfEven (n : ℚ) = n :=
  roundHalfEven_eq n n (by linarith) (by linarith)

/-- A tie goes to the even neighbour. -/
theorem roundHalfEven_tie (n : Int) (hn : n % 2 = 0) : roundHalfEven ((n : ℚ) + 1 / 2) = n := by
  have hfl : ⌊(n : ℚ) + 1 / 2⌋ = n := by
    rw [Int.floor_eq_iff]
    constructor <;> linarith
  unfold roundHalfEven
  rw [hfl]
  have h1 : ¬ ((n : ℚ) + 1 / 2 - n < 1 / 2) := by
    intro h
    linarith
  have h2 : ¬ ((1 : ℚ) / 2 < (n : ℚ) + 1 / 2 - n) := by
    intro h
    linarith
  rw [if_neg h1, if_neg h2, if_pos hn]

/-- Rounding moves a number by at most one half. -/
theorem abs_roundHalfEven_sub_le (x : ℚ) : |(roundHalfEven x : ℚ) - x| ≤ 1 / 2 := by
  have hf1 : (⌊x⌋ : ℚ) ≤ x := Int.floor_le x
  have hf2 : x < ⌊x⌋ + 1 := Int.lt_floor_add_one x
  unfold roundHalfEven
  rw [abs_le]
  split_ifs with ha hb hc
  · constructor <;> linarith
  · push_cast
    constructor <;> linarith
  · have e : x - ⌊x⌋ = 1 / 2 := le_antisymm (not_lt.mp hb) (not_lt.mp ha)
    constructor <;> linarith
  · have e : x - ⌊x⌋ = 1 / 2 := le_antisymm (not_lt.mp hb) (not_lt.mp ha)
    push_cast
    constructor <;> linarith

/-- The exponent of a number in the binade `[2 ^ e, 2 ^ (e + 1))`. -/
theorem log_of_binade (x : ℚ) (e : Int) (h1 : (2 : ℚ) ^ e ≤ |x|) (h2 : |x| < 2 ^ (e + 1)) :
    Int.log 2 |x| = e := by
  have hpos : 0 < |x| := lt_of_lt_of_le (by positivity) h1
  have a : e ≤ Int.log 2 |x| :=
    (Int.zpow_le_iff_le_log (by norm_num) hpos).mp (by exact_mod_cast h1)
  have b : Int.log 2 |x| < e + 1 :=
    (Int.lt_zpow_iff_log_lt (by norm_num) hpos).mp (by exact_mod_cast h2)
  omega

/-- Rounding a number of the binade `[2 ^ e, 2 ^ (e + 1))`, `e >= emin`: the spacing is
`2 ^ (e - (p - 1))`. -/
theorem roundTo_binade (p : Nat) (emin : Int) (x : ℚ) (e : Int) (h1 : (2 : ℚ) ^ e ≤ |x|)
    (h2 : |x| < 2 ^ (e + 1)) (he : emin ≤ e) :
    roundTo p emin x
      = roundHalfEven (x / 2 ^ (e - ((p : Int) - 1))) * 2 ^ (e - ((p : Int) - 1)) := by
  have hpos : 0 < |x| := lt_of_lt_of_le (by positivity) h1
  have hx : x ≠ 0 := abs_pos.mp hpos
  unfold roundTo
  rw [if_neg hx, log_of_binade x e h1 h2, max_eq_left he]

/-- Zero is a floating-point number. -/
theorem roundTo_zero (p : Nat) (emin : Int) : roundTo p emin 0 = 0 := by
  simp [roundTo]

/-- A number `m * 2 ^ k` with `|m| < 2 ^ p` and `k >= emin - (p - 1)` is a floating-point
number: rounding leaves it as it is. -/
theorem roundTo_representable (p : Nat) (emin : Int) (m k : Int) (hm : |m| < 2 ^ p)
    (hk : emin - ((p : Int) - 1) ≤ k) :
    roundTo p emin ((m : ℚ) * 2 ^ k) = (m : ℚ) * 2 ^ k := by
  by_cases hm0 : m = 0
  · subst hm0
    simp [roundTo]
  have hx : (m : ℚ) * 2 ^ k ≠ 0 := by
    apply mul_ne_zero
    · exact_mod_cast hm0
    · positivity
  have hpos : 0 < |(m : ℚ) * 2 ^ k| := abs_pos.mpr hx
  have hlt : |(m : ℚ) * 2 ^ k| < (2 : ℚ) ^ ((p : Int) + k) := by
    rw [abs_mul, abs_of_pos (by positivity : (0 : ℚ) < 2 ^ k), zpow_add₀ (by norm_num)]
    apply mul_lt_mul_of_pos_right _ (by positivity)
    have : ((|m| : Int) : ℚ) < ((2 ^ p : Int) : ℚ) := by exact_mod_cast hm
    rw [zpow_natCast]
    push_cast at this
    exact this
  have hlog : Int.log 2 |(m : ℚ) * 2 ^ k| < (p : Int) + k :=
    (Int.lt_zpow_iff_log_lt (by norm_num) hpos).mp (by exact_mod_cast hlt)
  have hd : 0 ≤ k - (max (Int.log 2 |(m : ℚ) * 2 ^ k|) emin - ((p : Int) - 1)) := by
    rcases le_total (Int.log 2 |(m : ℚ) * 2 ^ k|) emin with h | h
    · rw [max_eq_right h]
      omega
    · rw [max_eq_left h]
      omega
  obtain ⟨d, hd'⟩ := Int.eq_ofNat_of_zero_le hd
  have hk' : k = (max (Int.log 2 |(m : ℚ) * 2 ^ k|) emin - ((p : Int) - 1)) + d := by omega
  unfold roundTo
  rw [if_neg hx]
  generalize max (Int.log 2 |(m : ℚ) * 2 ^ k|) emin - ((p : Int) - 1) = t at hk' ⊢
  have hq : (m : ℚ) * 2 ^ k / 2 ^ t = ((m * 2 ^ d : Int) : ℚ) := by
    rw [hk', zpow_add₀ (by norm_num), zpow_natCast]
    push_cast
    field_simp
    ring
  rw [hq, roundHalfEven_intCast, hk', zpow_add₀ (by norm_num), zpow_natCast]
  push_cast
  ring

/-- Rounding to `float` moves a number below `2 ^ 24` in magnitude by at most one half. -/
theorem abs_toFloat_sub_le (x : ℚ) (hx : |x| < 2 ^ 24) : |toFloat x - x| ≤ 1 / 2 := by
  unfold toFloat roundTo
  by_cases h0 : x = 0
  · simp [h0]
  rw [if_neg h0]
  have hpos : 0 < |x| := abs_pos.mpr h0
  have hlog : Int.log 2 |x| < 24 :=
    (Int.lt_zpow_iff_log_lt (by norm_num) hpos).mp (by exact_mod_cast hx)
  have ht : max (Int.log 2 |x|) (-126) - (((24 : Nat) : Int) - 1) ≤ 0 := by
    rcases le_total (Int.log 2 |x|) (-126) with h | h
    · rw [max_eq_right h]
      norm_num
    · rw [max_eq_left h]
      push_cast
      omega
  generalize max (Int.log 2 |x|) (-126) - (((24 : Nat) : Int) - 1) = t at ht ⊢
  have hq : (0 : ℚ) < 2 ^ t := by positivity
  have hq1 : (2 : ℚ) ^ t ≤ 1 := by
    have := zpow_le_zpow_right₀ (by norm_num : (1 : ℚ) ≤ 2) ht
    simpa using this
  have h := abs_roundHalfEven_sub_le (x / 2 ^ t)
  have e : (roundHalfEven (x / 2 ^ t) : ℚ) * 2 ^ t - x
      = ((roundHalfEven (x / 2 ^ t) : ℚ) - x / 2 ^ t) * 2 ^ t := by
    field_simp
  rw [e, abs_mul, abs_of_pos hq]
  calc |(roundHalfEven (x / 2 ^ t) : ℚ) - x / 2 ^ t| * 2 ^ t
      ≤ 1 / 2 * 2 ^ t := mul_le_mul_of_nonneg_right h (le_of_lt hq)
    _ ≤ 1 / 2 * 1 := mul_le_mul_of_nonneg_left hq1 (by norm_num)
    _ = 1 / 2 := by norm_num

/-- Evaluation of a conversion to `float`: for `x` in the binade `[2 ^ e, 2 ^ (e + 1))`, an
integer `n` within one half of `x / 2 ^ (e - 23)` gives `toFloat x = n * 2 ^ (e - 23)`. -/
theorem toFloat_eval (x : ℚ) (e n : Int) (h1 : (2 : ℚ) ^ e ≤ |x|) (h2 : |x| < 2 ^ (e + 1))
    (he : -126 ≤ e) (h3 : x / 2 ^ (e - 23) - 1 / 2 < n) (h4 : (n : ℚ) < x / 2 ^ (e - 23) + 1 / 2) :
    toFloat x = (n : ℚ) * 2 ^ (e - 23) := by
  unfold toFloat
  rw [roundTo_binade 24 (-126) x e h1 h2 he]
  have e1 : e - (((24 : Nat) : Int) - 1) = e - 23 := by norm_num
  rw [e1, roundHalfEven_eq _ n h3 h4]

/-- The literal `0.01f`. -/
theorem toFloat_hundredth : toFloat 0.01 = 10737418 / 1073741824 := by
  rw [toFloat_eval 0.01 (-7) 10737418 (by rw [abs_of_pos (by norm_num)]; norm_num)
    (by rw [abs_of_pos (by norm_num)]; norm_num) (by norm_num) (by norm_num) (by norm_num)]
  norm_num

/-- The literal `2.2f`. -/
theorem toFloat_gamma : toFloat 2.2 = 9227469 / 4194304 := by
  rw [toFloat_eval 2.2 1 9227469 (by rw [abs_of_pos (by norm_num)]; norm_num)
    (by rw [abs_of_pos (by norm_num)]; norm_num) (by norm_num) (by norm_num) (by norm_num)]
  norm_num

/-- One `float` step of `0.01f` upwards inside the binade `[2, 4)`: the sum of
`a / 2 ^ 22` and `0.01f` rounds to `(a + 41943) / 2 ^ 22`. -/
theorem toFloat_step_up (a : Int) (h1 : 8388608 ≤ a) (h2 : a + 41943 < 16777216) :
    toFloat ((a : ℚ) / 4194304 + toFloat 0.01) = ((a + 41943 : Int) : ℚ) / 4194304 := by
  have ha1 : (8388608 : ℚ) ≤ a := by exact_mod_cast h1
  have h2' : a + 41943 ≤ 16777215 := by omega
  have ha2 : (a : ℚ) + 41943 ≤ 16777215 := by exact_mod_cast h2'
  have hpos : (0 : ℚ) < (a : ℚ) / 4194304 + 10737418 / 1073741824 := by
    have : (0 : ℚ) ≤ (a : ℚ) / 4194304 := by positivity
    linarith
  rw [toFloat_hundredth,
    toFloat_eval ((a : ℚ) / 4194304 + 10737418 / 1073741824) 1 (a + 41943)
      (by rw [abs_of_pos hpos]; norm_num; linarith)
      (by rw [abs_of_pos hpos]; norm_num; linarith) (by norm_num)
      (by norm_num; linarith) (by norm_num; linarith)]
  norm_num
  ring

/-- The step that leaves the binade: from `16777209 / 2 ^ 22` (about `3.9999983`) the sum with
`0.01f` rounds to `8409576 / 2 ^ 21` (about `4.0099983`). -/
theorem toFloat_step_last :
    toFloat ((16777209 : ℚ) / 4194304 + toFloat 0.01) = 8409576 / 2097152 := by
  rw [toFloat_hundredth,
    toFloat_eval ((16777209 : ℚ) / 4194304 + 10737418 / 1073741824) 2 8409576
      (by rw [abs_of_pos (by norm_num)]; norm_num)
      (by rw [abs_of_pos (by norm_num)]; norm_num) (by norm_num)
      (by norm_num) (by norm_num)]
  norm_num

/-- The `double` nearest to one tenth, converted to `float`. -/
theorem toFloat_doubleTenth : toFloat doubleTenth = 13421773 / 134217728 := by
  unfold doubleTenth
  rw [toFloat_eval (3602879701896397 / 36028797018963968) (-4) 13421773
    (by rw [abs_of_pos (by norm_num)]; norm_num)
    (by rw [abs_of_pos (by norm_num)]; norm_num) (by norm_num) (by norm_num) (by norm_num)]
  norm_num

/-- An integer below `2 ^ 24` in magnitude is a `float`. -/
theorem toFloat_intCast (m : Int) (hm : |m| < 2 ^ 24) : toFloat (m : ℚ) = m := by
  have h := roundTo_representable 24 (-126) m 0 hm (by norm_num)
  simpa [toFloat] using h

/-- The difference of the `double` nearest to one tenth and its `float` is a `double`. -/
theorem toDouble_doubleTenth_sub :
    toDouble (doubleTenth - 13421773 / 134217728) = -53687091 / 36028797018963968 := by
  have e : doubleTenth - 13421773 / 134217728 = ((-53687091 : Int) : ℚ) * 2 ^ (-55 : Int) := by
    norm_num [doubleTenth]
  have h := roundTo_representable 53 (-1022) (-53687091) (-55) (by norm_num) (by norm_num)
  rw [toDouble, e, h]
  norm_num

/-- The conversion of that difference to `float`. -/
theorem toFloat_doubleTenth_sub :
    toFloat (-53687091 / 36028797018963968) = -13421773 / 9007199254740992 := by
  rw [toFloat_eval (-53687091 / 36028797018963968) (-30) (-13421773)
    (by rw [abs_of_neg (by norm_num)]; norm_num)
    (by rw [abs_of_neg (by norm_num)]; norm_num) (by norm_num) (by norm_num) (by norm_num)]
  norm_num

/-- The sum `16777216 + 1` is a tie between two `float` values and rounds to the even one. -/
theorem toFloat_tie : toFloat 16777217 = 16777216 := by
  unfold toFloat
  rw [roundTo_binade 24 (-126) 16777217 24 (by rw [abs_of_pos (by norm_num)]; norm_num)
    (by rw [abs_of_pos (by norm_num)]; norm_num) (by norm_num)]
  have e : (16777217 : ℚ) / 2 ^ ((24 : Int) - (((24 : Nat) : Int) - 1))
      = ((8388608 : Int) : ℚ) + 1 / 2 := by norm_num
  rw [e, roundHalfEven_tie 8388608 (by norm_num)]
  norm_num

/-- A `float` sum with `1` lies between one half and three halves above its first term. -/
theorem toFloat_add_one (x : ℚ) (hx : |x| < 2 ^ 24 - 1) :
    1 / 2 ≤ toFloat (x + 1) - x ∧ toFloat (x + 1) - x ≤ 3 / 2 := by
  have hb := abs_lt.mp hx
  have h := abs_le.mp (abs_toFloat_sub_le (x + 1) (abs_lt.mpr ⟨by linarith, by linarith⟩))
  constructor <;> linarith

/-- A `float` sum with `-1` lies between one half and three halves below its first term. -/
theorem toFloat_add_neg_one (x : ℚ) (hx : |x| < 2 ^ 24 - 1) :
    1 / 2 ≤ x - toFloat (x + -1) ∧ x - toFloat (x + -1) ≤ 3 / 2 := by
  have hb := abs_lt.mp hx
  have h := abs_le.mp (abs_toFloat_sub_le (x + -1) (abs_lt.mpr ⟨by linarith, by linarith⟩))
  constructor <;> linarith

/-! ## The cursor callback -/

/-- C20. The first invocation of `mouseCallback` does not always pass the offset `(0, 0)`:
`lastX` is a `float`, so `lastX = xpos` stores the cursor position rounded to `float`, and
`xpos - lastX` is the rounding error.  In every demo, a first invocation at `xpos = 0.1` (the
`double` nearest to one tenth), `ypos = 300` leaves `lastX = 13421773 / 2 ^ 27` and passes the
x offset `-13421773 / 2 ^ 53`, about `-1.49e-9`, and the y offset `0`. -/
theorem mouseCallback_first_offset_nonzero :
    ∀ d : Program,
      mouseCallback (MouseState.initial d) doubleTenth 300
        = (MouseState.mk false (13421773 / 134217728) 300,
            (-13421773 / 9007199254740992, 0)) ∧
      (mouseCallback (MouseState.initial d) doubleTenth 300).2 ≠ (0, 0) := by
  intro d
  have h300 : toFloat 300 = 300 := by
    simpa using toFloat_intCast 300 (by norm_num)
  have hd0 : toDouble (300 - 300) = 0 := by
    rw [sub_self]
    exact roundTo_zero 53 (-1022)
  have hf0 : toFloat 0 = 0 := roundTo_zero 24 (-126)
  have e : mouseCallback (MouseState.initial d) doubleTenth 300
      = (MouseState.mk false (13421773 / 134217728) 300,
          (-13421773 / 9007199254740992, 0)) := by
    simp only [mouseCallback, MouseState.initial, if_true, toFloat_doubleTenth, h300,
      toDouble_doubleTenth_sub, toFloat_doubleTenth_sub, hd0, hf0]
  refine ⟨e, ?_⟩
  rw [e]
  intro h
  have h1 := congrArg Prod.fst h
  norm_num at h1

/-! ## The tangent-space utility -/

/-- The closed form of one triangle solves the tangent-space equations. -/
theorem triangleTangents_solves (edge1 edge2 : vec3) (deltaUV1 deltaUV2 : vec2)
    (h : uvDet deltaUV1 deltaUV2 ≠ 0) :
    edge1 = ((triangleTangents edge1 edge2 deltaUV1 deltaUV2).1.smul deltaUV1.x).add
        ((triangleTangents edge1 edge2 deltaUV1 deltaUV2).2.smul deltaUV1.y) ∧
    edge2 = ((triangleTangents edge1 edge2 deltaUV1 deltaUV2).1.smul deltaUV2.x).add
        ((triangleTangents edge1 edge2 deltaUV1 deltaUV2).2.smul deltaUV2.y) := by
  unfold uvDet at h
  rcases edge1 with ⟨a1, a2, a3⟩
  rcases edge2 with ⟨b1, b2, b3⟩
  rcases deltaUV1 with ⟨u1, v1⟩
  rcases deltaUV2 with ⟨u2, v2⟩
  simp only at h
  simp only [triangleTangents, vec3.smul, vec3.add, vec3.mk.injEq]
  refine ⟨⟨?_, ?_, ?_⟩, ⟨?_, ?_, ?_⟩⟩ <;> field_simp <;> ring

/-- C15. `calc_tangent_space` solves the tangent-space equations in closed form (exact
arithmetic): it computes a result for every `data` of at least 20 values, and whenever the UV
deltas of a triangle are linearly independent
(`deltaUV1.x * deltaUV2.y - deltaUV2.x * deltaUV1.y != 0`), the tangent `T` and the bitangent
`B` it computes for that triangle before normalization satisfy
`edge1 = deltaUV1.x * T + deltaUV1.y * B` and `edge2 = deltaUV2.x * T + deltaUV2.y * B`, for
triangle 1 (vertices 1, 2, 3) and for triangle 2 (vertices 1, 3, 4). -/
theorem calc_tangent_space_solves (normalize : vec3 → vec3) (data : List ℚ)
    (hlen : 20 ≤ data.length) :
    ∃ ts, calc_tangent_space normalize data = some ts ∧
      (uvDet ((quadUV data 1).sub (quadUV data 0)) ((quadUV data 2).sub (quadUV data 0)) ≠ 0 →
        (quadPos data 1).sub (quadPos data 0)
          = (ts.tangent1.smul ((quadUV data 1).sub (quadUV data 0)).x).add
              (ts.bitangent1.smul ((quadUV data 1).sub (quadUV data 0)).y) ∧
        (quadPos data 2).sub (quadPos data 0)
          = (ts.tangent1.smul ((quadUV data 2).sub (quadUV data 0)).x).add
              (ts.bitangent1.smul ((quadUV data 2).sub (quadUV data 0)).y)) ∧
      (uvDet ((quadUV data 2).sub (quadUV data 0)) ((quadUV data 3).sub (quadUV data 0)) ≠ 0 →
        (quadPos data 2).sub (quadPos data 0)
          = (ts.tangent2.smul ((quadUV data 2).sub (quadUV data 0)).x).add
              (ts.bitangent2.smul ((quadUV data 2).sub (quadUV data 0)).y) ∧
        (quadPos data 3).sub (quadPos data 0)
          = (ts.tangent2.smul ((quadUV data 3).sub (quadUV data 0)).x).add
              (ts.bitangent2.smul ((quadUV data 3).sub (quadUV data 0)).y)) := by
  have hnot : ¬ data.length < 20 := by omega
  unfold calc_tangent_space
  rw [if_neg hnot]
  exact ⟨_, rfl, fun h => triangleTangents_solves _ _ _ _ h,
    fun h => triangleTangents_solves _ _ _ _ h⟩

theorem calc_tangent_space_solves_witness :
    ∃ ts, calc_tangent_space id sampleQuad = some ts ∧
      (quadPos sampleQuad 1).sub (quadPos sampleQuad 0)
        = (ts.tangent1.smul ((quadUV sampleQuad 1).sub (quadUV sampleQuad 0)).x).add
            (ts.bitangent1.smul ((quadUV sampleQuad 1).sub (quadUV sampleQuad 0)).y) ∧
      (quadPos sampleQuad 3).sub (quadPos sampleQuad 0)
        = (ts.tangent2.smul ((quadUV sampleQuad 3).sub (quadUV sampleQuad 0)).x).add
            (ts.bitangent2.smul ((quadUV sampleQuad 3).sub (quadUV sampleQuad 0)).y) := by
  obtain ⟨ts, h, h1, h2⟩ := calc_tangent_space_solves id sampleQuad (by decide)
  refine ⟨ts, h, (h1 ?_).1, (h2 ?_).2⟩
  · norm_num [uvDet, quadUV, vec2.sub, dataAt, sampleQuad]
  · norm_num [uvDet, quadUV, vec2.sub, dataAt, sampleQuad]

/-! ## Framebuffer set-up, binding and drawing -/

/-- C17. For `FrameBuffer` (`FrameBuffers.cpp`, `Demo.cpp`) and `DepthMap`
(`ParallelShadow.cpp`, `PointShadow.cpp`), `Bind` makes the wrapper's own framebuffer object the
bound framebuffer and `Unbind` makes framebuffer `0` the bound framebuffer, each with a single
call `glBindFramebuffer` that changes nothing else in the graphics state, and without changing
the wrapper's handles; so `Bind` followed by `Unbind` leaves the default framebuffer bound
whatever was bound before. -/
theorem Bind_Unbind_effect (fb : FrameBuffers.FrameBuffer) (fd : Demo.FrameBuffer)
    (dm : ParallelShadow.DepthMap) (cm : PointShadow.DepthMap) (s : GLState) :
    ((fb.Bind s).1 = fb ∧
      (fb.Bind s).2 = { s with
        boundFramebuffer := fb.fbo
        calls := s.calls ++ [GLCall.glBindFramebuffer GLenum.GL_FRAMEBUFFER fb.fbo] } ∧
      (fb.Unbind s).1 = fb ∧
      (fb.Unbind s).2 = { s with
        boundFramebuffer := 0
        calls := s.calls ++ [GLCall.glBindFramebuffer GLenum.GL_FRAMEBUFFER 0] } ∧
      ((fb.Bind s).1.Unbind (fb.Bind s).2).2.boundFramebuffer = 0) ∧
    ((fd.Bind s).1 = fd ∧
      (fd.Bind s).2 = { s with
        boundFramebuffer := fd.fbo
        calls := s.calls ++ [GLCall.glBindFramebuffer GLenum.GL_FRAMEBUFFER fd.fbo] } ∧
      (fd.Unbind s).1 = fd ∧
      (fd.Unbind s).2 = { s with
        boundFramebuffer := 0
        calls := s.calls ++ [GLCall.glBindFramebuffer GLenum.GL_FRAMEBUFFER 0] } ∧
      ((fd.Bind s).1.Unbind (fd.Bind s).2).2.boundFramebuffer = 0) ∧
    ((dm.Bind s).1 = dm ∧
      (dm.Bind s).2 = { s with
        boundFramebuffer := dm.fbo
        calls := s.calls ++ [GLCall.glBindFramebuffer GLenum.GL_FRAMEBUFFER dm.fbo] } ∧
      (dm.Unbind s).1 = dm ∧
      (dm.Unbind s).2 = { s with
        boundFramebuffer := 0
        calls := s.calls ++ [GLCall.glBindFramebuffer GLenum.GL_FRAMEBUFFER 0] } ∧
      ((dm.Bind s).1.Unbind (dm.Bind s).2).2.boundFramebuffer = 0) ∧
    ((cm.Bind s).1 = cm ∧
      (cm.Bind s).2 = { s with
        boundFramebuffer := cm.fbo
        calls := s.calls ++ [GLCall.glBindFramebuffer GLenum.GL_FRAMEBUFFER cm.fbo] } ∧
      (cm.Unbind s).1 = cm ∧
      (cm.Unbind s).2 = { s with
        boundFramebuffer := 0
        calls := s.calls ++ [GLCall.glBindFramebuffer GLenum.GL_FRAMEBUFFER 0] } ∧
      ((cm.Bind s).1.Unbind (cm.Bind s).2).2.boundFramebuffer = 0) :=
  ⟨⟨rfl, rfl, rfl, rfl, rfl⟩, ⟨rfl, rfl, rfl, rfl, rfl⟩, ⟨rfl, rfl, rfl, rfl, rfl⟩,
    ⟨rfl, rfl, rfl, rfl, rfl⟩⟩

/-- The calls of `Skybox::Draw`, in order. -/
theorem Skybox_Draw_calls (self : Skybox) (shader : Shader) (view projection : mat4)
    (s : GLState) :
    newCalls s (self.Draw shader view projection s)
      = [GLCall.useProgram shader.id,
         GLCall.uniformMat4 shader.id "uView" view,
         GLCall.uniformMat4 shader.id "uProjection" projection,
         GLCall.uniformInt shader.id "uSkybox" 0,
         GLCall.glDepthMask false,
         GLCall.glDepthFunc GLenum.GL_LEQUAL,
         GLCall.glBindVertexArray self.vao,
         GLCall.glActiveTexture texture_skybox_index,
         GLCall.glBindTexture GLenum.GL_TEXTURE_CUBE_MAP self.tid,
         GLCall.glDrawElements GLenum.GL_TRIANGLES skyboxDrawCount GLenum.GL_UNSIGNED_INT 0,
         GLCall.glBindVertexArray 0,
         GLCall.glActiveTexture 0,
         GLCall.glDepthFunc GLenum.GL_LESS,
         GLCall.glDepthMask true] := by
  simp [newCalls, Skybox.Draw, Shader.use, Shader.setUniformMat4, Shader.setUniformInt,
    glDepthMask, glDepthFunc, glBindVertexArray, glActiveTexture, glBindTexture,
    GLState.record]

/-- C18, as stated, fails: one invocation of `Skybox::Draw` issues fourteen calls, ten of them
graphics API calls of its own and four through the shader wrapper. -/
theorem Skybox_Draw_issues_fourteen_calls :
    (newCalls GLState.initial
      (newSkybox.Draw (Shader.mk 1) mat4.identity mat4.identity GLState.initial)).length = 14 ∧
    ((newCalls GLState.initial
      (newSkybox.Draw (Shader.mk 1) mat4.identity mat4.identity GLState.initial)).filter
        (fun c => !isShaderCall c)).length = 10 := by
  rw [Skybox_Draw_calls]
  exact ⟨rfl, rfl⟩

/-- C18, amended. `Bind` and `Unbind` of `FrameBuffer` and of `DepthMap` issue exactly one
graphics API call per invocation; `Skybox::Draw` issues ten graphics API calls of its own per
invocation, besides the four calls it makes through the shader wrapper. -/
theorem wrapper_call_counts (fb : FrameBuffers.FrameBuffer) (fd : Demo.FrameBuffer)
    (dm : ParallelShadow.DepthMap) (cm : PointShadow.DepthMap) (sky : Skybox)
    (shader : Shader) (view projection : mat4) (s : GLState) :
    ((newCalls s (fb.Bind s).2).length = 1 ∧ (newCalls s (fb.Unbind s).2).length = 1) ∧
    ((newCalls s (fd.Bind s).2).length = 1 ∧ (newCalls s (fd.Unbind s).2).length = 1) ∧
    ((newCalls s (dm.Bind s).2).length = 1 ∧ (newCalls s (dm.Unbind s).2).length = 1) ∧
    ((newCalls s (cm.Bind s).2).length = 1 ∧ (newCalls s (cm.Unbind s).2).length = 1) ∧
    (newCalls s (sky.Draw shader view projection s)).length = 14 ∧
    ((newCalls s (sky.Draw shader view projection s)).filter isShaderCall).length = 4 ∧
    ((newCalls s (sky.Draw shader view projection s)).filter
      (fun c => !isShaderCall c)).length = 10 := by
  rw [Skybox_Draw_calls]
  refine ⟨?_, ?_, ?_, ?_, rfl, rfl, rfl⟩ <;>
    simp [newCalls, FrameBuffers.FrameBuffer.Bind, FrameBuffers.FrameBuffer.Unbind,
      Demo.FrameBuffer.Bind, Demo.FrameBuffer.Unbind, ParallelShadow.DepthMap.Bind,
      ParallelShadow.DepthMap.Unbind, PointShadow.DepthMap.Bind, PointShadow.DepthMap.Unbind,
      glBindFramebuffer, GLState.record]

/-- C19. `Skybox::Draw` restores the default depth state: whatever the graphics state before
the call, after `Skybox::Draw` the depth function is `GL_LESS`, depth writes are enabled, no
vertex array is bound and the active texture unit is unit `0`; its only draw call,
`glDrawElements`, is made with depth function `GL_LEQUAL` and depth writes disabled. -/
theorem Skybox_Draw_depth_state (self : Skybox) (shader : Shader) (view projection : mat4)
    (m : Machine) :
    (self.Draw shader view projection m.gl).depthFunc = GLenum.GL_LESS ∧
    (self.Draw shader view projection m.gl).depthMask = true ∧
    (self.Draw shader view projection m.gl).boundVertexArray = 0 ∧
    (self.Draw shader view projection m.gl).activeTexture = 0 ∧
    (m.after (self.Draw shader view projection m.gl)).gl = self.Draw shader view projection m.gl ∧
    ((newCalls m.gl (self.Draw shader view projection m.gl)).filter isDraw).length = 1 ∧
    (∀ mc ∈ trace (newCalls m.gl (self.Draw shader view projection m.gl)) m,
      isDraw mc.2 = true →
        mc.1.gl.depthFunc = GLenum.GL_LEQUAL ∧ mc.1.gl.depthMask = false) := by
  refine ⟨rfl, rfl, rfl, rfl, ?_, ?_, ?_⟩
  · rw [Machine.after, Skybox_Draw_calls]
    simp [run, exec, Skybox.Draw, Shader.use, Shader.setUniformMat4, Shader.setUniformInt,
      glDepthMask, glDepthFunc, glBindVertexArray, glActiveTexture, glBindTexture,
      GLState.record]
  · rw [Skybox_Draw_calls]
    rfl
  · rw [Skybox_Draw_calls]
    intro mc hmc hdraw
    simp only [trace, List.mem_cons, List.mem_singleton, List.not_mem_nil, or_false] at hmc
    rcases hmc with h | h | h | h | h | h | h | h | h | h | h | h | h | h <;>
      subst h <;> first
        | (simp [isDraw] at hdraw; done)
        | (simp [exec, glDepthMask, glDepthFunc, glBindVertexArray, glActiveTexture,
            glBindTexture, GLState.record])

/-! ## The uniform buffer -/


/-- C11. In `UniformBuffers.cpp`, the uniform block `uMatrices` of each of the four shader
programs is linked to binding point `0`, and binding point `0` is the one the single buffer
`uboMatrices` is bound to over its whole size (`2 * sizeof(mat4)` bytes from offset `0`);
start-up performs exactly one upload, of the projection matrix, and each frame performs exactly
one upload, of the view matrix, both into `uboMatrices`, and sets neither matrix through a
per-program uniform: the only uniform the four programs receive in a frame is `uModel`. -/
theorem uniform_buffer_shared (sh0 sh1 sh2 sh3 : Shader) (blockIndexOf : Nat → String → Nat)
    (projection view : mat4) (ubo : Nat) (m : Machine) :
    (assoc (sh0.id, blockIndexOf sh0.id "uMatrices")
        (m.perform (UniformBuffers.configureUniformBuffer sh0 sh1 sh2 sh3 blockIndexOf
          projection)).2.blockBindings = some 0 ∧
      assoc (sh1.id, blockIndexOf sh1.id "uMatrices")
        (m.perform (UniformBuffers.configureUniformBuffer sh0 sh1 sh2 sh3 blockIndexOf
          projection)).2.blockBindings = some 0 ∧
      assoc (sh2.id, blockIndexOf sh2.id "uMatrices")
        (m.perform (UniformBuffers.configureUniformBuffer sh0 sh1 sh2 sh3 blockIndexOf
          projection)).2.blockBindings = some 0 ∧
      assoc (sh3.id, blockIndexOf sh3.id "uMatrices")
        (m.perform (UniformBuffers.configureUniformBuffer sh0 sh1 sh2 sh3 blockIndexOf
          projection)).2.blockBindings = some 0) ∧
    (assoc 0 (m.perform (UniformBuffers.configureUniformBuffer sh0 sh1 sh2 sh3 blockIndexOf
          projection)).2.bufferRanges
        = some ((m.perform (UniformBuffers.configureUniformBuffer sh0 sh1 sh2 sh3 blockIndexOf
            projection)).1, 0, 2 * sizeofMat4) ∧
      assoc (m.perform (UniformBuffers.configureUniformBuffer sh0 sh1 sh2 sh3 blockIndexOf
          projection)).1
        (m.perform (UniformBuffers.configureUniformBuffer sh0 sh1 sh2 sh3 blockIndexOf
          projection)).2.bufferSizes = some (2 * sizeofMat4) ∧
      (m.perform (UniformBuffers.configureUniformBuffer sh0 sh1 sh2 sh3 blockIndexOf
          projection)).2.gl.buffers
        = (m.perform (UniformBuffers.configureUniformBuffer sh0 sh1 sh2 sh3 blockIndexOf
            projection)).1 :: m.gl.buffers) ∧
    ((m.perform (UniformBuffers.configureUniformBuffer sh0 sh1 sh2 sh3 blockIndexOf
          projection)).2.uploads
        = ((m.perform (UniformBuffers.configureUniformBuffer sh0 sh1 sh2 sh3 blockIndexOf
            projection)).1, (0, sizeofMat4, projection)) :: m.uploads) ∧
    ((m.after (UniformBuffers.frame ubo sh0 sh1 sh2 sh3 view m.gl)).uploads
        = (ubo, (sizeofMat4, sizeofMat4, view)) :: m.uploads ∧
      ((newCalls m.gl (UniformBuffers.frame ubo sh0 sh1 sh2 sh3 view m.gl)).filter
        isUpload).length = 1 ∧
      (∀ c ∈ newCalls m.gl (UniformBuffers.frame ubo sh0 sh1 sh2 sh3 view m.gl),
        setsMatrixUniform "uView" c = false ∧ setsMatrixUniform "uProjection" c = false) ∧
      ((newCalls m.gl (UniformBuffers.frame ubo sh0 sh1 sh2 sh3 view m.gl)).filter
        (setsMatrixUniform "uModel")).length = 4) := by
  refine ⟨?_, ?_, ?_, ?_⟩
  · simp [Machine.perform, Machine.after, newCalls, run, exec, assoc,
      UniformBuffers.configureUniformBuffer, glGenBuffers, glBindBuffer, GLState.record]
  · simp [Machine.perform, Machine.after, newCalls, run, exec, assoc, Machine.bufferAt,
      UniformBuffers.configureUniformBuffer, glGenBuffers, glBindBuffer, GLState.record]
  · simp [Machine.perform, Machine.after, newCalls, run, exec, assoc, Machine.bufferAt,
      UniformBuffers.configureUniformBuffer, glGenBuffers, glBindBuffer, GLState.record]
  · simp [Machine.after, newCalls, run, exec, Machine.bufferAt, isUpload, setsMatrixUniform,
      UniformBuffers.frame, UniformBuffers.drawCube, Shader.use, Shader.setUniformMat4,
      glBindBuffer, GLState.record]

/-! ## The shadow demos -/


theorem setShadowMatrices_six (shader : Shader) (a b c d e f : mat4) (s : GLState) :
    PointShadow.setShadowMatrices shader [a, b, c, d, e, f] 6 0 s
      = some (shader.setUniformMat4 ("uShadowMatrices[" ++ toString 5 ++ "]") f
          (shader.setUniformMat4 ("uShadowMatrices[" ++ toString 4 ++ "]") e
          (shader.setUniformMat4 ("uShadowMatrices[" ++ toString 3 ++ "]") d
          (shader.setUniformMat4 ("uShadowMatrices[" ++ toString 2 ++ "]") c
          (shader.setUniformMat4 ("uShadowMatrices[" ++ toString 1 ++ "]") b
          (shader.setUniformMat4 ("uShadowMatrices[" ++ toString 0 ++ "]") a s)))))) := by
  rfl

theorem GetTransforms_eq (glm : Glm) (self : PointShadow.DepthMap) (p : vec3) :
    self.GetTransforms glm p
      = [(glm.perspective (glm.radians 90) 1 self.near self.far).mul
            (glm.lookAt p (p.fadd ⟨1, 0, 0⟩) ⟨0, -1, 0⟩),
         (glm.perspective (glm.radians 90) 1 self.near self.far).mul
            (glm.lookAt p (p.fadd ⟨-1, 0, 0⟩) ⟨0, -1, 0⟩),
         (glm.perspective (glm.radians 90) 1 self.near self.far).mul
            (glm.lookAt p (p.fadd ⟨0, 1, 0⟩) ⟨0, 0, 1⟩),
         (glm.perspective (glm.radians 90) 1 self.near self.far).mul
            (glm.lookAt p (p.fadd ⟨0, -1, 0⟩) ⟨0, 0, -1⟩),
         (glm.perspective (glm.radians 90) 1 self.near self.far).mul
            (glm.lookAt p (p.fadd ⟨0, 0, 1⟩) ⟨0, -1, 0⟩),
         (glm.perspective (glm.radians 90) 1 self.near self.far).mul
            (glm.lookAt p (p.fadd ⟨0, 0, -1⟩) ⟨0, -1, 0⟩)] := by
  rfl

/-- C14. `DepthMap::GetTransforms` returns, for every light position `p`, exactly six matrices,
the `i`-th being `projection * lookAt(p, p + d_i, u_i)` with the same 90-degree, aspect-1
projection for all six and with the view directions `d_0 .. d_5` equal to `+X`, `-X`, `+Y`,
`-Y`, `+Z`, `-Z` in that order, the order of the cube-map faces
`GL_TEXTURE_CUBE_MAP_POSITIVE_X + i` that `setup` allocates; so the accesses
`shadowTransforms[i]` of the render loop for `i` in `0 .. 5` are all in bounds and the frame
runs through. -/
theorem GetTransforms_six_faces (glm : Glm) (self : PointShadow.DepthMap) (p : vec3)
    (sh : PointShadow.Shaders) (scene : PointShadow.Scene) (cam : CameraView)
    (mode : LightingMode) (z : ℚ) (s : GLState) :
    (self.GetTransforms glm p).length = 6 ∧
    self.GetTransforms glm p
      = (List.range 6).map (fun i =>
          (glm.perspective (glm.radians 90) 1 self.near self.far).mul
            (glm.lookAt p (p.fadd (PointShadow.cubeFaceDirection i))
              (PointShadow.cubeFaceUp i))) ∧
    (List.range 6).map PointShadow.cubeFaceDirection
      = [⟨1, 0, 0⟩, ⟨-1, 0, 0⟩, ⟨0, 1, 0⟩, ⟨0, -1, 0⟩, ⟨0, 0, 1⟩, ⟨0, 0, -1⟩] ∧
    texImageTargets (newCalls s (self.setup s).2) = (List.range 6).map GLenum.texCubeFace ∧
    (∀ i ∈ List.range 6, ((self.GetTransforms glm p)[i]?).isSome = true) ∧
    (PointShadow.setShadowMatrices sh.simpleDepthShader (self.GetTransforms glm p) 6 0
      s).isSome = true ∧
    (PointShadow.frame glm sh self scene cam mode p z s).isSome = true := by
  refine ⟨rfl, rfl, rfl, ?_, ?_, ?_, ?_⟩
  · simp [newCalls, texImageTargets, PointShadow.DepthMap.setup, glGenFramebuffers,
      glGenTextures, glBindFramebuffer, glBindTexture, GLState.record, List.range_succ]
  · rw [GetTransforms_eq]
    intro i hi
    rw [List.mem_range] at hi
    interval_cases i <;> rfl
  · rw [GetTransforms_eq, setShadowMatrices_six]
    rfl
  · simp only [PointShadow.frame, PointShadow.depthPass, GetTransforms_eq,
      setShadowMatrices_six]
    rfl


set_option maxHeartbeats 1000000 in
theorem ParallelShadow_depth_draws (sh : ParallelShadow.Shaders) (dm : ParallelShadow.DepthMap)
    (scene : ParallelShadow.Scene) (lightProjection lightView : mat4) (m : Machine)
    (hatt : assoc (dm.fbo, GLenum.GL_DEPTH_ATTACHMENT) m.fbTextures = some dm.tid) :
    ∀ mc ∈ trace (newCalls m.gl
        (ParallelShadow.depthPass sh dm scene lightProjection lightView m.gl)) m,
      isDraw mc.2 = true →
        mc.1.gl.boundFramebuffer = dm.fbo ∧
        assoc (dm.fbo, GLenum.GL_DEPTH_ATTACHMENT) mc.1.fbTextures = some dm.tid := by
  simp [newCalls, ParallelShadow.depthPass, ParallelShadow.renderScene,
    ParallelShadow.DepthMap.Bind, ParallelShadow.DepthMap.Unbind, Shader.use,
    Shader.setUniformMat4, glBindFramebuffer, glBindVertexArray, GLState.record,
    trace, exec, isDraw, hatt]

set_option maxHeartbeats 1000000 in
theorem ParallelShadow_lighting_draws (glm : Glm) (sh : ParallelShadow.Shaders)
    (dm : ParallelShadow.DepthMap) (scene : ParallelShadow.Scene) (woodTexture : Nat)
    (cam : CameraView) (mode : LightingMode) (aspect : ℚ) (lightProjection lightView : mat4)
    (m : Machine)
    (hsampler : assoc (sh.objectShader.id, "uShadowMap") m.intUniforms = some 15) :
    ∀ mc ∈ trace (newCalls m.gl
        (ParallelShadow.lightingPass glm sh dm scene woodTexture cam mode aspect
          lightProjection lightView m.gl)) m,
      isDraw mc.2 = true →
        mc.1.gl.textureAt 15 GLenum.GL_TEXTURE_2D = dm.tid ∧
        assoc (sh.objectShader.id, "uShadowMap") mc.1.intUniforms = some 15 := by
  simp [newCalls, ParallelShadow.lightingPass, ParallelShadow.renderScene, setCameraUniforms,
    Shader.use, Shader.setUniformMat4, Shader.setUniformVec3, Shader.setUniformFloat,
    Shader.setUniformBool, glActiveTexture, glBindTexture, glBindVertexArray, GLState.record,
    GLState.textureAt, assoc, trace, exec, isDraw, hsampler]

set_option maxHeartbeats 1000000 in
theorem ParallelShadow_start (glm : Glm) (sh : ParallelShadow.Shaders)
    (self : ParallelShadow.DepthMap) (m : Machine) :
    assoc ((m.perform self.setup).1.fbo, GLenum.GL_DEPTH_ATTACHMENT)
        ((m.perform self.setup).2.after
          (ParallelShadow.configureShaders glm sh (m.perform self.setup).2.gl)).fbTextures
      = some (m.perform self.setup).1.tid ∧
    assoc (sh.objectShader.id, "uShadowMap")
        ((m.perform self.setup).2.after
          (ParallelShadow.configureShaders glm sh (m.perform self.setup).2.gl)).intUniforms
      = some 15 ∧
    assoc (m.perform self.setup).1.tid (m.perform self.setup).2.texImages
      = some (TexImage.mk GLenum.GL_TEXTURE_2D GLenum.GL_DEPTH_COMPONENT self.width
          self.height) := by
  simp [Machine.perform, Machine.after, newCalls, run, exec, assoc, bindTarget,
    GLState.textureAt, ParallelShadow.DepthMap.setup, ParallelShadow.configureShaders,
    configureLights, glGenFramebuffers, glGenTextures, glBindFramebuffer, glBindTexture,
    Shader.use, Shader.setUniformInt, Shader.setUniformVec3, Shader.setUniformFloat,
    GLState.record]


set_option maxRecDepth 8000 in
set_option maxHeartbeats 1000000 in
theorem PointShadow_depth_draws (glm : Glm) (sh : PointShadow.Shaders)
    (dm : PointShadow.DepthMap) (scene : PointShadow.Scene) (lightPos : vec3) (m : Machine)
    (hatt : assoc (dm.fbo, GLenum.GL_DEPTH_ATTACHMENT) m.fbTextures = some dm.tid) :
    ∃ s', PointShadow.depthPass sh dm scene lightPos (dm.GetTransforms glm lightPos) m.gl
        = some s' ∧
      ∀ mc ∈ trace (newCalls m.gl s') m,
        isDraw mc.2 = true →
          mc.1.gl.boundFramebuffer = dm.fbo ∧
          assoc (dm.fbo, GLenum.GL_DEPTH_ATTACHMENT) mc.1.fbTextures = some dm.tid := by
  simp only [PointShadow.depthPass, GetTransforms_eq, setShadowMatrices_six]
  refine ⟨_, rfl, ?_⟩
  simp [newCalls, PointShadow.renderScene, PointShadow.drawWith,
    PointShadow.DepthMap.Bind, PointShadow.DepthMap.Unbind, Shader.use,
    Shader.setUniformMat4, Shader.setUniformInt, Shader.setUniformVec3,
    Shader.setUniformFloat, glBindFramebuffer, GLState.record,
    trace, exec, isDraw, hatt]

set_option maxRecDepth 8000 in
set_option maxHeartbeats 1000000 in
theorem PointShadow_lighting_draws (glm : Glm) (sh : PointShadow.Shaders)
    (dm : PointShadow.DepthMap) (scene : PointShadow.Scene) (cam : CameraView)
    (mode : LightingMode) (aspect : ℚ) (lightPos : vec3) (m : Machine)
    (hsampler : assoc (sh.objectShader.id, "uShadowMap") m.intUniforms = some 15) :
    ∀ mc ∈ trace (newCalls m.gl
        (PointShadow.lightingPass glm sh dm scene cam mode aspect lightPos m.gl)) m,
      isDraw mc.2 = true →
        mc.1.gl.textureAt 15 GLenum.GL_TEXTURE_CUBE_MAP = dm.tid ∧
        assoc (sh.objectShader.id, "uShadowMap") mc.1.intUniforms = some 15 := by
  simp [newCalls, PointShadow.lightingPass, PointShadow.renderScene, PointShadow.drawWith,
    PointShadow.depthMapTexUnit, setCameraUniforms,
    Shader.use, Shader.setUniformMat4, Shader.setUniformVec3, Shader.setUniformFloat,
    Shader.setUniformBool, Shader.setUniformInt, glActiveTexture, glBindTexture,
    GLState.record, GLState.textureAt, assoc, trace, exec, isDraw, hsampler]

set_option maxHeartbeats 1000000 in
theorem PointShadow_start (glm : Glm) (sh : PointShadow.Shaders)
    (self : PointShadow.DepthMap) (m : Machine) :
    assoc ((m.perform self.setup).1.fbo, GLenum.GL_DEPTH_ATTACHMENT)
        ((m.perform self.setup).2.after
          (PointShadow.configureShaders glm sh (m.perform self.setup).2.gl)).fbTextures
      = some (m.perform self.setup).1.tid ∧
    assoc (sh.objectShader.id, "uShadowMap")
        ((m.perform self.setup).2.after
          (PointShadow.configureShaders glm sh (m.perform self.setup).2.gl)).intUniforms
      = some 15 := by
  simp [Machine.perform, Machine.after, newCalls, run, exec, assoc, bindTarget,
    GLState.textureAt, PointShadow.DepthMap.setup, PointShadow.configureShaders,
    PointShadow.depthMapTexUnit,
    configureLights, glGenFramebuffers, glGenTextures, glBindFramebuffer, glBindTexture,
    Shader.use, Shader.setUniformInt, Shader.setUniformVec3, Shader.setUniformFloat,
    GLState.record, List.range_succ]


theorem ParallelShadow_atDepthPass (m : Machine) :
    (ParallelShadow.atDepthPass m).gl = ParallelShadow.beforeDepthPass m.gl ∧
    (ParallelShadow.atDepthPass m).fbTextures = m.fbTextures ∧
    (ParallelShadow.atDepthPass m).intUniforms = m.intUniforms := by
  simp [ParallelShadow.atDepthPass, ParallelShadow.beforeDepthPass, Machine.after, newCalls,
    run, exec, GLState.record]

set_option maxRecDepth 8000 in
set_option maxHeartbeats 1000000 in
theorem ParallelShadow_depthPass_after (sh : ParallelShadow.Shaders)
    (dm : ParallelShadow.DepthMap) (scene : ParallelShadow.Scene)
    (lightProjection lightView : mat4) (m : Machine) :
    (m.after (ParallelShadow.depthPass sh dm scene lightProjection lightView m.gl)).gl
      = ParallelShadow.depthPass sh dm scene lightProjection lightView m.gl ∧
    (m.after (ParallelShadow.depthPass sh dm scene lightProjection lightView m.gl)).fbTextures
      = m.fbTextures ∧
    (m.after (ParallelShadow.depthPass sh dm scene lightProjection lightView m.gl)).intUniforms
      = m.intUniforms := by
  simp [Machine.after, newCalls, ParallelShadow.depthPass, ParallelShadow.renderScene,
    ParallelShadow.DepthMap.Bind, ParallelShadow.DepthMap.Unbind, Shader.use,
    Shader.setUniformMat4, glBindFramebuffer, glBindVertexArray, GLState.record, run, exec]

set_option maxRecDepth 8000 in
set_option maxHeartbeats 1000000 in
theorem ParallelShadow_lightingPass_after (glm : Glm) (sh : ParallelShadow.Shaders)
    (dm : ParallelShadow.DepthMap) (scene : ParallelShadow.Scene) (woodTexture : Nat)
    (cam : CameraView) (mode : LightingMode) (aspect : ℚ) (lightProjection lightView : mat4)
    (m : Machine) :
    (m.after (ParallelShadow.lightingPass glm sh dm scene woodTexture cam mode aspect
        lightProjection lightView m.gl)).gl
      = ParallelShadow.lightingPass glm sh dm scene woodTexture cam mode aspect
        lightProjection lightView m.gl ∧
    (m.after (ParallelShadow.lightingPass glm sh dm scene woodTexture cam mode aspect
        lightProjection lightView m.gl)).fbTextures = m.fbTextures ∧
    (m.after (ParallelShadow.lightingPass glm sh dm scene woodTexture cam mode aspect
        lightProjection lightView m.gl)).intUniforms = m.intUniforms := by
  simp [Machine.after, newCalls, ParallelShadow.lightingPass, ParallelShadow.renderScene,
    setCameraUniforms, Shader.use, Shader.setUniformMat4, Shader.setUniformVec3,
    Shader.setUniformFloat, Shader.setUniformBool, glActiveTexture, glBindTexture,
    glBindVertexArray, GLState.record, run, exec]

theorem PointShadow_atDepthPass (m : Machine) :
    (PointShadow.atDepthPass m).gl = PointShadow.beforeDepthPass m.gl ∧
    (PointShadow.atDepthPass m).fbTextures = m.fbTextures ∧
    (PointShadow.atDepthPass m).intUniforms = m.intUniforms := by
  simp [PointShadow.atDepthPass, PointShadow.beforeDepthPass, Machine.after, newCalls,
    run, exec, GLState.record]

theorem PointShadow_depthPass_some (glm : Glm) (sh : PointShadow.Shaders)
    (dm : PointShadow.DepthMap) (scene : PointShadow.Scene) (lightPos : vec3) (s : GLState) :
    PointShadow.depthPass sh dm scene lightPos (dm.GetTransforms glm lightPos) s
      = some (PointShadow.depthPassResult glm sh dm scene lightPos s) := by
  simp only [PointShadow.depthPassResult, PointShadow.depthPass, GetTransforms_eq,
    setShadowMatrices_six]
  rfl

set_option maxRecDepth 8000 in
set_option maxHeartbeats 1000000 in
theorem PointShadow_depthPass_after (glm : Glm) (sh : PointShadow.Shaders)
    (dm : PointShadow.DepthMap) (scene : PointShadow.Scene) (lightPos : vec3) (m : Machine)
    (hsampler : assoc (sh.objectShader.id, "uShadowMap") m.intUniforms = some 15) :
    (m.after (PointShadow.depthPassResult glm sh dm scene lightPos m.gl)).gl
      = PointShadow.depthPassResult glm sh dm scene lightPos m.gl ∧
    (m.after (PointShadow.depthPassResult glm sh dm scene lightPos m.gl)).fbTextures
      = m.fbTextures ∧
    assoc (sh.objectShader.id, "uShadowMap")
      (m.after (PointShadow.depthPassResult glm sh dm scene lightPos m.gl)).intUniforms
      = some 15 := by
  simp only [PointShadow.depthPassResult, PointShadow.depthPass, GetTransforms_eq,
    setShadowMatrices_six, Option.getD_some]
  simp [Machine.after, newCalls, PointShadow.renderScene, PointShadow.drawWith,
    PointShadow.DepthMap.Bind, PointShadow.DepthMap.Unbind, Shader.use,
    Shader.setUniformMat4, Shader.setUniformInt, Shader.setUniformVec3,
    Shader.setUniformFloat, glBindFramebuffer, GLState.record, run, exec, assoc, hsampler]

set_option maxRecDepth 8000 in
set_option maxHeartbeats 1000000 in
theorem PointShadow_lightingPass_after (glm : Glm) (sh : PointShadow.Shaders)
    (dm : PointShadow.DepthMap) (scene : PointShadow.Scene) (cam : CameraView)
    (mode : LightingMode) (aspect : ℚ) (lightPos : vec3) (m : Machine)
    (hsampler : assoc (sh.objectShader.id, "uShadowMap") m.intUniforms = some 15) :
    (m.after (PointShadow.lightingPass glm sh dm scene cam mode aspect lightPos m.gl)).gl
      = PointShadow.lightingPass glm sh dm scene cam mode aspect lightPos m.gl ∧
    (m.after (PointShadow.lightingPass glm sh dm scene cam mode aspect lightPos
      m.gl)).fbTextures = m.fbTextures ∧
    assoc (sh.objectShader.id, "uShadowMap")
      (m.after (PointShadow.lightingPass glm sh dm scene cam mode aspect lightPos
        m.gl)).intUniforms = some 15 := by
  simp [Machine.after, newCalls, PointShadow.lightingPass, PointShadow.renderScene,
    PointShadow.drawWith, PointShadow.depthMapTexUnit, setCameraUniforms,
    Shader.use, Shader.setUniformMat4, Shader.setUniformVec3, Shader.setUniformFloat,
    Shader.setUniformBool, Shader.setUniformInt, glActiveTexture, glBindTexture,
    GLState.record, run, exec, assoc, hsampler]

set_option maxRecDepth 8000 in
set_option maxHeartbeats 1000000 in
/-- The calls of the depth pass of `ParallelShadow.cpp`: its five draws, the binding of the
framebuffer of the depth map and the two light matrices. -/
theorem ParallelShadow_depthPass_calls (sh : ParallelShadow.Shaders)
    (dm : ParallelShadow.DepthMap) (scene : ParallelShadow.Scene)
    (lightProjection lightView : mat4) (s : GLState) :
    (newCalls s (ParallelShadow.depthPass sh dm scene lightProjection lightView s)).filter
        (fun c => isDraw c)
      = [GLCall.glDrawElements GLenum.GL_TRIANGLES scene.planeIndexCount
          GLenum.GL_UNSIGNED_INT 0, GLCall.drawObject "cube", GLCall.drawObject "cube",
          GLCall.drawObject "cube", GLCall.drawObject "planet"] ∧
    GLCall.glBindFramebuffer GLenum.GL_FRAMEBUFFER dm.fbo
      ∈ newCalls s (ParallelShadow.depthPass sh dm scene lightProjection lightView s) ∧
    GLCall.uniformMat4 sh.simpleDepthShader.id "uView" lightView
      ∈ newCalls s (ParallelShadow.depthPass sh dm scene lightProjection lightView s) ∧
    GLCall.uniformMat4 sh.simpleDepthShader.id "uProjection" lightProjection
      ∈ newCalls s (ParallelShadow.depthPass sh dm scene lightProjection lightView s) := by
  simp [newCalls, ParallelShadow.depthPass, ParallelShadow.renderScene,
    ParallelShadow.DepthMap.Bind, ParallelShadow.DepthMap.Unbind, Shader.use,
    Shader.setUniformMat4, glBindFramebuffer, glBindVertexArray, GLState.record, isDraw]

set_option maxRecDepth 8000 in
set_option maxHeartbeats 1000000 in
/-- The calls of the lighting pass of `ParallelShadow.cpp`: its five draws, the binding of the
depth texture on unit 15 and the light-space matrix. -/
theorem ParallelShadow_lightingPass_calls (glm : Glm) (sh : ParallelShadow.Shaders)
    (dm : ParallelShadow.DepthMap) (scene : ParallelShadow.Scene) (woodTexture : Nat)
    (cam : CameraView) (mode : LightingMode) (aspect : ℚ) (lightProjection lightView : mat4)
    (s : GLState) :
    (newCalls s (ParallelShadow.lightingPass glm sh dm scene woodTexture cam mode aspect
        lightProjection lightView s)).filter (fun c => isDraw c)
      = [GLCall.glDrawElements GLenum.GL_TRIANGLES scene.planeIndexCount
          GLenum.GL_UNSIGNED_INT 0, GLCall.drawObject "cube", GLCall.drawObject "cube",
          GLCall.drawObject "cube", GLCall.drawObject "planet"] ∧
    GLCall.glActiveTexture 15
      ∈ newCalls s (ParallelShadow.lightingPass glm sh dm scene woodTexture cam mode aspect
        lightProjection lightView s) ∧
    GLCall.glBindTexture GLenum.GL_TEXTURE_2D dm.tid
      ∈ newCalls s (ParallelShadow.lightingPass glm sh dm scene woodTexture cam mode aspect
        lightProjection lightView s) ∧
    GLCall.uniformMat4 sh.objectShader.id "uLightSpaceMatrix" (lightProjection.mul lightView)
      ∈ newCalls s (ParallelShadow.lightingPass glm sh dm scene woodTexture cam mode aspect
        lightProjection lightView s) := by
  simp [newCalls, ParallelShadow.lightingPass, ParallelShadow.renderScene, setCameraUniforms,
    Shader.use, Shader.setUniformMat4, Shader.setUniformVec3, Shader.setUniformFloat,
    Shader.setUniformBool, glActiveTexture, glBindTexture, glBindVertexArray, GLState.record,
    isDraw]

set_option maxRecDepth 8000 in
set_option maxHeartbeats 1000000 in
/-- The calls of the depth pass of `PointShadow.cpp`: its seven draws, the binding of the
framebuffer of the depth map, the light position and the far plane. -/
theorem PointShadow_depthPass_calls (glm : Glm) (sh : PointShadow.Shaders)
    (dm : PointShadow.DepthMap) (scene : PointShadow.Scene) (lightPos : vec3) (s : GLState) :
    (newCalls s (PointShadow.depthPassResult glm sh dm scene lightPos s)).filter
        (fun c => isDraw c)
      = [GLCall.drawObject "cube", GLCall.drawObject "cube", GLCall.drawObject "cube",
          GLCall.drawObject "cube", GLCall.drawObject "cube", GLCall.drawObject "cube",
          GLCall.drawObject "planet"] ∧
    GLCall.glBindFramebuffer GLenum.GL_FRAMEBUFFER dm.fbo
      ∈ newCalls s (PointShadow.depthPassResult glm sh dm scene lightPos s) ∧
    GLCall.uniformVec3 sh.simpleDepthShader.id "uLightPos" lightPos
      ∈ newCalls s (PointShadow.depthPassResult glm sh dm scene lightPos s) ∧
    GLCall.uniformFloat sh.simpleDepthShader.id "uFarPlane" dm.far
      ∈ newCalls s (PointShadow.depthPassResult glm sh dm scene lightPos s) := by
  simp only [PointShadow.depthPassResult, PointShadow.depthPass, GetTransforms_eq,
    setShadowMatrices_six, Option.getD_some]
  simp [newCalls, PointShadow.renderScene, PointShadow.drawWith,
    PointShadow.DepthMap.Bind, PointShadow.DepthMap.Unbind, Shader.use,
    Shader.setUniformMat4, Shader.setUniformInt, Shader.setUniformVec3,
    Shader.setUniformFloat, glBindFramebuffer, GLState.record, isDraw]

set_option maxRecDepth 8000 in
set_option maxHeartbeats 1000000 in
/-- The calls of the lighting pass of `PointShadow.cpp`: its seven draws, the binding of the
depth cube map on unit 15, the light position and the far plane. -/
theorem PointShadow_lightingPass_calls (glm : Glm) (sh : PointShadow.Shaders)
    (dm : PointShadow.DepthMap) (scene : PointShadow.Scene) (cam : CameraView)
    (mode : LightingMode) (aspect : ℚ) (lightPos : vec3) (s : GLState) :
    (newCalls s (PointShadow.lightingPass glm sh dm scene cam mode aspect lightPos s)).filter
        (fun c => isDraw c)
      = [GLCall.drawObject "cube", GLCall.drawObject "cube", GLCall.drawObject "cube",
          GLCall.drawObject "cube", GLCall.drawObject "cube", GLCall.drawObject "cube",
          GLCall.drawObject "planet"] ∧
    GLCall.glActiveTexture 15
      ∈ newCalls s (PointShadow.lightingPass glm sh dm scene cam mode aspect lightPos s) ∧
    GLCall.glBindTexture GLenum.GL_TEXTURE_CUBE_MAP dm.tid
      ∈ newCalls s (PointShadow.lightingPass glm sh dm scene cam mode aspect lightPos s) ∧
    GLCall.uniformVec3 sh.objectShader.id "uPointLight.position" lightPos
      ∈ newCalls s (PointShadow.lightingPass glm sh dm scene cam mode aspect lightPos s) ∧
    GLCall.uniformFloat sh.objectShader.id "uFarPlane" dm.far
      ∈ newCalls s (PointShadow.lightingPass glm sh dm scene cam mode aspect lightPos s) := by
  simp [newCalls, PointShadow.lightingPass, PointShadow.renderScene, PointShadow.drawWith,
    PointShadow.depthMapTexUnit, setCameraUniforms,
    Shader.use, Shader.setUniformMat4, Shader.setUniformVec3, Shader.setUniformFloat,
    Shader.setUniformBool, Shader.setUniformInt, glActiveTexture, glBindTexture,
    GLState.record, isDraw]

/-- C12. In both shadow demos, in every frame, the depth texture that the depth pass renders
into is the texture that is bound, during the lighting pass of the same frame, to the texture
unit the `uShadowMap` sampler of the lighting shader was set to (unit 15).  Assume the machine
at the start of a frame has the texture `tid` of the depth map as depth attachment of its
framebuffer `fbo` and `uShadowMap = 15` in `objectShader`, as is the case when the render loop
begins.  Then the depth pass binds `fbo` and draws the scene (five draws in
`ParallelShadow.cpp`, seven in `PointShadow.cpp`), every one of these draws being made with
`fbo` bound, whose depth attachment is `tid`; the lighting pass selects unit 15, binds `tid`
there and draws the scene again, every one of these draws being made with `tid` bound on unit
15 to the target the shader samples (`GL_TEXTURE_2D`, respectively `GL_TEXTURE_CUBE_MAP`) and
with `uShadowMap = 15`; and the assumption holds again when the frame is over. -/
theorem shadow_map_sampled_in_lighting_pass (glm : Glm)
    (shP : ParallelShadow.Shaders) (dmP : ParallelShadow.DepthMap)
    (sceneP : ParallelShadow.Scene) (woodTexture : Nat)
    (shC : PointShadow.Shaders) (dmC : PointShadow.DepthMap) (sceneC : PointShadow.Scene)
    (lightPos : vec3) (z : ℚ) (cam : CameraView) (mode : LightingMode) (mP mC : Machine)
    (hP : assoc (dmP.fbo, GLenum.GL_DEPTH_ATTACHMENT) mP.fbTextures = some dmP.tid)
    (hPs : assoc (shP.objectShader.id, "uShadowMap") mP.intUniforms = some 15)
    (hC : assoc (dmC.fbo, GLenum.GL_DEPTH_ATTACHMENT) mC.fbTextures = some dmC.tid)
    (hCs : assoc (shC.objectShader.id, "uShadowMap") mC.intUniforms = some 15) :
    ((ParallelShadow.afterFrame glm shP dmP sceneP woodTexture cam mode mP).gl
        = ParallelShadow.frame glm shP dmP sceneP woodTexture cam mode mP.gl ∧
      ((newCalls (ParallelShadow.atDepthPass mP).gl
            (ParallelShadow.atLightingPass glm shP dmP sceneP mP).gl).filter
          (fun c => isDraw c)
        = [GLCall.glDrawElements GLenum.GL_TRIANGLES sceneP.planeIndexCount
            GLenum.GL_UNSIGNED_INT 0, GLCall.drawObject "cube", GLCall.drawObject "cube",
            GLCall.drawObject "cube", GLCall.drawObject "planet"] ∧
        GLCall.glBindFramebuffer GLenum.GL_FRAMEBUFFER dmP.fbo
          ∈ newCalls (ParallelShadow.atDepthPass mP).gl
            (ParallelShadow.atLightingPass glm shP dmP sceneP mP).gl) ∧
      (∀ mc ∈ trace (newCalls (ParallelShadow.atDepthPass mP).gl
            (ParallelShadow.atLightingPass glm shP dmP sceneP mP).gl)
          (ParallelShadow.atDepthPass mP),
        isDraw mc.2 = true →
          mc.1.gl.boundFramebuffer = dmP.fbo ∧
          assoc (dmP.fbo, GLenum.GL_DEPTH_ATTACHMENT) mc.1.fbTextures = some dmP.tid) ∧
      ((newCalls (ParallelShadow.atLightingPass glm shP dmP sceneP mP).gl
            (ParallelShadow.afterFrame glm shP dmP sceneP woodTexture cam mode mP).gl).filter
          (fun c => isDraw c)
        = [GLCall.glDrawElements GLenum.GL_TRIANGLES sceneP.planeIndexCount
            GLenum.GL_UNSIGNED_INT 0, GLCall.drawObject "cube", GLCall.drawObject "cube",
            GLCall.drawObject "cube", GLCall.drawObject "planet"] ∧
        GLCall.glActiveTexture 15
          ∈ newCalls (ParallelShadow.atLightingPass glm shP dmP sceneP mP).gl
            (ParallelShadow.afterFrame glm shP dmP sceneP woodTexture cam mode mP).gl ∧
        GLCall.glBindTexture GLenum.GL_TEXTURE_2D dmP.tid
          ∈ newCalls (ParallelShadow.atLightingPass glm shP dmP sceneP mP).gl
            (ParallelShadow.afterFrame glm shP dmP sceneP woodTexture cam mode mP).gl) ∧
      (∀ mc ∈ trace (newCalls (ParallelShadow.atLightingPass glm shP dmP sceneP mP).gl
            (ParallelShadow.afterFrame glm shP dmP sceneP woodTexture cam mode mP).gl)
          (ParallelShadow.atLightingPass glm shP dmP sceneP mP),
        isDraw mc.2 = true →
          mc.1.gl.textureAt 15 GLenum.GL_TEXTURE_2D = dmP.tid ∧
          assoc (shP.objectShader.id, "uShadowMap") mc.1.intUniforms = some 15) ∧
      assoc (dmP.fbo, GLenum.GL_DEPTH_ATTACHMENT)
          (ParallelShadow.afterFrame glm shP dmP sceneP woodTexture cam mode mP).fbTextures
        = some dmP.tid ∧
      assoc (shP.objectShader.id, "uShadowMap")
          (ParallelShadow.afterFrame glm shP dmP sceneP woodTexture cam mode mP).intUniforms
        = some 15) ∧
    (PointShadow.frame glm shC dmC sceneC cam mode lightPos z mC.gl
        = some ({ lightPos with z := z },
            (PointShadow.afterFrame glm shC dmC sceneC cam mode { lightPos with z := z }
              mC).gl) ∧
      ((newCalls (PointShadow.atDepthPass mC).gl
            (PointShadow.atLightingPass glm shC dmC sceneC { lightPos with z := z }
              mC).gl).filter (fun c => isDraw c)
        = [GLCall.drawObject "cube", GLCall.drawObject "cube", GLCall.drawObject "cube",
            GLCall.drawObject "cube", GLCall.drawObject "cube", GLCall.drawObject "cube",
            GLCall.drawObject "planet"] ∧
        GLCall.glBindFramebuffer GLenum.GL_FRAMEBUFFER dmC.fbo
          ∈ newCalls (PointShadow.atDepthPass mC).gl
            (PointShadow.atLightingPass glm shC dmC sceneC { lightPos with z := z } mC).gl) ∧
      (∀ mc ∈ trace (newCalls (PointShadow.atDepthPass mC).gl
            (PointShadow.atLightingPass glm shC dmC sceneC { lightPos with z := z } mC).gl)
          (PointShadow.atDepthPass mC),
        isDraw mc.2 = true →
          mc.1.gl.boundFramebuffer = dmC.fbo ∧
          assoc (dmC.fbo, GLenum.GL_DEPTH_ATTACHMENT) mc.1.fbTextures = some dmC.tid) ∧
      ((newCalls
            (PointShadow.atLightingPass glm shC dmC sceneC { lightPos with z := z } mC).gl
            (PointShadow.afterFrame glm shC dmC sceneC cam mode { lightPos with z := z }
              mC).gl).filter (fun c => isDraw c)
        = [GLCall.drawObject "cube", GLCall.drawObject "cube", GLCall.drawObject "cube",
            GLCall.drawObject "cube", GLCall.drawObject "cube", GLCall.drawObject "cube",
            GLCall.drawObject "planet"] ∧
        GLCall.glActiveTexture 15
          ∈ newCalls
            (PointShadow.atLightingPass glm shC dmC sceneC { lightPos with z := z } mC).gl
            (PointShadow.afterFrame glm shC dmC sceneC cam mode { lightPos with z := z }
              mC).gl ∧
        GLCall.glBindTexture GLenum.GL_TEXTURE_CUBE_MAP dmC.tid
          ∈ newCalls
            (PointShadow.atLightingPass glm shC dmC sceneC { lightPos with z := z } mC).gl
            (PointShadow.afterFrame glm shC dmC sceneC cam mode { lightPos with z := z }
              mC).gl) ∧
      (∀ mc ∈ trace (newCalls
            (PointShadow.atLightingPass glm shC dmC sceneC { lightPos with z := z } mC).gl
            (PointShadow.afterFrame glm shC dmC sceneC cam mode { lightPos with z := z }
              mC).gl)
          (PointShadow.atLightingPass glm shC dmC sceneC { lightPos with z := z } mC),
        isDraw mc.2 = true →
          mc.1.gl.textureAt 15 GLenum.GL_TEXTURE_CUBE_MAP = dmC.tid ∧
          assoc (shC.objectShader.id, "uShadowMap") mc.1.intUniforms = some 15) ∧
      assoc (dmC.fbo, GLenum.GL_DEPTH_ATTACHMENT)
          (PointShadow.afterFrame glm shC dmC sceneC cam mode { lightPos with z := z }
            mC).fbTextures = some dmC.tid ∧
      assoc (shC.objectShader.id, "uShadowMap")
          (PointShadow.afterFrame glm shC dmC sceneC cam mode { lightPos with z := z }
            mC).intUniforms = some 15) := by
  constructor
  · -- ParallelShadow
    obtain ⟨h1g, h1f, h1u⟩ := ParallelShadow_atDepthPass mP
    obtain ⟨h2g, h2f, h2u⟩ := ParallelShadow_depthPass_after shP dmP sceneP
      (ParallelShadow.lightMatrices glm).1 (ParallelShadow.lightMatrices glm).2
      (ParallelShadow.atDepthPass mP)
    obtain ⟨h3g, h3f, h3u⟩ := ParallelShadow_lightingPass_after glm shP dmP sceneP woodTexture
      cam mode ParallelShadow.aspect (ParallelShadow.lightMatrices glm).1
      (ParallelShadow.lightMatrices glm).2 (ParallelShadow.atLightingPass glm shP dmP sceneP mP)
    have hatt1 : assoc (dmP.fbo, GLenum.GL_DEPTH_ATTACHMENT)
        (ParallelShadow.atDepthPass mP).fbTextures = some dmP.tid := by rw [h1f]; exact hP
    have hs2 : assoc (shP.objectShader.id, "uShadowMap")
        (ParallelShadow.atLightingPass glm shP dmP sceneP mP).intUniforms = some 15 := by
      unfold ParallelShadow.atLightingPass
      rw [h2u, h1u]
      exact hPs
    refine ⟨?_, ?_, ?_, ?_, ?_, ?_, ?_⟩
    · unfold ParallelShadow.afterFrame
      rw [h3g]
      unfold ParallelShadow.atLightingPass
      rw [h2g, h1g]
      rfl
    · have := ParallelShadow_depthPass_calls shP dmP sceneP (ParallelShadow.lightMatrices glm).1
        (ParallelShadow.lightMatrices glm).2 (ParallelShadow.atDepthPass mP).gl
      unfold ParallelShadow.atLightingPass
      rw [h2g]
      exact ⟨this.1, this.2.1⟩
    · have := ParallelShadow_depth_draws shP dmP sceneP (ParallelShadow.lightMatrices glm).1
        (ParallelShadow.lightMatrices glm).2 (ParallelShadow.atDepthPass mP) hatt1
      unfold ParallelShadow.atLightingPass
      rw [h2g]
      exact this
    · have := ParallelShadow_lightingPass_calls glm shP dmP sceneP woodTexture cam mode
        ParallelShadow.aspect (ParallelShadow.lightMatrices glm).1
        (ParallelShadow.lightMatrices glm).2
        (ParallelShadow.atLightingPass glm shP dmP sceneP mP).gl
      unfold ParallelShadow.afterFrame
      rw [h3g]
      exact ⟨this.1, this.2.1, this.2.2.1⟩
    · have := ParallelShadow_lighting_draws glm shP dmP sceneP woodTexture cam mode
        ParallelShadow.aspect (ParallelShadow.lightMatrices glm).1
        (ParallelShadow.lightMatrices glm).2
        (ParallelShadow.atLightingPass glm shP dmP sceneP mP) hs2
      unfold ParallelShadow.afterFrame
      rw [h3g]
      exact this
    · unfold ParallelShadow.afterFrame
      rw [h3f]
      unfold ParallelShadow.atLightingPass
      rw [h2f, h1f]
      exact hP
    · unfold ParallelShadow.afterFrame
      rw [h3u]
      exact hs2
  · -- PointShadow
    obtain ⟨h1g, h1f, h1u⟩ := PointShadow_atDepthPass mC
    have hs1 : assoc (shC.objectShader.id, "uShadowMap")
        (PointShadow.atDepthPass mC).intUniforms = some 15 := by rw [h1u]; exact hCs
    have hatt1 : assoc (dmC.fbo, GLenum.GL_DEPTH_ATTACHMENT)
        (PointShadow.atDepthPass mC).fbTextures = some dmC.tid := by rw [h1f]; exact hC
    obtain ⟨h2g, h2f, h2u⟩ := PointShadow_depthPass_after glm shC dmC sceneC
      { lightPos with z := z } (PointShadow.atDepthPass mC) hs1
    have hs2 : assoc (shC.objectShader.id, "uShadowMap")
        (PointShadow.atLightingPass glm shC dmC sceneC { lightPos with z := z }
          mC).intUniforms = some 15 := h2u
    obtain ⟨h3g, h3f, h3u⟩ := PointShadow_lightingPass_after glm shC dmC sceneC cam mode
      PointShadow.aspect { lightPos with z := z }
      (PointShadow.atLightingPass glm shC dmC sceneC { lightPos with z := z } mC) hs2
    refine ⟨?_, ?_, ?_, ?_, ?_, ?_, ?_⟩
    · unfold PointShadow.afterFrame
      rw [h3g]
      unfold PointShadow.atLightingPass
      rw [h2g, h1g]
      unfold PointShadow.frame
      simp only [PointShadow_depthPass_some]
      rfl
    · have := PointShadow_depthPass_calls glm shC dmC sceneC { lightPos with z := z }
        (PointShadow.atDepthPass mC).gl
      unfold PointShadow.atLightingPass
      rw [h2g]
      exact ⟨this.1, this.2.1⟩
    · obtain ⟨s', hs', hdraw⟩ := PointShadow_depth_draws glm shC dmC sceneC
        { lightPos with z := z } (PointShadow.atDepthPass mC) hatt1
      rw [PointShadow_depthPass_some] at hs'
      unfold PointShadow.atLightingPass
      rw [h2g]
      rw [← Option.some.inj hs'] at hdraw
      exact hdraw
    · have := PointShadow_lightingPass_calls glm shC dmC sceneC cam mode PointShadow.aspect
        { lightPos with z := z }
        (PointShadow.atLightingPass glm shC dmC sceneC { lightPos with z := z } mC).gl
      unfold PointShadow.afterFrame
      rw [h3g]
      exact ⟨this.1, this.2.1, this.2.2.1⟩
    · have := PointShadow_lighting_draws glm shC dmC sceneC cam mode PointShadow.aspect
        { lightPos with z := z }
        (PointShadow.atLightingPass glm shC dmC sceneC { lightPos with z := z } mC) hs2
      unfold PointShadow.afterFrame
      rw [h3g]
      exact this
    · unfold PointShadow.afterFrame
      rw [h3f]
      unfold PointShadow.atLightingPass
      rw [h2f, h1f]
      exact hC
    · exact h3u


theorem shadow_map_sampled_in_lighting_pass_witness :
    assoc (sampleParallelStart.1.fbo, GLenum.GL_DEPTH_ATTACHMENT) sampleParallelStart.2.fbTextures
      = some sampleParallelStart.1.tid ∧
    assoc (sampleShaders.objectShader.id, "uShadowMap") sampleParallelStart.2.intUniforms
      = some 15 ∧
    assoc (samplePointStart.1.fbo, GLenum.GL_DEPTH_ATTACHMENT) samplePointStart.2.fbTextures
      = some samplePointStart.1.tid ∧
    assoc (sampleCubeShaders.objectShader.id, "uShadowMap") samplePointStart.2.intUniforms
      = some 15 ∧
    (ParallelShadow.afterFrame sampleGlm sampleShaders sampleParallelStart.1 sampleScene 9
        sampleCamera sampleMode sampleParallelStart.2).gl
      = ParallelShadow.frame sampleGlm sampleShaders sampleParallelStart.1 sampleScene 9
        sampleCamera sampleMode sampleParallelStart.2.gl ∧
    GLCall.glBindTexture GLenum.GL_TEXTURE_2D sampleParallelStart.1.tid
      ∈ newCalls
        (ParallelShadow.atLightingPass sampleGlm sampleShaders sampleParallelStart.1 sampleScene
          sampleParallelStart.2).gl
        (ParallelShadow.afterFrame sampleGlm sampleShaders sampleParallelStart.1 sampleScene 9
          sampleCamera sampleMode sampleParallelStart.2).gl ∧
    assoc (sampleShaders.objectShader.id, "uShadowMap")
        (ParallelShadow.afterFrame sampleGlm sampleShaders sampleParallelStart.1 sampleScene 9
          sampleCamera sampleMode sampleParallelStart.2).intUniforms = some 15 ∧
    assoc (samplePointStart.1.fbo, GLenum.GL_DEPTH_ATTACHMENT)
        (PointShadow.afterFrame sampleGlm sampleCubeShaders samplePointStart.1 sampleCubeScene
          sampleCamera sampleMode { (⟨0, 0, 0⟩ : vec3) with z := 3 }
          samplePointStart.2).fbTextures = some samplePointStart.1.tid := by
  have hP := (ParallelShadow_start sampleGlm sampleShaders newDepthMap
    (Machine.start GLState.initial)).1
  have hPs := (ParallelShadow_start sampleGlm sampleShaders newDepthMap
    (Machine.start GLState.initial)).2.1
  have hC := (PointShadow_start sampleGlm sampleCubeShaders newCubeDepthMap
    (Machine.start GLState.initial)).1
  have hCs := (PointShadow_start sampleGlm sampleCubeShaders newCubeDepthMap
    (Machine.start GLState.initial)).2
  have h := shadow_map_sampled_in_lighting_pass sampleGlm sampleShaders sampleParallelStart.1
    sampleScene 9 sampleCubeShaders samplePointStart.1 sampleCubeScene ⟨0, 0, 0⟩ 3
    sampleCamera sampleMode sampleParallelStart.2 samplePointStart.2 hP hPs hC hCs
  exact ⟨hP, hPs, hC, hCs, h.1.1, h.1.2.2.2.1.2.2, h.1.2.2.2.2.2.2, h.2.2.2.2.2.2.1⟩


set_option maxRecDepth 8000 in
set_option maxHeartbeats 1000000 in
theorem ParallelShadow_depth_matrices (sh : ParallelShadow.Shaders)
    (dm : ParallelShadow.DepthMap) (scene : ParallelShadow.Scene)
    (lightProjection lightView : mat4) (m : Machine) :
    ∀ mc ∈ trace (newCalls m.gl
        (ParallelShadow.depthPass sh dm scene lightProjection lightView m.gl)) m,
      isDraw mc.2 = true →
        mc.1.gl.currentProgram = sh.simpleDepthShader.id ∧
        assoc (sh.simpleDepthShader.id, "uProjection") mc.1.matUniforms
          = some lightProjection ∧
        assoc (sh.simpleDepthShader.id, "uView") mc.1.matUniforms = some lightView := by
  simp [newCalls, ParallelShadow.depthPass, ParallelShadow.renderScene,
    ParallelShadow.DepthMap.Bind, ParallelShadow.DepthMap.Unbind, Shader.use,
    Shader.setUniformMat4, glBindFramebuffer, glBindVertexArray, GLState.record,
    trace, exec, isDraw, assoc]

set_option maxRecDepth 8000 in
set_option maxHeartbeats 1000000 in
theorem ParallelShadow_lighting_matrix (glm : Glm) (sh : ParallelShadow.Shaders)
    (dm : ParallelShadow.DepthMap) (scene : ParallelShadow.Scene) (woodTexture : Nat)
    (cam : CameraView) (mode : LightingMode) (aspect : ℚ) (lightProjection lightView : mat4)
    (m : Machine) :
    ∀ mc ∈ trace (newCalls m.gl
        (ParallelShadow.lightingPass glm sh dm scene woodTexture cam mode aspect
          lightProjection lightView m.gl)) m,
      isDraw mc.2 = true →
        mc.1.gl.currentProgram = sh.objectShader.id ∧
        assoc (sh.objectShader.id, "uLightSpaceMatrix") mc.1.matUniforms
          = some (lightProjection.mul lightView) := by
  simp [newCalls, ParallelShadow.lightingPass, ParallelShadow.renderScene, setCameraUniforms,
    Shader.use, Shader.setUniformMat4, Shader.setUniformVec3, Shader.setUniformFloat,
    Shader.setUniformBool, glActiveTexture, glBindTexture, glBindVertexArray, GLState.record,
    assoc, trace, exec, isDraw]

set_option maxRecDepth 8000 in
set_option maxHeartbeats 1000000 in
theorem PointShadow_depth_light (glm : Glm) (sh : PointShadow.Shaders)
    (dm : PointShadow.DepthMap) (scene : PointShadow.Scene) (lightPos : vec3) (m : Machine) :
    ∀ mc ∈ trace (newCalls m.gl (PointShadow.depthPassResult glm sh dm scene lightPos m.gl)) m,
      isDraw mc.2 = true →
        mc.1.gl.currentProgram = sh.simpleDepthShader.id ∧
        assoc (sh.simpleDepthShader.id, "uLightPos") mc.1.vecUniforms = some lightPos ∧
        assoc (sh.simpleDepthShader.id, "uFarPlane") mc.1.floatUniforms = some dm.far := by
  simp only [PointShadow.depthPassResult, PointShadow.depthPass, GetTransforms_eq,
    setShadowMatrices_six, Option.getD_some]
  simp [newCalls, PointShadow.renderScene, PointShadow.drawWith,
    PointShadow.DepthMap.Bind, PointShadow.DepthMap.Unbind, Shader.use,
    Shader.setUniformMat4, Shader.setUniformInt, Shader.setUniformVec3,
    Shader.setUniformFloat, glBindFramebuffer, GLState.record,
    trace, exec, isDraw, assoc]

set_option maxRecDepth 8000 in
set_option maxHeartbeats 1000000 in
theorem PointShadow_lighting_light (glm : Glm) (sh : PointShadow.Shaders)
    (dm : PointShadow.DepthMap) (scene : PointShadow.Scene) (cam : CameraView)
    (mode : LightingMode) (aspect : ℚ) (lightPos : vec3) (m : Machine) :
    ∀ mc ∈ trace (newCalls m.gl
        (PointShadow.lightingPass glm sh dm scene cam mode aspect lightPos m.gl)) m,
      isDraw mc.2 = true →
        mc.1.gl.currentProgram = sh.objectShader.id ∧
        assoc (sh.objectShader.id, "uPointLight.position") mc.1.vecUniforms = some lightPos ∧
        assoc (sh.objectShader.id, "uFarPlane") mc.1.floatUniforms = some dm.far := by
  simp [newCalls, PointShadow.lightingPass, PointShadow.renderScene, PointShadow.drawWith,
    PointShadow.depthMapTexUnit, setCameraUniforms,
    Shader.use, Shader.setUniformMat4, Shader.setUniformVec3, Shader.setUniformFloat,
    Shader.setUniformBool, Shader.setUniformInt, glActiveTexture, glBindTexture,
    GLState.record, assoc, trace, exec, isDraw]

set_option maxRecDepth 8000 in
set_option maxHeartbeats 1000000 in
theorem PointShadow_depthPass_gl (glm : Glm) (sh : PointShadow.Shaders)
    (dm : PointShadow.DepthMap) (scene : PointShadow.Scene) (lightPos : vec3) (m : Machine) :
    (m.after (PointShadow.depthPassResult glm sh dm scene lightPos m.gl)).gl
      = PointShadow.depthPassResult glm sh dm scene lightPos m.gl := by
  simp only [PointShadow.depthPassResult, PointShadow.depthPass, GetTransforms_eq,
    setShadowMatrices_six, Option.getD_some]
  simp [Machine.after, newCalls, PointShadow.renderScene, PointShadow.drawWith,
    PointShadow.DepthMap.Bind, PointShadow.DepthMap.Unbind, Shader.use,
    Shader.setUniformMat4, Shader.setUniformInt, Shader.setUniformVec3,
    Shader.setUniformFloat, glBindFramebuffer, GLState.record, run, exec]

set_option maxRecDepth 8000 in
set_option maxHeartbeats 1000000 in
theorem PointShadow_lightingPass_gl (glm : Glm) (sh : PointShadow.Shaders)
    (dm : PointShadow.DepthMap) (scene : PointShadow.Scene) (cam : CameraView)
    (mode : LightingMode) (aspect : ℚ) (lightPos : vec3) (m : Machine) :
    (m.after (PointShadow.lightingPass glm sh dm scene cam mode aspect lightPos m.gl)).gl
      = PointShadow.lightingPass glm sh dm scene cam mode aspect lightPos m.gl := by
  simp [Machine.after, newCalls, PointShadow.lightingPass, PointShadow.renderScene,
    PointShadow.drawWith, PointShadow.depthMapTexUnit, setCameraUniforms,
    Shader.use, Shader.setUniformMat4, Shader.setUniformVec3, Shader.setUniformFloat,
    Shader.setUniformBool, Shader.setUniformInt, glActiveTexture, glBindTexture,
    GLState.record, run, exec]

/-- C13. In every frame of `ParallelShadow.cpp` the light-space matrix given to the lighting
pass (`uLightSpaceMatrix` of `objectShader`) is the product `uProjection * uView` of the
projection and view matrices given to the depth pass (`simpleDepthShader`) of the same frame:
the depth pass sets `uView = lightView` and `uProjection = lightProjection` and makes five
draws, every one with these two values; the lighting pass sets
`uLightSpaceMatrix = lightProjection * lightView` and makes five draws, every one with this
value.  In every frame of `PointShadow.cpp` both passes receive the same light position (the
one with the updated `z`) and the same far plane `depthMap.far`: each pass sets the two
uniforms to these values and makes seven draws, every one with these values. -/
theorem shadow_passes_share_light (glm : Glm)
    (shP : ParallelShadow.Shaders) (dmP : ParallelShadow.DepthMap)
    (sceneP : ParallelShadow.Scene) (woodTexture : Nat)
    (shC : PointShadow.Shaders) (dmC : PointShadow.DepthMap) (sceneC : PointShadow.Scene)
    (lightPos : vec3) (z : ℚ) (cam : CameraView) (mode : LightingMode) (mP mC : Machine) :
    ((ParallelShadow.afterFrame glm shP dmP sceneP woodTexture cam mode mP).gl
        = ParallelShadow.frame glm shP dmP sceneP woodTexture cam mode mP.gl ∧
      ((newCalls (ParallelShadow.atDepthPass mP).gl
            (ParallelShadow.atLightingPass glm shP dmP sceneP mP).gl).filter
          (fun c => isDraw c)
        = [GLCall.glDrawElements GLenum.GL_TRIANGLES sceneP.planeIndexCount
            GLenum.GL_UNSIGNED_INT 0, GLCall.drawObject "cube", GLCall.drawObject "cube",
            GLCall.drawObject "cube", GLCall.drawObject "planet"] ∧
        GLCall.uniformMat4 shP.simpleDepthShader.id "uView" (ParallelShadow.lightMatrices glm).2
          ∈ newCalls (ParallelShadow.atDepthPass mP).gl
            (ParallelShadow.atLightingPass glm shP dmP sceneP mP).gl ∧
        GLCall.uniformMat4 shP.simpleDepthShader.id "uProjection"
            (ParallelShadow.lightMatrices glm).1
          ∈ newCalls (ParallelShadow.atDepthPass mP).gl
            (ParallelShadow.atLightingPass glm shP dmP sceneP mP).gl) ∧
      (∀ mc ∈ trace (newCalls (ParallelShadow.atDepthPass mP).gl
            (ParallelShadow.atLightingPass glm shP dmP sceneP mP).gl)
          (ParallelShadow.atDepthPass mP),
        isDraw mc.2 = true →
          mc.1.gl.currentProgram = shP.simpleDepthShader.id ∧
          assoc (shP.simpleDepthShader.id, "uProjection") mc.1.matUniforms
            = some (ParallelShadow.lightMatrices glm).1 ∧
          assoc (shP.simpleDepthShader.id, "uView") mc.1.matUniforms
            = some (ParallelShadow.lightMatrices glm).2) ∧
      ((newCalls (ParallelShadow.atLightingPass glm shP dmP sceneP mP).gl
            (ParallelShadow.afterFrame glm shP dmP sceneP woodTexture cam mode mP).gl).filter
          (fun c => isDraw c)
        = [GLCall.glDrawElements GLenum.GL_TRIANGLES sceneP.planeIndexCount
            GLenum.GL_UNSIGNED_INT 0, GLCall.drawObject "cube", GLCall.drawObject "cube",
            GLCall.drawObject "cube", GLCall.drawObject "planet"] ∧
        GLCall.uniformMat4 shP.objectShader.id "uLightSpaceMatrix"
            ((ParallelShadow.lightMatrices glm).1.mul (ParallelShadow.lightMatrices glm).2)
          ∈ newCalls (ParallelShadow.atLightingPass glm shP dmP sceneP mP).gl
            (ParallelShadow.afterFrame glm shP dmP sceneP woodTexture cam mode mP).gl) ∧
      (∀ mc ∈ trace (newCalls (ParallelShadow.atLightingPass glm shP dmP sceneP mP).gl
            (ParallelShadow.afterFrame glm shP dmP sceneP woodTexture cam mode mP).gl)
          (ParallelShadow.atLightingPass glm shP dmP sceneP mP),
        isDraw mc.2 = true →
          mc.1.gl.currentProgram = shP.objectShader.id ∧
          assoc (shP.objectShader.id, "uLightSpaceMatrix") mc.1.matUniforms
            = some ((ParallelShadow.lightMatrices glm).1.mul
                (ParallelShadow.lightMatrices glm).2))) ∧
    (PointShadow.frame glm shC dmC sceneC cam mode lightPos z mC.gl
        = some ({ lightPos with z := z },
            (PointShadow.afterFrame glm shC dmC sceneC cam mode { lightPos with z := z }
              mC).gl) ∧
      ((newCalls (PointShadow.atDepthPass mC).gl
            (PointShadow.atLightingPass glm shC dmC sceneC { lightPos with z := z }
              mC).gl).filter (fun c => isDraw c)
        = [GLCall.drawObject "cube", GLCall.drawObject "cube", GLCall.drawObject "cube",
            GLCall.drawObject "cube", GLCall.drawObject "cube", GLCall.drawObject "cube",
            GLCall.drawObject "planet"] ∧
        GLCall.uniformVec3 shC.simpleDepthShader.id "uLightPos" { lightPos with z := z }
          ∈ newCalls (PointShadow.atDepthPass mC).gl
            (PointShadow.atLightingPass glm shC dmC sceneC { lightPos with z := z } mC).gl ∧
        GLCall.uniformFloat shC.simpleDepthShader.id "uFarPlane" dmC.far
          ∈ newCalls (PointShadow.atDepthPass mC).gl
            (PointShadow.atLightingPass glm shC dmC sceneC { lightPos with z := z } mC).gl) ∧
      (∀ mc ∈ trace (newCalls (PointShadow.atDepthPass mC).gl
            (PointShadow.atLightingPass glm shC dmC sceneC { lightPos with z := z } mC).gl)
          (PointShadow.atDepthPass mC),
        isDraw mc.2 = true →
          mc.1.gl.currentProgram = shC.simpleDepthShader.id ∧
          assoc (shC.simpleDepthShader.id, "uLightPos") mc.1.vecUniforms
            = some { lightPos with z := z } ∧
          assoc (shC.simpleDepthShader.id, "uFarPlane") mc.1.floatUniforms = some dmC.far) ∧
      ((newCalls
            (PointShadow.atLightingPass glm shC dmC sceneC { lightPos with z := z } mC).gl
            (PointShadow.afterFrame glm shC dmC sceneC cam mode { lightPos with z := z }
              mC).gl).filter (fun c => isDraw c)
        = [GLCall.drawObject "cube", GLCall.drawObject "cube", GLCall.drawObject "cube",
            GLCall.drawObject "cube", GLCall.drawObject "cube", GLCall.drawObject "cube",
            GLCall.drawObject "planet"] ∧
        GLCall.uniformVec3 shC.objectShader.id "uPointLight.position" { lightPos with z := z }
          ∈ newCalls
            (PointShadow.atLightingPass glm shC dmC sceneC { lightPos with z := z } mC).gl
            (PointShadow.afterFrame glm shC dmC sceneC cam mode { lightPos with z := z }
              mC).gl ∧
        GLCall.uniformFloat shC.objectShader.id "uFarPlane" dmC.far
          ∈ newCalls
            (PointShadow.atLightingPass glm shC dmC sceneC { lightPos with z := z } mC).gl
            (PointShadow.afterFrame glm shC dmC sceneC cam mode { lightPos with z := z }
              mC).gl) ∧
      (∀ mc ∈ trace (newCalls
            (PointShadow.atLightingPass glm shC dmC sceneC { lightPos with z := z } mC).gl
            (PointShadow.afterFrame glm shC dmC sceneC cam mode { lightPos with z := z }
              mC).gl)
          (PointShadow.atLightingPass glm shC dmC sceneC { lightPos with z := z } mC),
        isDraw mc.2 = true →
          mc.1.gl.currentProgram = shC.objectShader.id ∧
          assoc (shC.objectShader.id, "uPointLight.position") mc.1.vecUniforms
            = some { lightPos with z := z } ∧
          assoc (shC.objectShader.id, "uFarPlane") mc.1.floatUniforms = some dmC.far)) := by
  constructor
  · obtain ⟨h1g, -, -⟩ := ParallelShadow_atDepthPass mP
    obtain ⟨h2g, -, -⟩ := ParallelShadow_depthPass_after shP dmP sceneP
      (ParallelShadow.lightMatrices glm).1 (ParallelShadow.lightMatrices glm).2
      (ParallelShadow.atDepthPass mP)
    obtain ⟨h3g, -, -⟩ := ParallelShadow_lightingPass_after glm shP dmP sceneP woodTexture
      cam mode ParallelShadow.aspect (ParallelShadow.lightMatrices glm).1
      (ParallelShadow.lightMatrices glm).2 (ParallelShadow.atLightingPass glm shP dmP sceneP mP)
    refine ⟨?_, ?_, ?_, ?_, ?_⟩
    · unfold ParallelShadow.afterFrame
      rw [h3g]
      unfold ParallelShadow.atLightingPass
      rw [h2g, h1g]
      rfl
    · have := ParallelShadow_depthPass_calls shP dmP sceneP (ParallelShadow.lightMatrices glm).1
        (ParallelShadow.lightMatrices glm).2 (ParallelShadow.atDepthPass mP).gl
      unfold ParallelShadow.atLightingPass
      rw [h2g]
      exact ⟨this.1, this.2.2.1, this.2.2.2⟩
    · have := ParallelShadow_depth_matrices shP dmP sceneP (ParallelShadow.lightMatrices glm).1
        (ParallelShadow.lightMatrices glm).2 (ParallelShadow.atDepthPass mP)
      unfold ParallelShadow.atLightingPass
      rw [h2g]
      exact this
    · have := ParallelShadow_lightingPass_calls glm shP dmP sceneP woodTexture cam mode
        ParallelShadow.aspect (ParallelShadow.lightMatrices glm).1
        (ParallelShadow.lightMatrices glm).2
        (ParallelShadow.atLightingPass glm shP dmP sceneP mP).gl
      unfold ParallelShadow.afterFrame
      rw [h3g]
      exact ⟨this.1, this.2.2.2⟩
    · have := ParallelShadow_lighting_matrix glm shP dmP sceneP woodTexture cam mode
        ParallelShadow.aspect (ParallelShadow.lightMatrices glm).1
        (ParallelShadow.lightMatrices glm).2
        (ParallelShadow.atLightingPass glm shP dmP sceneP mP)
      unfold ParallelShadow.afterFrame
      rw [h3g]
      exact this
  · obtain ⟨h1g, -, -⟩ := PointShadow_atDepthPass mC
    have h2g := PointShadow_depthPass_gl glm shC dmC sceneC { lightPos with z := z }
      (PointShadow.atDepthPass mC)
    have h3g := PointShadow_lightingPass_gl glm shC dmC sceneC cam mode PointShadow.aspect
      { lightPos with z := z }
      (PointShadow.atLightingPass glm shC dmC sceneC { lightPos with z := z } mC)
    refine ⟨?_, ?_, ?_, ?_, ?_⟩
    · unfold PointShadow.afterFrame
      rw [h3g]
      unfold PointShadow.atLightingPass
      rw [h2g, h1g]
      unfold PointShadow.frame
      simp only [PointShadow_depthPass_some]
      rfl
    · have := PointShadow_depthPass_calls glm shC dmC sceneC { lightPos with z := z }
        (PointShadow.atDepthPass mC).gl
      unfold PointShadow.atLightingPass
      rw [h2g]
      exact ⟨this.1, this.2.2.1, this.2.2.2⟩
    · have := PointShadow_depth_light glm shC dmC sceneC { lightPos with z := z }
        (PointShadow.atDepthPass mC)
      unfold PointShadow.atLightingPass
      rw [h2g]
      exact this
    · have := PointShadow_lightingPass_calls glm shC dmC sceneC cam mode PointShadow.aspect
        { lightPos with z := z }
        (PointShadow.atLightingPass glm shC dmC sceneC { lightPos with z := z } mC).gl
      unfold PointShadow.afterFrame
      rw [h3g]
      exact ⟨this.1, this.2.2.2.1, this.2.2.2.2⟩
    · have := PointShadow_lighting_light glm shC dmC sceneC cam mode PointShadow.aspect
        { lightPos with z := z }
        (PointShadow.atLightingPass glm shC dmC sceneC { lightPos with z := z } mC)
      unfold PointShadow.afterFrame
      rw [h3g]
      exact this

/-! ## The cube-map view directions -/

/-- C21, counterexample. At the light position `(16777216, 0, 0)` the `float` sum
`lightPos + (1, 0, 0)` is `lightPos` again (`2 ^ 24 + 1` is a tie and rounds to `2 ^ 24`): the
first `glm::lookAt` call of `GetTransforms` gets `center = eye`, the view direction is the zero
vector and so is its cross product with `up`. -/
theorem GetTransforms_center_equals_eye :
    (PointShadow.DepthMap.lookAtArguments ⟨16777216, 0, 0⟩)[0]?
      = some (⟨16777216, 0, 0⟩, ⟨16777216, 0, 0⟩, ⟨0, -1, 0⟩) ∧
    ∃ a ∈ PointShadow.DepthMap.lookAtArguments ⟨16777216, 0, 0⟩,
      a.2.1 = a.1 ∧ a.2.1.sub a.1 = ⟨0, 0, 0⟩ ∧ (a.2.1.sub a.1).cross a.2.2 = ⟨0, 0, 0⟩ := by
  have hf0 : toFloat 0 = 0 := roundTo_zero 24 (-126)
  have e : (⟨16777216, 0, 0⟩ : vec3).fadd ⟨1, 0, 0⟩ = ⟨16777216, 0, 0⟩ := by
    simp only [vec3.fadd, add_zero, hf0]
    norm_num [toFloat_tie]
  refine ⟨?_, (⟨16777216, 0, 0⟩, ⟨16777216, 0, 0⟩, ⟨0, -1, 0⟩), ?_, rfl, ?_, ?_⟩
  · simp [PointShadow.DepthMap.lookAtArguments, e]
  · simp [PointShadow.DepthMap.lookAtArguments, e]
  · simp [vec3.sub]
  · simp [vec3.sub, vec3.cross]

/-- C21. The cube-map view matrices of `DepthMap::GetTransforms` are well defined for a light
position whose coordinates are `float` values below `2 ^ 24 - 1` in magnitude: the six
matrices are built by `glm::lookAt` from six argument triples `(eye, center, up)`, `center`
being the `float` sum `lightPos + d_i`; for each of them the eye is the light position, the
view direction `center - eye` is `t * d_i` with `1/2 <= t <= 3/2` and `d_i` the unit axis
vector of the face (`+X`, `-X`, `+Y`, `-Y`, `+Z`, `-Z`), `up` is a unit axis vector with
`d_i . up = 0` and `(center - eye) . up = 0`, neither vector is a multiple of the other, and
the cross product `(center - eye) x up` that `lookAt` normalizes is not the zero vector. -/
theorem GetTransforms_up_orthogonal (glm : Glm) (self : PointShadow.DepthMap) (p : vec3)
    (hx : toFloat p.x = p.x) (hy : toFloat p.y = p.y) (hz : toFloat p.z = p.z)
    (bx : |p.x| < 2 ^ 24 - 1) (bY : |p.y| < 2 ^ 24 - 1) (bz : |p.z| < 2 ^ 24 - 1) :
    self.GetTransforms glm p
      = (PointShadow.DepthMap.lookAtArguments p).map (fun a =>
          (glm.perspective (glm.radians 90) 1 self.near self.far).mul
            (glm.lookAt a.1 a.2.1 a.2.2)) ∧
    (∃ t0 t1 t2 t3 t4 t5 : ℚ,
      (∀ t ∈ [t0, t1, t2, t3, t4, t5], 1 / 2 ≤ t ∧ t ≤ 3 / 2) ∧
      (PointShadow.DepthMap.lookAtArguments p).map (fun a => a.2.1.sub a.1)
        = [vec3.smul t0 (PointShadow.cubeFaceDirection 0),
           vec3.smul t1 (PointShadow.cubeFaceDirection 1),
           vec3.smul t2 (PointShadow.cubeFaceDirection 2),
           vec3.smul t3 (PointShadow.cubeFaceDirection 3),
           vec3.smul t4 (PointShadow.cubeFaceDirection 4),
           vec3.smul t5 (PointShadow.cubeFaceDirection 5)]) ∧
    (PointShadow.DepthMap.lookAtArguments p).map (fun a => a.2.2)
      = (List.range 6).map PointShadow.cubeFaceUp ∧
    (∀ i ∈ List.range 6,
      PointShadow.cubeFaceDirection i ∈ unitAxes ∧
      (PointShadow.cubeFaceDirection i).dot (PointShadow.cubeFaceUp i) = 0) ∧
    (∀ a ∈ PointShadow.DepthMap.lookAtArguments p,
      a.1 = p ∧
      a.2.2 ∈ unitAxes ∧
      a.2.2.dot a.2.2 = 1 ∧
      (a.2.1.sub a.1).dot a.2.2 = 0 ∧
      (∀ k : ℚ, vec3.smul k (a.2.1.sub a.1) ≠ a.2.2) ∧
      (∀ k : ℚ, vec3.smul k a.2.2 ≠ a.2.1.sub a.1) ∧
      (a.2.1.sub a.1).cross a.2.2 ≠ ⟨0, 0, 0⟩) := by
  obtain ⟨x1, x2⟩ := toFloat_add_one p.x bx
  obtain ⟨x3, x4⟩ := toFloat_add_neg_one p.x bx
  obtain ⟨y1, y2⟩ := toFloat_add_one p.y bY
  obtain ⟨y3, y4⟩ := toFloat_add_neg_one p.y bY
  obtain ⟨z1, z2⟩ := toFloat_add_one p.z bz
  obtain ⟨z3, z4⟩ := toFloat_add_neg_one p.z bz
  refine ⟨rfl, ?_, ?_, ?_, ?_⟩
  · refine ⟨toFloat (p.x + 1) - p.x, p.x - toFloat (p.x + -1), toFloat (p.y + 1) - p.y,
      p.y - toFloat (p.y + -1), toFloat (p.z + 1) - p.z, p.z - toFloat (p.z + -1), ?_, ?_⟩
    · intro t ht
      simp only [List.mem_cons, List.mem_singleton, List.not_mem_nil, or_false] at ht
      rcases ht with h | h | h | h | h | h <;> subst h <;> constructor <;> assumption
    · simp [PointShadow.DepthMap.lookAtArguments, PointShadow.cubeFaceDirection, vec3.sub,
        vec3.fadd, vec3.smul, hx, hy, hz]
  · simp [PointShadow.DepthMap.lookAtArguments, PointShadow.cubeFaceUp, List.range_succ]
  · intro i hi
    rw [List.mem_range] at hi
    interval_cases i <;>
      simp [PointShadow.cubeFaceDirection, PointShadow.cubeFaceUp, unitAxes, vec3.dot]
  · intro a ha
    simp only [PointShadow.DepthMap.lookAtArguments, List.mem_cons, List.mem_singleton,
      List.not_mem_nil, or_false] at ha
    rcases ha with h | h | h | h | h | h <;> subst h <;>
      simp [vec3.sub, vec3.fadd, vec3.dot, vec3.cross, vec3.smul, unitAxes, hx, hy, hz] <;>
      first
        | linarith
        | (constructor <;> intro h <;> linarith)

theorem GetTransforms_up_orthogonal_witness :
    (toFloat 0 = 0 ∧ toFloat 3 = 3 ∧ |(0 : ℚ)| < 2 ^ 24 - 1 ∧ |(3 : ℚ)| < 2 ^ 24 - 1) ∧
    ∀ a ∈ PointShadow.DepthMap.lookAtArguments ⟨0, 0, 3⟩,
      (a.2.1.sub a.1).dot a.2.2 = 0 ∧ (a.2.1.sub a.1).cross a.2.2 ≠ ⟨0, 0, 0⟩ := by
  have h0 : toFloat 0 = 0 := roundTo_zero 24 (-126)
  have h3 : toFloat 3 = 3 := by simpa using toFloat_intCast 3 (by norm_num)
  have b0 : |(0 : ℚ)| < 2 ^ 24 - 1 := by norm_num
  have b3 : |(3 : ℚ)| < 2 ^ 24 - 1 := by rw [abs_of_pos (by norm_num)]; norm_num
  have h := GetTransforms_up_orthogonal sampleGlm newCubeDepthMap ⟨0, 0, 3⟩ h0 h0 h3 b0 b0 b3
  exact ⟨⟨h0, h3, b0, b3⟩, fun a ha => ⟨(h.2.2.2.2 a ha).2.2.2.1, (h.2.2.2.2 a ha).2.2.2.2.2.2⟩⟩

/-! ## The winding of the skybox -/

/-- C27. All twelve triangles of the skybox have the same winding: for every triangle
`(a, b, c)` of `skyboxElements`, with the positions taken from `skyboxVertices`, the normal
`(b - a) x (c - a)` has a strictly positive dot product with `a`, so it points away from the
centre of the cube. -/
theorem skybox_winding_outward :
    skyboxTriangles.length = 12 ∧
    ∀ t ∈ skyboxTriangles,
      0 < (triangleNormal (skyboxVertex t.1) (skyboxVertex t.2.1) (skyboxVertex t.2.2)).dot
        (skyboxVertex t.1) := by
  refine ⟨rfl, ?_⟩
  intro t ht
  simp only [skyboxTriangles, skyboxElements, triples, List.mem_cons, List.mem_singleton,
    List.not_mem_nil, or_false] at ht
  rcases ht with h | h | h | h | h | h | h | h | h | h | h | h <;> subst h <;>
    norm_num [triangleNormal, skyboxVertex, skyboxPositions, skyboxVertices, triples,
      vec3.sub, vec3.cross, vec3.dot, List.getD]

/-! ## The clamped lighting parameters -/

/-- The step of `use_gamma` in a frame with `=` held down, as `processInput` computes it. -/
theorem processInput_equalKey (a : LightingMode) (b : ParallaxMapping.Lighting) :
    (ParallaxMapping.processInput equalKey b).use_gamma
      = (if b.use_gamma ≥ 4.0 then 4.0 else toFloat (b.use_gamma + toFloat 0.01)) ∧
    (ParallelShadow.processInput equalKey a).use_gamma
      = (if a.use_gamma ≥ 4.0 then 4.0 else toFloat (a.use_gamma + toFloat 0.01)) ∧
    (PointShadow.processInput equalKey a).use_gamma
      = (if a.use_gamma ≥ 4.0 then 4.0 else toFloat (a.use_gamma + toFloat 0.01)) :=
  ⟨rfl, rfl, rfl⟩

/-- While `use_gamma` is below `4.0f`, `n` steps of `0.01f` from `a / 2 ^ 22` in the binade
`[2, 4)` lead to `(a + 41943 n) / 2 ^ 22`: each sum is rounded down by `10 / 256` of a unit
in the last place. -/
theorem gamma_steps (n : Nat) (a : Int) (h1 : 8388608 ≤ a)
    (h2 : a + 41943 * n < 16777216) :
    (fun v : ℚ => if v ≥ 4.0 then 4.0 else toFloat (v + toFloat 0.01))^[n]
        ((a : ℚ) / 4194304)
      = ((a + 41943 * n : Int) : ℚ) / 4194304 := by
  induction n generalizing a with
  | zero => simp
  | succ n ih =>
    have h3 : a + 41943 < 16777216 := by push_cast at h2; omega
    have hlt : ¬ ((a : ℚ) / 4194304 ≥ 4.0) := by
      have : (a : ℚ) < 16777216 := by exact_mod_cast (by omega : a < 16777216)
      rw [not_le]
      norm_num
      linarith
    rw [Function.iterate_succ_apply]
    simp only [if_neg hlt]
    rw [toFloat_step_up a h1 h3, ih (a + 41943) (by omega) (by push_cast at h2 ⊢; omega)]
    push_cast
    ring

/-- The value of `use_gamma` after a run of frames with `=` held down is the iterated step. -/
theorem runInput_equalKey (n : Nat) (a : LightingMode) (b : ParallaxMapping.Lighting) :
    (ParallaxMapping.runInput (List.replicate n equalKey) b).use_gamma
      = (fun v : ℚ => if v ≥ 4.0 then 4.0 else toFloat (v + toFloat 0.01))^[n] b.use_gamma ∧
    (ParallelShadow.runInput (List.replicate n equalKey) a).use_gamma
      = (fun v : ℚ => if v ≥ 4.0 then 4.0 else toFloat (v + toFloat 0.01))^[n] a.use_gamma ∧
    (PointShadow.runInput (List.replicate n equalKey) a).use_gamma
      = (fun v : ℚ => if v ≥ 4.0 then 4.0 else toFloat (v + toFloat 0.01))^[n] a.use_gamma := by
  induction n generalizing a b with
  | zero => exact ⟨rfl, rfl, rfl⟩
  | succ n ih =>
    have h := ih (ParallelShadow.processInput equalKey a) (ParallaxMapping.processInput equalKey b)
    have h' := ih (PointShadow.processInput equalKey a) (ParallaxMapping.processInput equalKey b)
    refine ⟨?_, ?_, ?_⟩
    · rw [Function.iterate_succ_apply, ← (processInput_equalKey a b).1, ← h.1]
      rfl
    · rw [Function.iterate_succ_apply, ← (processInput_equalKey a b).2.1, ← h.2.1]
      rfl
    · rw [Function.iterate_succ_apply, ← (processInput_equalKey a b).2.2, ← h'.2.2]
      rfl

/-- The value of `use_gamma` after 181 steps of `0.01f` from `2.2f`. -/
theorem gamma_after_181 :
    (fun v : ℚ => if v ≥ 4.0 then 4.0 else toFloat (v + toFloat 0.01))^[181] (toFloat 2.2)
      = 8409576 / 2097152 := by
  have h := gamma_steps 180 9227469 (by norm_num) (by norm_num)
  have e : (9227469 : ℚ) / 4194304 = ((9227469 : Int) : ℚ) / 4194304 := by norm_num
  rw [show (181 : Nat) = 1 + 180 from rfl, Function.iterate_add_apply, toFloat_gamma, e, h]
  have hlt : ¬ (((9227469 + 41943 * (180 : Nat) : Int) : ℚ) / 4194304 ≥ 4.0) := by
    rw [not_le]
    norm_num
  simp only [Function.iterate_one, if_neg hlt]
  have e2 : ((9227469 + 41943 * (180 : Nat) : Int) : ℚ) / 4194304 = 16777209 / 4194304 := by
    norm_num
  rw [e2, toFloat_step_last]

/-- C24. The clamp of `use_gamma` does not keep it inside its interval: `processInput` tests
`use_gamma >= 4.0f` before it adds `0.01f`, and the `float` values reached from `2.2f` are not
multiples of one hundredth.  After 181 frames with `=` held down, in `ParallaxMapping.cpp`,
`ParallelShadow.cpp` and `PointShadow.cpp` alike, `use_gamma` is `8409576 / 2 ^ 21`, about
`4.0099983`, which is above `4.0`. -/
theorem use_gamma_exceeds_clamp :
    (ParallaxMapping.runInput (List.replicate 181 equalKey)
        ParallaxMapping.Lighting.initial).use_gamma = 8409576 / 2097152 ∧
    (ParallelShadow.runInput (List.replicate 181 equalKey) LightingMode.initial).use_gamma
      = 8409576 / 2097152 ∧
    (PointShadow.runInput (List.replicate 181 equalKey) LightingMode.initial).use_gamma
      = 8409576 / 2097152 ∧
    ¬ ((ParallaxMapping.runInput (List.replicate 181 equalKey)
        ParallaxMapping.Lighting.initial).use_gamma ≤ 4.0) ∧
    ¬ ((ParallelShadow.runInput (List.replicate 181 equalKey) LightingMode.initial).use_gamma
      ≤ 4.0) ∧
    ¬ ((PointShadow.runInput (List.replicate 181 equalKey) LightingMode.initial).use_gamma
      ≤ 4.0) := by
  have h := runInput_equalKey 181 LightingMode.initial ParallaxMapping.Lighting.initial
  have e1 : ParallaxMapping.Lighting.initial.use_gamma = toFloat 2.2 := rfl
  have e2 : LightingMode.initial.use_gamma = toFloat 2.2 := rfl
  rw [e1, e2, gamma_after_181] at h
  obtain ⟨h1, h2, h3⟩ := h
  rw [h1, h2, h3]
  norm_num

/-! ## The tangent-space utility: reading and consuming the input -/

/-- The loop of `readvals` on a stream without `failbit`, whose `eofbit` is set only when no
value is left: it appends the values left and one more element. -/
theorem readvalsLoop_result (uninit : Nat → ℚ) (vals : List ℚ) (tr eof : Bool)
    (data : List ℚ) (fuel : Nat) (heof : eof = true → vals = [])
    (hfuel : vals.length + 1 < fuel) :
    readvalsLoop uninit fuel ⟨vals, tr, eof, false⟩ data
      = some (data ++ vals ++ [uninit (data.length + vals.length)]) := by
  induction vals generalizing data fuel eof with
  | nil =>
    obtain ⟨f, rfl⟩ : ∃ f, fuel = f + 2 := ⟨fuel - 2, by simp at hfuel; omega⟩
    cases eof <;> simp [readvalsLoop, IStream.ok, IStream.extract, IStream.good]
  | cons v vs ih =>
    obtain ⟨f, rfl⟩ : ∃ f, fuel = f + 1 := ⟨fuel - 1, by omega⟩
    have he : eof = false := by
      cases eof
      · rfl
      · exact absurd (heof rfl) (by simp)
    subst he
    have h := ih (vs.isEmpty && !tr) (data ++ [v]) f
      (by
        intro h
        simp only [Bool.and_eq_true, List.isEmpty_iff] at h
        exact h.1)
      (by simp only [List.length_cons] at hfuel; omega)
    simp only [readvalsLoop, IStream.ok, IStream.extract, IStream.good, Bool.not_false,
      Bool.and_self, Bool.not_true, if_true, Bool.false_eq_true, if_false]
    rw [h]
    simp [Nat.add_assoc, Nat.add_comm 1]

/-- C22. For every file that can be opened and holds exactly `n` whitespace-separated floats
(`n >= 0`, with or without white space after the last one), `readvals` returns, having
appended to `data` the `n` values in file order followed by exactly one extra element, the
value the local `coord` happens to hold in the iteration whose extraction fails at the end of
the input; so `data` grows by `n + 1` elements.  For a file that cannot be opened, `data` is
left unchanged. -/
theorem readvals_appends_one_extra (fs : String → Option FloatFile) (uninit : Nat → ℚ)
    (filename : String) (data : List ℚ) (f : FloatFile) (fuel : Nat)
    (hopen : fs filename = some f) (hfuel : f.values.length + 1 < fuel) :
    readvals fs uninit fuel filename data
      = some (data ++ f.values ++ [uninit (data.length + f.values.length)]) ∧
    (∀ r, readvals fs uninit fuel filename data = some r →
      r.length = data.length + f.values.length + 1 ∧
      r.take data.length = data ∧
      (r.drop data.length).take f.values.length = f.values) ∧
    (∀ fs' fuel', fs' filename = none →
      readvals fs' uninit fuel' filename data = some data) := by
  have h : readvals fs uninit fuel filename data
      = some (data ++ f.values ++ [uninit (data.length + f.values.length)]) := by
    simp only [readvals, hopen, IStream.opened]
    exact readvalsLoop_result uninit f.values f.trailingSpace false data fuel (by simp) hfuel
  refine ⟨h, ?_, ?_⟩
  · intro r hr
    rw [h] at hr
    injection hr with hr
    subst hr
    simp [List.append_assoc]
    omega
  · intro fs' fuel' hnone
    simp [readvals, hnone]

theorem readvals_appends_one_extra_witness :
    readvals (fun _ => some sampleFile) (fun _ => 0) 23 "quad.txt" []
      = some ([] ++ sampleFile.values ++ [(fun _ => 0) (([] : List ℚ).length
          + sampleFile.values.length)]) ∧
    (∀ r, readvals (fun _ => some sampleFile) (fun _ => 0) 23 "quad.txt" [] = some r →
      r.length = ([] : List ℚ).length + sampleFile.values.length + 1 ∧
      r.take ([] : List ℚ).length = [] ∧
      (r.drop ([] : List ℚ).length).take sampleFile.values.length = sampleFile.values) ∧
    (∀ fs' fuel', fs' "quad.txt" = none →
      readvals fs' (fun _ => 0) fuel' "quad.txt" [] = some []) :=
  readvals_appends_one_extra (fun _ => some sampleFile) (fun _ => 0) "quad.txt" [] sampleFile 23
    rfl (by decide)

/-- The loop of `main` in closed form. -/
theorem mainLoop_eq (data : List ℚ) :
    Tangent.mainLoop data
      = ((List.range (data.length / 20)).map (fun k => data.drop (20 * k)),
          data.drop (20 * (data.length / 20))) := by
  generalize h : data.length = n
  induction n using Nat.strong_induction_on generalizing data with
  | _ n ih =>
    rw [Tangent.mainLoop]
    by_cases hlen : 20 ≤ data.length
    · rw [if_pos hlen]
      have hd : (data.drop 20).length = n - 20 := by rw [List.length_drop, h]
      have := ih (n - 20) (by omega) (data.drop 20) hd
      simp only [this]
      have hq : n / 20 = (n - 20) / 20 + 1 := by omega
      rw [hq, List.range_succ_eq_map]
      simp [List.drop_drop, Function.comp, Nat.mul_add, Nat.add_comm]
    · rw [if_neg hlen]
      have : n / 20 = 0 := by omega
      simp [this]

/-- C23. For every vector `data` of `m` values that `readvals` left, the loop of `main` of
`tangent.cpp` terminates, calls `calc_tangent_space` exactly `floor(m / 20)` times, the `k`-th
call (counting from `0`) receiving `data` without its first `20 k` values, so that its indices
`0 .. 19` hold the values at positions `20 k .. 20 k + 19` of the original data and are in
bounds (the call does not return early), and leaves `m mod 20` values, fewer than `20`, in
`data`. -/
theorem mainLoop_quads (normalize : vec3 → vec3) (data : List ℚ) :
    (Tangent.mainLoop data).1.length = data.length / 20 ∧
    (Tangent.mainLoop data).2.length = data.length % 20 ∧
    (Tangent.mainLoop data).2.length < 20 ∧
    (Tangent.mainLoop data).2 = data.drop (20 * (data.length / 20)) ∧
    (∀ k, k < data.length / 20 →
      (Tangent.mainLoop data).1[k]? = some (data.drop (20 * k)) ∧
      20 ≤ (data.drop (20 * k)).length ∧
      (∀ j, j < 20 →
        j < (data.drop (20 * k)).length ∧
        20 * k + j < data.length ∧
        (data.drop (20 * k))[j]? = data[20 * k + j]? ∧
        dataAt (data.drop (20 * k)) j = dataAt data (20 * k + j)) ∧
      (calc_tangent_space normalize (data.drop (20 * k))).isSome = true) := by
  rw [mainLoop_eq]
  refine ⟨by simp, ?_, ?_, rfl, ?_⟩
  · simp only [List.length_drop]
    omega
  · simp only [List.length_drop]
    omega
  · intro k hk
    have hlen : 20 ≤ (data.drop (20 * k)).length := by
      rw [List.length_drop]
      have := Nat.div_mul_le_self data.length 20
      have : (k + 1) * 20 ≤ data.length / 20 * 20 := Nat.mul_le_mul_right 20 hk
      omega
    refine ⟨by simp [hk], hlen, ?_, ?_⟩
    · intro j hj
      rw [List.length_drop] at hlen
      refine ⟨by rw [List.length_drop]; omega, by omega, ?_, ?_⟩
      · simp [List.getElem?_drop]
      · simp [dataAt, List.getD, List.getElem?_drop]
    · have hnot : ¬ (data.drop (20 * k)).length < 20 := by omega
      unfold calc_tangent_space
      rw [if_neg hnot]
      rfl

/-! ## The sampler unit of the skybox -/

/-- A lookup is not affected by removing the entries of another key. -/
theorem assoc_filter_ne {κ β : Type} [DecidableEq κ] (k k' : κ) (l : List (κ × β))
    (h : k ≠ k') : assoc k (l.filter (fun b => !decide (b.1 = k'))) = assoc k l := by
  induction l with
  | nil => rfl
  | cons a l ih =>
    obtain ⟨a1, a2⟩ := a
    by_cases h1 : a1 = k'
    · have h2 : ¬ a1 = k := fun e => h (e ▸ h1)
      rw [List.filter_cons]
      simp only [h1, decide_True, Bool.not_true, Bool.false_eq_true, if_false]
      rw [ih]
      simp [assoc, Ne.symm h]
    · rw [List.filter_cons]
      simp only [h1, decide_False, Bool.not_false, if_true]
      by_cases h2 : a1 = k
      · simp [assoc, h2]
      · simp [assoc, h2, ih]

/-- In `Skybox::Draw`, for every skybox, shader and graphics state, when `glDrawElements` is
issued the sampler uniform `uSkybox` of the shader holds `0`, while the cube map `tid` has been
bound on the active unit `texture_skybox_index`; on unit `0` the cube-map binding is the one
from before the call. -/
theorem Skybox_Draw_sampler_state (self : Skybox) (shader : Shader) (view projection : mat4)
    (m : Machine) :
    ∀ mc ∈ trace (newCalls m.gl (self.Draw shader view projection m.gl)) m,
      isDraw mc.2 = true →
        assoc (shader.id, "uSkybox") mc.1.intUniforms = some 0 ∧
        mc.1.gl.activeTexture = texture_skybox_index ∧
        mc.1.gl.textureAt texture_skybox_index GLenum.GL_TEXTURE_CUBE_MAP = self.tid ∧
        mc.1.gl.textureAt 0 GLenum.GL_TEXTURE_CUBE_MAP
          = m.gl.textureAt 0 GLenum.GL_TEXTURE_CUBE_MAP := by
  rw [Skybox_Draw_calls]
  intro mc hmc hdraw
  simp only [trace, List.mem_cons, List.mem_singleton, List.not_mem_nil, or_false] at hmc
  rcases hmc with h | h | h | h | h | h | h | h | h | h | h | h | h | h <;>
    subst h <;> first
      | (simp [isDraw] at hdraw; done)
      | (simp [exec, glDepthMask, glDepthFunc, glBindVertexArray, glActiveTexture,
          glBindTexture, GLState.record, GLState.textureAt, assoc, texture_skybox_index,
          assoc_filter_ne])

/-! ## Face culling in `ParallelShadow.cpp` -/

/-- The draws of a sequence of calls are all made in the culling state `k0` when the culling
states of its draws, in order, are copies of `k0`. -/
theorem culling_of_draws (calls : List GLCall) (k k0 : Culling) (n : Nat)
    (h : ((Culling.trace calls k).filter (fun kc => isDraw kc.2)).map (fun kc => kc.1)
      = List.replicate n k0) :
    ∀ kc ∈ Culling.trace calls k, isDraw kc.2 = true → kc.1 = k0 := by
  intro kc hkc hd
  have hm : kc.1 ∈ ((Culling.trace calls k).filter (fun kc => isDraw kc.2)).map
      (fun kc => kc.1) :=
    List.mem_map_of_mem _ (List.mem_filter.mpr ⟨hkc, hd⟩)
  rw [h] at hm
  exact (List.mem_replicate.mp hm).2

theorem ParallelShadow_depthPass_culling (sh : ParallelShadow.Shaders)
    (dm : ParallelShadow.DepthMap) (scene : ParallelShadow.Scene)
    (lightProjection lightView : mat4) (s : GLState) (k : Culling) :
    ((Culling.trace (newCalls s
        (ParallelShadow.depthPass sh dm scene lightProjection lightView
          (ParallelShadow.beforeDepthPass s))) k).filter
      (fun kc => isDraw kc.2)).map (fun kc => kc.1)
      = List.replicate 5 ⟨k.enabled, GLenum.GL_FRONT⟩ ∧
    Culling.run (newCalls s
        (ParallelShadow.depthPass sh dm scene lightProjection lightView
          (ParallelShadow.beforeDepthPass s))) k = ⟨k.enabled, GLenum.GL_BACK⟩ := by
  simp [newCalls, ParallelShadow.depthPass, ParallelShadow.beforeDepthPass,
    ParallelShadow.renderScene, ParallelShadow.DepthMap.Bind, ParallelShadow.DepthMap.Unbind,
    Shader.use, Shader.setUniformMat4, glBindFramebuffer, glBindVertexArray, GLState.record,
    Culling.trace, Culling.run, Culling.exec, isDraw, List.replicate]

theorem ParallelShadow_lightingPass_culling (glm : Glm) (sh : ParallelShadow.Shaders)
    (dm : ParallelShadow.DepthMap) (scene : ParallelShadow.Scene) (woodTexture : Nat)
    (cam : CameraView) (mode : LightingMode) (aspect : ℚ) (lightProjection lightView : mat4)
    (s : GLState) (k : Culling) :
    ((Culling.trace (newCalls s
        (ParallelShadow.lightingPass glm sh dm scene woodTexture cam mode aspect
          lightProjection lightView s)) k).filter
      (fun kc => isDraw kc.2)).map (fun kc => kc.1) = List.replicate 5 k ∧
    Culling.run (newCalls s
        (ParallelShadow.lightingPass glm sh dm scene woodTexture cam mode aspect
          lightProjection lightView s)) k = k := by
  simp [newCalls, ParallelShadow.lightingPass, ParallelShadow.renderScene, setCameraUniforms,
    Shader.use, Shader.setUniformMat4, Shader.setUniformVec3, Shader.setUniformFloat,
    Shader.setUniformBool, glActiveTexture, glBindTexture, glBindVertexArray, GLState.record,
    Culling.trace, Culling.run, Culling.exec, isDraw, List.replicate]

/-- No call of a frame of `ParallelShadow.cpp` enables or disables face culling: in whatever
culling state `k` a frame begins, the five draws of the depth pass are made with cull mode
`GL_FRONT` and the five draws of the lighting pass with cull mode `GL_BACK`, with
`GL_CULL_FACE` enabled exactly if it was enabled in `k`, and the frame ends with the enabled
flag of `k` and mode `GL_BACK`. -/
theorem ParallelShadow_frame_culling (glm : Glm)
    (sh : ParallelShadow.Shaders) (dm : ParallelShadow.DepthMap) (scene : ParallelShadow.Scene)
    (woodTexture : Nat) (cam : CameraView) (mode : LightingMode) (s : GLState) (k : Culling) :
    ParallelShadow.frame glm sh dm scene woodTexture cam mode s
      = ParallelShadow.lightingPass glm sh dm scene woodTexture cam mode ParallelShadow.aspect
          (ParallelShadow.lightMatrices glm).1 (ParallelShadow.lightMatrices glm).2
          (ParallelShadow.depthPass sh dm scene (ParallelShadow.lightMatrices glm).1
            (ParallelShadow.lightMatrices glm).2 (ParallelShadow.beforeDepthPass s)) ∧
    (∀ kc ∈ Culling.trace (newCalls s
          (ParallelShadow.depthPass sh dm scene (ParallelShadow.lightMatrices glm).1
            (ParallelShadow.lightMatrices glm).2 (ParallelShadow.beforeDepthPass s))) k,
      isDraw kc.2 = true → kc.1 = { enabled := k.enabled, mode := GLenum.GL_FRONT }) ∧
    ((newCalls s
        (ParallelShadow.depthPass sh dm scene (ParallelShadow.lightMatrices glm).1
          (ParallelShadow.lightMatrices glm).2 (ParallelShadow.beforeDepthPass s))).filter
      isDraw).length = 5 ∧
    Culling.run (newCalls s
        (ParallelShadow.depthPass sh dm scene (ParallelShadow.lightMatrices glm).1
          (ParallelShadow.lightMatrices glm).2 (ParallelShadow.beforeDepthPass s))) k
      = { enabled := k.enabled, mode := GLenum.GL_BACK } ∧
    (∀ kc ∈ Culling.trace (newCalls
          (ParallelShadow.depthPass sh dm scene (ParallelShadow.lightMatrices glm).1
            (ParallelShadow.lightMatrices glm).2 (ParallelShadow.beforeDepthPass s))
          (ParallelShadow.frame glm sh dm scene woodTexture cam mode s))
        { enabled := k.enabled, mode := GLenum.GL_BACK },
      isDraw kc.2 = true → kc.1 = { enabled := k.enabled, mode := GLenum.GL_BACK }) ∧
    ((newCalls
        (ParallelShadow.depthPass sh dm scene (ParallelShadow.lightMatrices glm).1
          (ParallelShadow.lightMatrices glm).2 (ParallelShadow.beforeDepthPass s))
        (ParallelShadow.frame glm sh dm scene woodTexture cam mode s)).filter
      isDraw).length = 5 ∧
    Culling.run (newCalls
        (ParallelShadow.depthPass sh dm scene (ParallelShadow.lightMatrices glm).1
          (ParallelShadow.lightMatrices glm).2 (ParallelShadow.beforeDepthPass s))
        (ParallelShadow.frame glm sh dm scene woodTexture cam mode s))
        { enabled := k.enabled, mode := GLenum.GL_BACK }
      = { enabled := k.enabled, mode := GLenum.GL_BACK } := by
  have hframe : ParallelShadow.frame glm sh dm scene woodTexture cam mode s
      = ParallelShadow.lightingPass glm sh dm scene woodTexture cam mode ParallelShadow.aspect
          (ParallelShadow.lightMatrices glm).1 (ParallelShadow.lightMatrices glm).2
          (ParallelShadow.depthPass sh dm scene (ParallelShadow.lightMatrices glm).1
            (ParallelShadow.lightMatrices glm).2 (ParallelShadow.beforeDepthPass s)) := rfl
  have hd := ParallelShadow_depthPass_culling sh dm scene (ParallelShadow.lightMatrices glm).1
    (ParallelShadow.lightMatrices glm).2 s k
  have hl := ParallelShadow_lightingPass_culling glm sh dm scene woodTexture cam mode
    ParallelShadow.aspect (ParallelShadow.lightMatrices glm).1
    (ParallelShadow.lightMatrices glm).2
    (ParallelShadow.depthPass sh dm scene (ParallelShadow.lightMatrices glm).1
      (ParallelShadow.lightMatrices glm).2 (ParallelShadow.beforeDepthPass s))
    { enabled := k.enabled, mode := GLenum.GL_BACK }
  refine ⟨hframe, culling_of_draws _ _ _ 5 hd.1, ?_, hd.2, ?_, ?_, ?_⟩
  · simp [newCalls, ParallelShadow.depthPass, ParallelShadow.beforeDepthPass,
      ParallelShadow.renderScene, ParallelShadow.DepthMap.Bind,
      ParallelShadow.DepthMap.Unbind, Shader.use, Shader.setUniformMat4, glBindFramebuffer,
      glBindVertexArray, GLState.record, isDraw]
  · rw [hframe]
    exact culling_of_draws _ _ _ 5 hl.1
  · rw [hframe]
    simp [newCalls, ParallelShadow.lightingPass, ParallelShadow.renderScene,
      setCameraUniforms, Shader.use, Shader.setUniformMat4, Shader.setUniformVec3,
      Shader.setUniformFloat, Shader.setUniformBool, glActiveTexture, glBindTexture,
      glBindVertexArray, GLState.record, isDraw]
  · rw [hframe]
    exact hl.2


/-- C26 fails on the code. `initOpenGL` of `ParallelShadow.cpp` leaves face culling disabled,
for every outcome of its checks (the one of `PointShadow.cpp` enables it), and the calls up to
the render loop leave it so; in the first frame, the five draws of the depth pass are made
with cull mode `GL_FRONT` but with `GL_CULL_FACE` disabled, and the frame ends with face
culling disabled, as it began. -/
theorem ParallelShadow_depth_pass_culling_disabled :
    (∀ env, Culling.afterInit (initOpenGL Program.ParallelShadow env).2
      = { enabled := false, mode := GLenum.GL_BACK }) ∧
    (Culling.afterInit (initOpenGL Program.PointShadow initEnvOk).2).enabled = true ∧
    (initOpenGL Program.ParallelShadow initEnvOk).1 = true ∧
    Culling.run sampleParallelStart.2.gl.calls
        (Culling.afterInit (initOpenGL Program.ParallelShadow initEnvOk).2)
      = { enabled := false, mode := GLenum.GL_BACK } ∧
    ((newCalls sampleParallelStart.2.gl
        (ParallelShadow.depthPass sampleShaders sampleParallelStart.1 sampleScene
          (ParallelShadow.lightMatrices sampleGlm).1 (ParallelShadow.lightMatrices sampleGlm).2
          (ParallelShadow.beforeDepthPass sampleParallelStart.2.gl))).filter isDraw).length
      = 5 ∧
    (∀ kc ∈ Culling.trace (newCalls sampleParallelStart.2.gl
          (ParallelShadow.depthPass sampleShaders sampleParallelStart.1 sampleScene
            (ParallelShadow.lightMatrices sampleGlm).1
            (ParallelShadow.lightMatrices sampleGlm).2
            (ParallelShadow.beforeDepthPass sampleParallelStart.2.gl)))
        { enabled := false, mode := GLenum.GL_BACK },
      isDraw kc.2 = true → kc.1.enabled = false ∧ kc.1.mode = GLenum.GL_FRONT) ∧
    Culling.run (newCalls
        (ParallelShadow.depthPass sampleShaders sampleParallelStart.1 sampleScene
          (ParallelShadow.lightMatrices sampleGlm).1 (ParallelShadow.lightMatrices sampleGlm).2
          (ParallelShadow.beforeDepthPass sampleParallelStart.2.gl))
        (ParallelShadow.frame sampleGlm sampleShaders sampleParallelStart.1 sampleScene 9
          sampleCamera sampleMode sampleParallelStart.2.gl))
        (Culling.run (newCalls sampleParallelStart.2.gl
          (ParallelShadow.depthPass sampleShaders sampleParallelStart.1 sampleScene
            (ParallelShadow.lightMatrices sampleGlm).1
            (ParallelShadow.lightMatrices sampleGlm).2
            (ParallelShadow.beforeDepthPass sampleParallelStart.2.gl)))
          { enabled := false, mode := GLenum.GL_BACK })
      = { enabled := false, mode := GLenum.GL_BACK } := by
  have h := ParallelShadow_frame_culling sampleGlm sampleShaders sampleParallelStart.1
    sampleScene 9 sampleCamera sampleMode sampleParallelStart.2.gl
    { enabled := false, mode := GLenum.GL_BACK }
  refine ⟨?_, by decide, rfl, ?_, h.2.2.1, ?_, ?_⟩
  · intro env
    obtain ⟨a, b, c⟩ := env
    cases a <;> cases b <;> cases c <;> decide
  · rfl
  · intro kc hkc hd
    rw [h.2.1 kc hkc hd]
    exact ⟨rfl, rfl⟩
  · rw [h.2.2.2.1]
    exact h.2.2.2.2.2.2

/-! ## The byte ranges of the uniform buffer -/

/-- C28. In `UniformBuffers.cpp` the uniform buffer has `128` bytes (`2 * sizeof(mat4)`), the
projection matrix is written to the bytes `[0, 64)` and the view matrix to the bytes
`[64, 128)`: after the configuration block and a frame these are the two uploads into the
buffer, the two ranges are disjoint, both lie inside the buffer and inside the range bound to
binding point `0`, and a byte lies in one of them exactly when it lies in that range. -/
theorem uniform_buffer_ranges (sh0 sh1 sh2 sh3 : Shader) (blockIndexOf : Nat → String → Nat)
    (projection view : mat4) (s : GLState) :
    sizeofMat4 = 64 ∧
    assoc ((Machine.start s).perform (UniformBuffers.configureUniformBuffer sh0 sh1 sh2 sh3
        blockIndexOf projection)).1
      (((Machine.start s).perform (UniformBuffers.configureUniformBuffer sh0 sh1 sh2 sh3
        blockIndexOf projection)).2.after
        (UniformBuffers.frame
          ((Machine.start s).perform (UniformBuffers.configureUniformBuffer sh0 sh1 sh2 sh3
            blockIndexOf projection)).1 sh0 sh1 sh2 sh3 view
          ((Machine.start s).perform (UniformBuffers.configureUniformBuffer sh0 sh1 sh2 sh3
            blockIndexOf projection)).2.gl)).bufferSizes = some 128 ∧
    assoc 0
      (((Machine.start s).perform (UniformBuffers.configureUniformBuffer sh0 sh1 sh2 sh3
        blockIndexOf projection)).2.after
        (UniformBuffers.frame
          ((Machine.start s).perform (UniformBuffers.configureUniformBuffer sh0 sh1 sh2 sh3
            blockIndexOf projection)).1 sh0 sh1 sh2 sh3 view
          ((Machine.start s).perform (UniformBuffers.configureUniformBuffer sh0 sh1 sh2 sh3
            blockIndexOf projection)).2.gl)).bufferRanges
      = some (((Machine.start s).perform (UniformBuffers.configureUniformBuffer sh0 sh1 sh2 sh3
          blockIndexOf projection)).1, 0, 128) ∧
    (((Machine.start s).perform (UniformBuffers.configureUniformBuffer sh0 sh1 sh2 sh3
        blockIndexOf projection)).2.after
        (UniformBuffers.frame
          ((Machine.start s).perform (UniformBuffers.configureUniformBuffer sh0 sh1 sh2 sh3
            blockIndexOf projection)).1 sh0 sh1 sh2 sh3 view
          ((Machine.start s).perform (UniformBuffers.configureUniformBuffer sh0 sh1 sh2 sh3
            blockIndexOf projection)).2.gl)).uploads
      = [(((Machine.start s).perform (UniformBuffers.configureUniformBuffer sh0 sh1 sh2 sh3
            blockIndexOf projection)).1, (64, 64, view)),
         (((Machine.start s).perform (UniformBuffers.configureUniformBuffer sh0 sh1 sh2 sh3
            blockIndexOf projection)).1, (0, 64, projection))] ∧
    (((Machine.start s).perform (UniformBuffers.configureUniformBuffer sh0 sh1 sh2 sh3
        blockIndexOf projection)).2.after
        (UniformBuffers.frame
          ((Machine.start s).perform (UniformBuffers.configureUniformBuffer sh0 sh1 sh2 sh3
            blockIndexOf projection)).1 sh0 sh1 sh2 sh3 view
          ((Machine.start s).perform (UniformBuffers.configureUniformBuffer sh0 sh1 sh2 sh3
            blockIndexOf projection)).2.gl)).writtenRanges
        ((Machine.start s).perform (UniformBuffers.configureUniformBuffer sh0 sh1 sh2 sh3
          blockIndexOf projection)).1 = [(64, 64), (0, 64)] ∧
    List.Pairwise (fun a b : Nat × Nat => a.1 + a.2 ≤ b.1 ∨ b.1 + b.2 ≤ a.1)
      [(64, 64), (0, 64)] ∧
    (∀ r ∈ [((64 : Nat), (64 : Nat)), (0, 64)], r.1 + r.2 ≤ 128) ∧
    (∀ b : Nat, (∃ r ∈ [((64 : Nat), (64 : Nat)), (0, 64)], r.1 ≤ b ∧ b < r.1 + r.2)
      ↔ (0 ≤ b ∧ b < 0 + 128)) := by
  refine ⟨rfl, ?_, ?_, ?_, ?_, by simp, by simp, ?_⟩
  · simp [Machine.perform, Machine.after, Machine.start, newCalls, run, exec, assoc,
      Machine.bufferAt, UniformBuffers.configureUniformBuffer, UniformBuffers.frame,
      UniformBuffers.drawCube, Shader.use, Shader.setUniformMat4, glGenBuffers, glBindBuffer,
      GLState.record, sizeofMat4, sizeofFloat]
  · simp [Machine.perform, Machine.after, Machine.start, newCalls, run, exec, assoc,
      Machine.bufferAt, UniformBuffers.configureUniformBuffer, UniformBuffers.frame,
      UniformBuffers.drawCube, Shader.use, Shader.setUniformMat4, glGenBuffers, glBindBuffer,
      GLState.record, sizeofMat4, sizeofFloat]
  · simp [Machine.perform, Machine.after, Machine.start, newCalls, run, exec, assoc,
      Machine.bufferAt, UniformBuffers.configureUniformBuffer, UniformBuffers.frame,
      UniformBuffers.drawCube, Shader.use, Shader.setUniformMat4, glGenBuffers, glBindBuffer,
      GLState.record, sizeofMat4, sizeofFloat]
  · simp [Machine.writtenRanges, Machine.perform, Machine.after, Machine.start, newCalls, run,
      exec, assoc, Machine.bufferAt, UniformBuffers.configureUniformBuffer,
      UniformBuffers.frame, UniformBuffers.drawCube, Shader.use, Shader.setUniformMat4,
      glGenBuffers, glBindBuffer, GLState.record, sizeofMat4, sizeofFloat]
  · intro b
    constructor
    · rintro ⟨r, hr, h1, h2⟩
      simp only [List.mem_cons, List.mem_singleton, List.not_mem_nil, or_false] at hr
      rcases hr with rfl | rfl <;> simp at h1 h2 ⊢ <;> omega
    · rintro ⟨_, h⟩
      by_cases hb : b < 64
      · exact ⟨(0, 64), by simp, by simp, by simpa using hb⟩
      · exact ⟨(64, 64), by simp, by simp; omega, by simp; omega⟩
/-! ## The instance attributes of `Instancing.cpp` -/

theorem VertexFetch_run_append (a b : List GLCall) (v : VertexFetch) :
    VertexFetch.run (a ++ b) v = VertexFetch.run b (VertexFetch.run a v) := by
  induction a generalizing v with
  | nil => rfl
  | cons c cs ih => exact ih _

theorem configureMesh_calls (mesh : Instancing.Mesh) (s : GLState) :
    (Instancing.configureMesh mesh s).calls = s.calls ++ Instancing.configureMeshCalls mesh := by
  simp [Instancing.configureMesh, Instancing.configureMeshCalls, glBindVertexArray,
    GLState.record]

theorem configureMeshes_calls (meshes : List Instancing.Mesh) (s : GLState) :
    (meshes.foldl (fun s mesh => Instancing.configureMesh mesh s) s).calls
      = s.calls ++ Instancing.configureMeshesCalls meshes := by
  induction meshes generalizing s with
  | nil => simp [Instancing.configureMeshesCalls]
  | cons m ms ih =>
    rw [List.foldl_cons, ih, configureMesh_calls, Instancing.configureMeshesCalls,
      List.append_assoc]

/-- The calls of `configureInstances`, in order. -/
theorem configureInstances_calls (meshes : List Instancing.Mesh) (s : GLState) :
    (Instancing.configureInstances meshes s).1 = freshName s.buffers ∧
    newCalls s (Instancing.configureInstances meshes s).2
      = [GLCall.glGenBuffers (freshName s.buffers),
         GLCall.glBindBuffer GLenum.GL_ARRAY_BUFFER (freshName s.buffers),
         GLCall.glBufferData GLenum.GL_ARRAY_BUFFER (Instancing.cnt_obj * sizeofMat4)
           GLenum.GL_STATIC_DRAW] ++ Instancing.configureMeshesCalls meshes := by
  refine ⟨rfl, ?_⟩
  simp [newCalls, Instancing.configureInstances, configureMeshes_calls, glGenBuffers,
    glBindBuffer, GLState.record]

theorem drawMeshes_calls (meshes : List Instancing.Mesh) (s : GLState) :
    (meshes.foldl (fun s mesh => Instancing.drawMesh mesh s) s).calls
      = s.calls ++ Instancing.drawMeshesCalls meshes := by
  induction meshes generalizing s with
  | nil => simp [Instancing.drawMeshesCalls]
  | cons m ms ih =>
    rw [List.foldl_cons, ih]
    simp [Instancing.drawMesh, Instancing.drawMeshesCalls, glBindVertexArray, GLState.record]

/-- The calls of `drawInstances`, in order. -/
theorem drawInstances_calls (instanceShader : Shader) (rockTexture : Nat)
    (meshes : List Instancing.Mesh) (s : GLState) :
    newCalls s (Instancing.drawInstances instanceShader rockTexture meshes s)
      = [GLCall.useProgram instanceShader.id,
         GLCall.uniformInt instanceShader.id "uMaterial.texture_diffuse1" 0,
         GLCall.glActiveTexture 0,
         GLCall.glBindTexture GLenum.GL_TEXTURE_2D rockTexture]
        ++ Instancing.drawMeshesCalls meshes := by
  simp [newCalls, Instancing.drawInstances, drawMeshes_calls, Shader.use,
    Shader.setUniformInt, glActiveTexture, glBindTexture, GLState.record]

theorem drawMeshesCalls_draws (meshes : List Instancing.Mesh) :
    (Instancing.drawMeshesCalls meshes).filter isDraw
      = meshes.map (fun mesh => GLCall.glDrawElementsInstanced GLenum.GL_TRIANGLES
          mesh.indexCount GLenum.GL_UNSIGNED_INT 0 Instancing.cnt_obj) := by
  induction meshes with
  | nil => rfl
  | cons m ms ih => simp [Instancing.drawMeshesCalls, isDraw, ih]

/-- The vertex fetch state after the calls of `configureMesh`. -/
theorem run_configureMeshCalls (mesh : Instancing.Mesh) (v : VertexFetch) :
    VertexFetch.run (Instancing.configureMeshCalls mesh) v
      = { boundArrayBuffer := v.boundArrayBuffer
          boundVertexArray := 0
          bufferSizes := v.bufferSizes
          pointers :=
            ((mesh.VAO, 6), ⟨v.boundArrayBuffer, 4, GLenum.GL_FLOAT, 64, 48⟩) ::
            ((mesh.VAO, 5), ⟨v.boundArrayBuffer, 4, GLenum.GL_FLOAT, 64, 32⟩) ::
            ((mesh.VAO, 4), ⟨v.boundArrayBuffer, 4, GLenum.GL_FLOAT, 64, 16⟩) ::
            ((mesh.VAO, 3), ⟨v.boundArrayBuffer, 4, GLenum.GL_FLOAT, 64, 0⟩) :: v.pointers
          divisors :=
            ((mesh.VAO, 6), 1) :: ((mesh.VAO, 5), 1) :: ((mesh.VAO, 4), 1) ::
            ((mesh.VAO, 3), 1) :: v.divisors
          enabled :=
            (mesh.VAO, 6) :: (mesh.VAO, 5) :: (mesh.VAO, 4) :: (mesh.VAO, 3) :: v.enabled } := by
  simp [VertexFetch.run, VertexFetch.exec, Instancing.configureMeshCalls,
    Instancing.sizeofVec4, sizeofFloat]

/-- Declaring the attributes of a mesh keeps the declarations of a vertex array that are as
`main` wants them, and makes them so for the vertex array of the mesh. -/
theorem configureMesh_attributes (mesh : Instancing.Mesh) (v : VertexFetch) (vao ibo : Nat)
    (hb : v.boundArrayBuffer = ibo)
    (h : mesh.VAO = vao ∨ ∀ k, k < 4 →
      assoc (vao, 3 + k) v.pointers = some ⟨ibo, 4, GLenum.GL_FLOAT, 64, 16 * k⟩ ∧
      assoc (vao, 3 + k) v.divisors = some 1 ∧ (vao, 3 + k) ∈ v.enabled) :
    ∀ k, k < 4 →
      assoc (vao, 3 + k) (VertexFetch.run (Instancing.configureMeshCalls mesh) v).pointers
        = some ⟨ibo, 4, GLenum.GL_FLOAT, 64, 16 * k⟩ ∧
      assoc (vao, 3 + k) (VertexFetch.run (Instancing.configureMeshCalls mesh) v).divisors
        = some 1 ∧
      (vao, 3 + k) ∈ (VertexFetch.run (Instancing.configureMeshCalls mesh) v).enabled := by
  rw [run_configureMeshCalls]
  intro k hk
  by_cases e : mesh.VAO = vao
  · subst e
    interval_cases k <;> simp [assoc, hb]
  · have h' := h.resolve_left e k hk
    interval_cases k <;>
      (simp at h'; simp [assoc, e]; exact ⟨h'.1, h'.2.1, Or.inr h'.2.2⟩)

theorem configureMeshes_bindings (meshes : List Instancing.Mesh) (v : VertexFetch) :
    (VertexFetch.run (Instancing.configureMeshesCalls meshes) v).boundArrayBuffer
      = v.boundArrayBuffer ∧
    (VertexFetch.run (Instancing.configureMeshesCalls meshes) v).bufferSizes
      = v.bufferSizes := by
  induction meshes generalizing v with
  | nil => exact ⟨rfl, rfl⟩
  | cons m ms ih =>
    rw [Instancing.configureMeshesCalls, VertexFetch_run_append]
    have h := ih (VertexFetch.run (Instancing.configureMeshCalls m) v)
    rw [run_configureMeshCalls] at h ⊢
    exact h

theorem configureMeshes_keep (meshes : List Instancing.Mesh) (v : VertexFetch) (vao ibo : Nat)
    (hb : v.boundArrayBuffer = ibo)
    (h : ∀ k, k < 4 →
      assoc (vao, 3 + k) v.pointers = some ⟨ibo, 4, GLenum.GL_FLOAT, 64, 16 * k⟩ ∧
      assoc (vao, 3 + k) v.divisors = some 1 ∧ (vao, 3 + k) ∈ v.enabled) :
    ∀ k, k < 4 →
      assoc (vao, 3 + k) (VertexFetch.run (Instancing.configureMeshesCalls meshes) v).pointers
        = some ⟨ibo, 4, GLenum.GL_FLOAT, 64, 16 * k⟩ ∧
      assoc (vao, 3 + k) (VertexFetch.run (Instancing.configureMeshesCalls meshes) v).divisors
        = some 1 ∧
      (vao, 3 + k) ∈ (VertexFetch.run (Instancing.configureMeshesCalls meshes) v).enabled := by
  induction meshes generalizing v with
  | nil => exact h
  | cons m ms ih =>
    rw [Instancing.configureMeshesCalls, VertexFetch_run_append]
    refine ih _ ?_ (configureMesh_attributes m v vao ibo hb (Or.inr h))
    rw [run_configureMeshCalls]
    exact hb

theorem configureMeshes_attributes (meshes : List Instancing.Mesh) (v : VertexFetch)
    (ibo : Nat) (hb : v.boundArrayBuffer = ibo) :
    ∀ mesh ∈ meshes, ∀ k, k < 4 →
      assoc (mesh.VAO, 3 + k)
          (VertexFetch.run (Instancing.configureMeshesCalls meshes) v).pointers
        = some ⟨ibo, 4, GLenum.GL_FLOAT, 64, 16 * k⟩ ∧
      assoc (mesh.VAO, 3 + k)
          (VertexFetch.run (Instancing.configureMeshesCalls meshes) v).divisors = some 1 ∧
      (mesh.VAO, 3 + k)
        ∈ (VertexFetch.run (Instancing.configureMeshesCalls meshes) v).enabled := by
  induction meshes generalizing v with
  | nil => intro mesh hm; exact absurd hm (List.not_mem_nil _)
  | cons m ms ih =>
    intro mesh hm
    rw [Instancing.configureMeshesCalls, VertexFetch_run_append]
    have hb1 : (VertexFetch.run (Instancing.configureMeshCalls m) v).boundArrayBuffer = ibo := by
      rw [run_configureMeshCalls]
      exact hb
    rcases List.mem_cons.mp hm with rfl | hm
    · exact configureMeshes_keep ms _ mesh.VAO ibo hb1
        (configureMesh_attributes mesh v mesh.VAO ibo hb (Or.inl rfl))
    · exact ih _ hb1 mesh hm
/-- C29. In `Instancing.cpp` the per-instance model matrix is exposed, for every mesh of the
rock, as four `vec4` attributes at the locations `3, 4, 5, 6` of the vertex array of the mesh:
each is enabled, reads four floats from the instance buffer `ibo` with stride `64` and byte
offset `0, 16, 32, 48`, and has divisor `1`.  For instance `i` the four attributes read the
16-byte slices at `64 i + 16 k`, which are pairwise disjoint and cover exactly the bytes
`[64 i, 64 i + 64)` of one `mat4`; for `i < cnt_obj` these bytes lie inside the instance
buffer, whose size is `cnt_obj * 64` bytes; and the draws of block (1) are one
`glDrawElementsInstanced` per mesh, each with instance count `cnt_obj`. -/
theorem instance_matrix_attributes (meshes : List Instancing.Mesh) (instanceShader : Shader)
    (rockTexture : Nat) (s s' : GLState) :
    (sizeofMat4 = 64 ∧ Instancing.sizeofVec4 = 16) ∧
    assoc (Instancing.configureInstances meshes s).1
        (VertexFetch.run (newCalls s (Instancing.configureInstances meshes s).2)
          (VertexFetch.start s)).bufferSizes = some (Instancing.cnt_obj * 64) ∧
    (∀ mesh ∈ meshes, ∀ k, k < 4 →
      assoc (mesh.VAO, 3 + k)
          (VertexFetch.run (newCalls s (Instancing.configureInstances meshes s).2)
            (VertexFetch.start s)).pointers
        = some ⟨(Instancing.configureInstances meshes s).1, 4, GLenum.GL_FLOAT, 64, 16 * k⟩ ∧
      assoc (mesh.VAO, 3 + k)
          (VertexFetch.run (newCalls s (Instancing.configureInstances meshes s).2)
            (VertexFetch.start s)).divisors = some 1 ∧
      (mesh.VAO, 3 + k)
        ∈ (VertexFetch.run (newCalls s (Instancing.configureInstances meshes s).2)
            (VertexFetch.start s)).enabled) ∧
    (∀ ibo k i, k < 4 →
      (AttribPointer.mk ibo 4 GLenum.GL_FLOAT 64 (16 * k)).instanceRange 1 i
        = (64 * i + 16 * k, 16)) ∧
    (∀ k k' i, k < 4 → k' < 4 → k ≠ k' →
      64 * i + 16 * k + 16 ≤ 64 * i + 16 * k' ∨ 64 * i + 16 * k' + 16 ≤ 64 * i + 16 * k) ∧
    (∀ i b, (∃ k, k < 4 ∧ 64 * i + 16 * k ≤ b ∧ b < 64 * i + 16 * k + 16)
      ↔ (64 * i ≤ b ∧ b < 64 * i + 64)) ∧
    (∀ i, i < Instancing.cnt_obj → 64 * i + 64 ≤ Instancing.cnt_obj * 64) ∧
    (newCalls s' (Instancing.drawInstances instanceShader rockTexture meshes s')).filter isDraw
      = meshes.map (fun mesh => GLCall.glDrawElementsInstanced GLenum.GL_TRIANGLES
          mesh.indexCount GLenum.GL_UNSIGNED_INT 0 Instancing.cnt_obj) ∧
    (∀ c ∈ newCalls s' (Instancing.drawInstances instanceShader rockTexture meshes s'),
      isDraw c = true → Instancing.instanceCount c = some Instancing.cnt_obj) := by
  have hcalls := configureInstances_calls meshes s
  have hdraws : (newCalls s'
      (Instancing.drawInstances instanceShader rockTexture meshes s')).filter isDraw
      = meshes.map (fun mesh => GLCall.glDrawElementsInstanced GLenum.GL_TRIANGLES
          mesh.indexCount GLenum.GL_UNSIGNED_INT 0 Instancing.cnt_obj) := by
    rw [drawInstances_calls, List.filter_append, drawMeshesCalls_draws]
    rfl
  refine ⟨⟨rfl, rfl⟩, ?_, ?_, ?_, ?_, ?_, ?_, hdraws, ?_⟩
  · rw [hcalls.2, hcalls.1, VertexFetch_run_append,
      (configureMeshes_bindings meshes _).2]
    simp [VertexFetch.run, VertexFetch.exec, VertexFetch.start, assoc, sizeofMat4,
      sizeofFloat]
  · rw [hcalls.2, hcalls.1, VertexFetch_run_append]
    exact configureMeshes_attributes meshes _ (freshName s.buffers) rfl
  · intro ibo k i _
    simp [AttribPointer.instanceRange, sizeofFloat, Nat.add_comm]
  · intro k k' i hk hk' hne
    omega
  · intro i b
    constructor
    · rintro ⟨k, hk, h1, h2⟩
      omega
    · rintro ⟨h1, h2⟩
      exact ⟨(b - 64 * i) / 16, by omega, by omega, by omega⟩
  · intro i hi
    simp only [Instancing.cnt_obj] at hi ⊢
    omega
  · intro c hc hd
    have hm : c ∈ (newCalls s'
        (Instancing.drawInstances instanceShader rockTexture meshes s')).filter isDraw :=
      List.mem_filter.mpr ⟨hc, hd⟩
    rw [hdraws] at hm
    obtain ⟨mesh, _, rfl⟩ := List.mem_map.mp hm
    rfl

end LearnOpenGL
